import Mathlib

/-!
# Resource-trusts module of cloudfox: embedding and verified properties

Shallow embedding of `aws/resource-trusts.go` (the scan pass and the ranking step of
`PrintResources`, `executeChecks`, the fetch tasks and the heuristic
`isResourcePolicyInteresting`) and of the cached lookups of `aws/sdk/apigateway.go` and
`aws/sdk/ec2.go`, together with the library primitives they call.

Modelling conventions
* A Go `string` is the list of its runes (`Str`).  Go compares strings byte-wise; on
  UTF-8 text that is the lexicographic order of the code points, which is what
  `strLess` computes.
* `strings.ToLower` and `strings.ToUpper` map every rune by `unicode.ToLower` and
  `unicode.ToUpper`, which look the rune up in the table `unicode.CaseRanges`.
* A Go result pair `(v, err)` is a Lean pair whose second component is an
  `Option` error text.
* Sends on `dataReceiver` are collected, in order, in a list.
* Goroutines are run one after the other, each until it returns or waits for ever in a
  send on the semaphore; `wg.Wait()` returns when none of them waits.
* A remote client is a transition function on a client state; a loop that need not end
  takes fuel.
-/

namespace CloudFox

/-! ## Strings -/

/-- Go strings, as rune sequences. -/
abbrev Str := List Char

/-! ## Letter case (Go package `unicode`) -/

/-- Go `unicode.MaxRune`. -/
def unicode.MaxRune : Int := 0x10FFFF

/-- Go `unicode.MaxASCII`. -/
def unicode.MaxASCII : Nat := 0x7F

/-- Go `unicode.UpperCase`, the index of the upper-case delta. -/
def unicode.UpperCase : Nat := 0

/-- Go `unicode.LowerCase`, the index of the lower-case delta. -/
def unicode.LowerCase : Nat := 1

/-- Go `unicode.UpperLower`: the delta of a range in which upper-case and lower-case letters
alternate, starting with an upper-case letter. -/
def unicode.UpperLower : Int := unicode.MaxRune + 1

/-- Go `unicode.d`, the deltas of a range for upper, lower and title case. -/
structure unicode.d where
  upper : Int
  lower : Int
  title : Int

/-- The delta for a case, `delta[_case]`. -/
def unicode.d.get (delta : unicode.d) (_case : Nat) : Int :=
  match _case with
  | 0 => delta.upper
  | 1 => delta.lower
  | _ => delta.title

/-- Go `unicode.CaseRange`: the code points `Lo`..`Hi` (`uint32` in the source) and the deltas
to add to them. -/
structure unicode.CaseRange where
  Lo : Nat
  Hi : Nat
  Delta : unicode.d

open unicode in
/-- Go `unicode.CaseRanges` (the table `_CaseRanges` of `unicode/tables.go`): the simple case
mappings of the Unicode character database, version 15.0.0 (Go 1.21), by ranges of code
points in increasing order. -/
def unicode.CaseRanges : List unicode.CaseRange :=
  [ CaseRange.mk 0x0041 0x005A (d.mk 0 32 0),
    CaseRange.mk 0x0061 0x007A (d.mk (-32) 0 (-32)),
    CaseRange.mk 0x00B5 0x00B5 (d.mk 743 0 743),
    CaseRange.mk 0x00C0 0x00D6 (d.mk 0 32 0),
    CaseRange.mk 0x00D8 0x00DE (d.mk 0 32 0),
    CaseRange.mk 0x00E0 0x00F6 (d.mk (-32) 0 (-32)),
    CaseRange.mk 0x00F8 0x00FE (d.mk (-32) 0 (-32)),
    CaseRange.mk 0x00FF 0x00FF (d.mk 121 0 121),
    CaseRange.mk 0x0100 0x012F (d.mk UpperLower UpperLower UpperLower),
    CaseRange.mk 0x0130 0x0130 (d.mk 0 (-199) 0),
    CaseRange.mk 0x0131 0x0131 (d.mk (-232) 0 (-232)),
    CaseRange.mk 0x0132 0x0137 (d.mk UpperLower UpperLower UpperLower),
    CaseRange.mk 0x0139 0x0148 (d.mk UpperLower UpperLower UpperLower),
    CaseRange.mk 0x014A 0x0177 (d.mk UpperLower UpperLower UpperLower),
    CaseRange.mk 0x0178 0x0178 (d.mk 0 (-121) 0),
    CaseRange.mk 0x0179 0x017E (d.mk UpperLower UpperLower UpperLower),
    CaseRange.mk 0x017F 0x017F (d.mk (-300) 0 (-300)),
    CaseRange.mk 0x0180 0x0180 (d.mk 195 0 195),
    CaseRange.mk 0x0181 0x0181 (d.mk 0 210 0),
    CaseRange.mk 0x0182 0x0185 (d.mk UpperLower UpperLower UpperLower),
    CaseRange.mk 0x0186 0x0186 (d.mk 0 206 0),
    CaseRange.mk 0x0187 0x0188 (d.mk UpperLower UpperLower UpperLower),
    CaseRange.mk 0x0189 0x018A (d.mk 0 205 0),
    CaseRange.mk 0x018B 0x018C (d.mk UpperLower UpperLower UpperLower),
    CaseRange.mk 0x018E 0x018E (d.mk 0 79 0),
    CaseRange.mk 0x018F 0x018F (d.mk 0 202 0),
    CaseRange.mk 0x0190 0x0190 (d.mk 0 203 0),
    CaseRange.mk 0x0191 0x0192 (d.mk UpperLower UpperLower UpperLower),
    CaseRange.mk 0x0193 0x0193 (d.mk 0 205 0),
    CaseRange.mk 0x0194 0x0194 (d.mk 0 207 0),
    CaseRange.mk 0x0195 0x0195 (d.mk 97 0 97),
    CaseRange.mk 0x0196 0x0196 (d.mk 0 211 0),
    CaseRange.mk 0x0197 0x0197 (d.mk 0 209 0),
    CaseRange.mk 0x0198 0x0199 (d.mk UpperLower UpperLower UpperLower),
    CaseRange.mk 0x019A 0x019A (d.mk 163 0 163),
    CaseRange.mk 0x019C 0x019C (d.mk 0 211 0),
    CaseRange.mk 0x019D 0x019D (d.mk 0 213 0),
    CaseRange.mk 0x019E 0x019E (d.mk 130 0 130),
    CaseRange.mk 0x019F 0x019F (d.mk 0 214 0),
    CaseRange.mk 0x01A0 0x01A5 (d.mk UpperLower UpperLower UpperLower),
    CaseRange.mk 0x01A6 0x01A6 (d.mk 0 218 0),
    CaseRange.mk 0x01A7 0x01A8 (d.mk UpperLower UpperLower UpperLower),
    CaseRange.mk 0x01A9 0x01A9 (d.mk 0 218 0),
    CaseRange.mk 0x01AC 0x01AD (d.mk UpperLower UpperLower UpperLower),
    CaseRange.mk 0x01AE 0x01AE (d.mk 0 218 0),
    CaseRange.mk 0x01AF 0x01B0 (d.mk UpperLower UpperLower UpperLower),
    CaseRange.mk 0x01B1 0x01B2 (d.mk 0 217 0),
    CaseRange.mk 0x01B3 0x01B6 (d.mk UpperLower UpperLower UpperLower),
    CaseRange.mk 0x01B7 0x01B7 (d.mk 0 219 0),
    CaseRange.mk 0x01B8 0x01B9 (d.mk UpperLower UpperLower UpperLower),
    CaseRange.mk 0x01BC 0x01BD (d.mk UpperLower UpperLower UpperLower),
    CaseRange.mk 0x01BF 0x01BF (d.mk 56 0 56),
    CaseRange.mk 0x01C4 0x01C4 (d.mk 0 2 1),
    CaseRange.mk 0x01C5 0x01C5 (d.mk (-1) 1 0),
    CaseRange.mk 0x01C6 0x01C6 (d.mk (-2) 0 (-1)),
    CaseRange.mk 0x01C7 0x01C7 (d.mk 0 2 1),
    CaseRange.mk 0x01C8 0x01C8 (d.mk (-1) 1 0),
    CaseRange.mk 0x01C9 0x01C9 (d.mk (-2) 0 (-1)),
    CaseRange.mk 0x01CA 0x01CA (d.mk 0 2 1),
    CaseRange.mk 0x01CB 0x01CB (d.mk (-1) 1 0),
    CaseRange.mk 0x01CC 0x01CC (d.mk (-2) 0 (-1)),
    CaseRange.mk 0x01CD 0x01DC (d.mk UpperLower UpperLower UpperLower),
    CaseRange.mk 0x01DD 0x01DD (d.mk (-79) 0 (-79)),
    CaseRange.mk 0x01DE 0x01EF (d.mk UpperLower UpperLower UpperLower),
    CaseRange.mk 0x01F1 0x01F1 (d.mk 0 2 1),
    CaseRange.mk 0x01F2 0x01F2 (d.mk (-1) 1 0),
    CaseRange.mk 0x01F3 0x01F3 (d.mk (-2) 0 (-1)),
    CaseRange.mk 0x01F4 0x01F5 (d.mk UpperLower UpperLower UpperLower),
    CaseRange.mk 0x01F6 0x01F6 (d.mk 0 (-97) 0),
    CaseRange.mk 0x01F7 0x01F7 (d.mk 0 (-56) 0),
    CaseRange.mk 0x01F8 0x021F (d.mk UpperLower UpperLower UpperLower),
    CaseRange.mk 0x0220 0x0220 (d.mk 0 (-130) 0),
    CaseRange.mk 0x0222 0x0233 (d.mk UpperLower UpperLower UpperLower),
    CaseRange.mk 0x023A 0x023A (d.mk 0 10795 0),
    CaseRange.mk 0x023B 0x023C (d.mk UpperLower UpperLower UpperLower),
    CaseRange.mk 0x023D 0x023D (d.mk 0 (-163) 0),
    CaseRange.mk 0x023E 0x023E (d.mk 0 10792 0),
    CaseRange.mk 0x023F 0x0240 (d.mk 10815 0 10815),
    CaseRange.mk 0x0241 0x0242 (d.mk UpperLower UpperLower UpperLower),
    CaseRange.mk 0x0243 0x0243 (d.mk 0 (-195) 0),
    CaseRange.mk 0x0244 0x0244 (d.mk 0 69 0),
    CaseRange.mk 0x0245 0x0245 (d.mk 0 71 0),
    CaseRange.mk 0x0246 0x024F (d.mk UpperLower UpperLower UpperLower),
    CaseRange.mk 0x0250 0x0250 (d.mk 10783 0 10783),
    CaseRange.mk 0x0251 0x0251 (d.mk 10780 0 10780),
    CaseRange.mk 0x0252 0x0252 (d.mk 10782 0 10782),
    CaseRange.mk 0x0253 0x0253 (d.mk (-210) 0 (-210)),
    CaseRange.mk 0x0254 0x0254 (d.mk (-206) 0 (-206)),
    CaseRange.mk 0x0256 0x0257 (d.mk (-205) 0 (-205)),
    CaseRange.mk 0x0259 0x0259 (d.mk (-202) 0 (-202)),
    CaseRange.mk 0x025B 0x025B (d.mk (-203) 0 (-203)),
    CaseRange.mk 0x025C 0x025C (d.mk 42319 0 42319),
    CaseRange.mk 0x0260 0x0260 (d.mk (-205) 0 (-205)),
    CaseRange.mk 0x0261 0x0261 (d.mk 42315 0 42315),
    CaseRange.mk 0x0263 0x0263 (d.mk (-207) 0 (-207)),
    CaseRange.mk 0x0265 0x0265 (d.mk 42280 0 42280),
    CaseRange.mk 0x0266 0x0266 (d.mk 42308 0 42308),
    CaseRange.mk 0x0268 0x0268 (d.mk (-209) 0 (-209)),
    CaseRange.mk 0x0269 0x0269 (d.mk (-211) 0 (-211)),
    CaseRange.mk 0x026A 0x026A (d.mk 42308 0 42308),
    CaseRange.mk 0x026B 0x026B (d.mk 10743 0 10743),
    CaseRange.mk 0x026C 0x026C (d.mk 42305 0 42305),
    CaseRange.mk 0x026F 0x026F (d.mk (-211) 0 (-211)),
    CaseRange.mk 0x0271 0x0271 (d.mk 10749 0 10749),
    CaseRange.mk 0x0272 0x0272 (d.mk (-213) 0 (-213)),
    CaseRange.mk 0x0275 0x0275 (d.mk (-214) 0 (-214)),
    CaseRange.mk 0x027D 0x027D (d.mk 10727 0 10727),
    CaseRange.mk 0x0280 0x0280 (d.mk (-218) 0 (-218)),
    CaseRange.mk 0x0282 0x0282 (d.mk 42307 0 42307),
    CaseRange.mk 0x0283 0x0283 (d.mk (-218) 0 (-218)),
    CaseRange.mk 0x0287 0x0287 (d.mk 42282 0 42282),
    CaseRange.mk 0x0288 0x0288 (d.mk (-218) 0 (-218)),
    CaseRange.mk 0x0289 0x0289 (d.mk (-69) 0 (-69)),
    CaseRange.mk 0x028A 0x028B (d.mk (-217) 0 (-217)),
    CaseRange.mk 0x028C 0x028C (d.mk (-71) 0 (-71)),
    CaseRange.mk 0x0292 0x0292 (d.mk (-219) 0 (-219)),
    CaseRange.mk 0x029D 0x029D (d.mk 42261 0 42261),
    CaseRange.mk 0x029E 0x029E (d.mk 42258 0 42258),
    CaseRange.mk 0x0345 0x0345 (d.mk 84 0 84),
    CaseRange.mk 0x0370 0x0373 (d.mk UpperLower UpperLower UpperLower),
    CaseRange.mk 0x0376 0x0377 (d.mk UpperLower UpperLower UpperLower),
    CaseRange.mk 0x037B 0x037D (d.mk 130 0 130),
    CaseRange.mk 0x037F 0x037F (d.mk 0 116 0),
    CaseRange.mk 0x0386 0x0386 (d.mk 0 38 0),
    CaseRange.mk 0x0388 0x038A (d.mk 0 37 0),
    CaseRange.mk 0x038C 0x038C (d.mk 0 64 0),
    CaseRange.mk 0x038E 0x038F (d.mk 0 63 0),
    CaseRange.mk 0x0391 0x03A1 (d.mk 0 32 0),
    CaseRange.mk 0x03A3 0x03AB (d.mk 0 32 0),
    CaseRange.mk 0x03AC 0x03AC (d.mk (-38) 0 (-38)),
    CaseRange.mk 0x03AD 0x03AF (d.mk (-37) 0 (-37)),
    CaseRange.mk 0x03B1 0x03C1 (d.mk (-32) 0 (-32)),
    CaseRange.mk 0x03C2 0x03C2 (d.mk (-31) 0 (-31)),
    CaseRange.mk 0x03C3 0x03CB (d.mk (-32) 0 (-32)),
    CaseRange.mk 0x03CC 0x03CC (d.mk (-64) 0 (-64)),
    CaseRange.mk 0x03CD 0x03CE (d.mk (-63) 0 (-63)),
    CaseRange.mk 0x03CF 0x03CF (d.mk 0 8 0),
    CaseRange.mk 0x03D0 0x03D0 (d.mk (-62) 0 (-62)),
    CaseRange.mk 0x03D1 0x03D1 (d.mk (-57) 0 (-57)),
    CaseRange.mk 0x03D5 0x03D5 (d.mk (-47) 0 (-47)),
    CaseRange.mk 0x03D6 0x03D6 (d.mk (-54) 0 (-54)),
    CaseRange.mk 0x03D7 0x03D7 (d.mk (-8) 0 (-8)),
    CaseRange.mk 0x03D8 0x03EF (d.mk UpperLower UpperLower UpperLower),
    CaseRange.mk 0x03F0 0x03F0 (d.mk (-86) 0 (-86)),
    CaseRange.mk 0x03F1 0x03F1 (d.mk (-80) 0 (-80)),
    CaseRange.mk 0x03F2 0x03F2 (d.mk 7 0 7),
    CaseRange.mk 0x03F3 0x03F3 (d.mk (-116) 0 (-116)),
    CaseRange.mk 0x03F4 0x03F4 (d.mk 0 (-60) 0),
    CaseRange.mk 0x03F5 0x03F5 (d.mk (-96) 0 (-96)),
    CaseRange.mk 0x03F7 0x03F8 (d.mk UpperLower UpperLower UpperLower),
    CaseRange.mk 0x03F9 0x03F9 (d.mk 0 (-7) 0),
    CaseRange.mk 0x03FA 0x03FB (d.mk UpperLower UpperLower UpperLower),
    CaseRange.mk 0x03FD 0x03FF (d.mk 0 (-130) 0),
    CaseRange.mk 0x0400 0x040F (d.mk 0 80 0),
    CaseRange.mk 0x0410 0x042F (d.mk 0 32 0),
    CaseRange.mk 0x0430 0x044F (d.mk (-32) 0 (-32)),
    CaseRange.mk 0x0450 0x045F (d.mk (-80) 0 (-80)),
    CaseRange.mk 0x0460 0x0481 (d.mk UpperLower UpperLower UpperLower),
    CaseRange.mk 0x048A 0x04BF (d.mk UpperLower UpperLower UpperLower),
    CaseRange.mk 0x04C0 0x04C0 (d.mk 0 15 0),
    CaseRange.mk 0x04C1 0x04CE (d.mk UpperLower UpperLower UpperLower),
    CaseRange.mk 0x04CF 0x04CF (d.mk (-15) 0 (-15)),
    CaseRange.mk 0x04D0 0x052F (d.mk UpperLower UpperLower UpperLower),
    CaseRange.mk 0x0531 0x0556 (d.mk 0 48 0),
    CaseRange.mk 0x0561 0x0586 (d.mk (-48) 0 (-48)),
    CaseRange.mk 0x10A0 0x10C5 (d.mk 0 7264 0),
    CaseRange.mk 0x10C7 0x10C7 (d.mk 0 7264 0),
    CaseRange.mk 0x10CD 0x10CD (d.mk 0 7264 0),
    CaseRange.mk 0x10D0 0x10FA (d.mk 3008 0 0),
    CaseRange.mk 0x10FD 0x10FF (d.mk 3008 0 0),
    CaseRange.mk 0x13A0 0x13EF (d.mk 0 38864 0),
    CaseRange.mk 0x13F0 0x13F5 (d.mk 0 8 0),
    CaseRange.mk 0x13F8 0x13FD (d.mk (-8) 0 (-8)),
    CaseRange.mk 0x1C80 0x1C80 (d.mk (-6254) 0 (-6254)),
    CaseRange.mk 0x1C81 0x1C81 (d.mk (-6253) 0 (-6253)),
    CaseRange.mk 0x1C82 0x1C82 (d.mk (-6244) 0 (-6244)),
    CaseRange.mk 0x1C83 0x1C84 (d.mk (-6242) 0 (-6242)),
    CaseRange.mk 0x1C85 0x1C85 (d.mk (-6243) 0 (-6243)),
    CaseRange.mk 0x1C86 0x1C86 (d.mk (-6236) 0 (-6236)),
    CaseRange.mk 0x1C87 0x1C87 (d.mk (-6181) 0 (-6181)),
    CaseRange.mk 0x1C88 0x1C88 (d.mk 35266 0 35266),
    CaseRange.mk 0x1C90 0x1CBA (d.mk 0 (-3008) 0),
    CaseRange.mk 0x1CBD 0x1CBF (d.mk 0 (-3008) 0),
    CaseRange.mk 0x1D79 0x1D79 (d.mk 35332 0 35332),
    CaseRange.mk 0x1D7D 0x1D7D (d.mk 3814 0 3814),
    CaseRange.mk 0x1D8E 0x1D8E (d.mk 35384 0 35384),
    CaseRange.mk 0x1E00 0x1E95 (d.mk UpperLower UpperLower UpperLower),
    CaseRange.mk 0x1E9B 0x1E9B (d.mk (-59) 0 (-59)),
    CaseRange.mk 0x1E9E 0x1E9E (d.mk 0 (-7615) 0),
    CaseRange.mk 0x1EA0 0x1EFF (d.mk UpperLower UpperLower UpperLower),
    CaseRange.mk 0x1F00 0x1F07 (d.mk 8 0 8),
    CaseRange.mk 0x1F08 0x1F0F (d.mk 0 (-8) 0),
    CaseRange.mk 0x1F10 0x1F15 (d.mk 8 0 8),
    CaseRange.mk 0x1F18 0x1F1D (d.mk 0 (-8) 0),
    CaseRange.mk 0x1F20 0x1F27 (d.mk 8 0 8),
    CaseRange.mk 0x1F28 0x1F2F (d.mk 0 (-8) 0),
    CaseRange.mk 0x1F30 0x1F37 (d.mk 8 0 8),
    CaseRange.mk 0x1F38 0x1F3F (d.mk 0 (-8) 0),
    CaseRange.mk 0x1F40 0x1F45 (d.mk 8 0 8),
    CaseRange.mk 0x1F48 0x1F4D (d.mk 0 (-8) 0),
    CaseRange.mk 0x1F51 0x1F51 (d.mk 8 0 8),
    CaseRange.mk 0x1F53 0x1F53 (d.mk 8 0 8),
    CaseRange.mk 0x1F55 0x1F55 (d.mk 8 0 8),
    CaseRange.mk 0x1F57 0x1F57 (d.mk 8 0 8),
    CaseRange.mk 0x1F59 0x1F59 (d.mk 0 (-8) 0),
    CaseRange.mk 0x1F5B 0x1F5B (d.mk 0 (-8) 0),
    CaseRange.mk 0x1F5D 0x1F5D (d.mk 0 (-8) 0),
    CaseRange.mk 0x1F5F 0x1F5F (d.mk 0 (-8) 0),
    CaseRange.mk 0x1F60 0x1F67 (d.mk 8 0 8),
    CaseRange.mk 0x1F68 0x1F6F (d.mk 0 (-8) 0),
    CaseRange.mk 0x1F70 0x1F71 (d.mk 74 0 74),
    CaseRange.mk 0x1F72 0x1F75 (d.mk 86 0 86),
    CaseRange.mk 0x1F76 0x1F77 (d.mk 100 0 100),
    CaseRange.mk 0x1F78 0x1F79 (d.mk 128 0 128),
    CaseRange.mk 0x1F7A 0x1F7B (d.mk 112 0 112),
    CaseRange.mk 0x1F7C 0x1F7D (d.mk 126 0 126),
    CaseRange.mk 0x1F80 0x1F87 (d.mk 8 0 8),
    CaseRange.mk 0x1F88 0x1F8F (d.mk 0 (-8) 0),
    CaseRange.mk 0x1F90 0x1F97 (d.mk 8 0 8),
    CaseRange.mk 0x1F98 0x1F9F (d.mk 0 (-8) 0),
    CaseRange.mk 0x1FA0 0x1FA7 (d.mk 8 0 8),
    CaseRange.mk 0x1FA8 0x1FAF (d.mk 0 (-8) 0),
    CaseRange.mk 0x1FB0 0x1FB1 (d.mk 8 0 8),
    CaseRange.mk 0x1FB3 0x1FB3 (d.mk 9 0 9),
    CaseRange.mk 0x1FB8 0x1FB9 (d.mk 0 (-8) 0),
    CaseRange.mk 0x1FBA 0x1FBB (d.mk 0 (-74) 0),
    CaseRange.mk 0x1FBC 0x1FBC (d.mk 0 (-9) 0),
    CaseRange.mk 0x1FBE 0x1FBE (d.mk (-7205) 0 (-7205)),
    CaseRange.mk 0x1FC3 0x1FC3 (d.mk 9 0 9),
    CaseRange.mk 0x1FC8 0x1FCB (d.mk 0 (-86) 0),
    CaseRange.mk 0x1FCC 0x1FCC (d.mk 0 (-9) 0),
    CaseRange.mk 0x1FD0 0x1FD1 (d.mk 8 0 8),
    CaseRange.mk 0x1FD8 0x1FD9 (d.mk 0 (-8) 0),
    CaseRange.mk 0x1FDA 0x1FDB (d.mk 0 (-100) 0),
    CaseRange.mk 0x1FE0 0x1FE1 (d.mk 8 0 8),
    CaseRange.mk 0x1FE5 0x1FE5 (d.mk 7 0 7),
    CaseRange.mk 0x1FE8 0x1FE9 (d.mk 0 (-8) 0),
    CaseRange.mk 0x1FEA 0x1FEB (d.mk 0 (-112) 0),
    CaseRange.mk 0x1FEC 0x1FEC (d.mk 0 (-7) 0),
    CaseRange.mk 0x1FF3 0x1FF3 (d.mk 9 0 9),
    CaseRange.mk 0x1FF8 0x1FF9 (d.mk 0 (-128) 0),
    CaseRange.mk 0x1FFA 0x1FFB (d.mk 0 (-126) 0),
    CaseRange.mk 0x1FFC 0x1FFC (d.mk 0 (-9) 0),
    CaseRange.mk 0x2126 0x2126 (d.mk 0 (-7517) 0),
    CaseRange.mk 0x212A 0x212A (d.mk 0 (-8383) 0),
    CaseRange.mk 0x212B 0x212B (d.mk 0 (-8262) 0),
    CaseRange.mk 0x2132 0x2132 (d.mk 0 28 0),
    CaseRange.mk 0x214E 0x214E (d.mk (-28) 0 (-28)),
    CaseRange.mk 0x2160 0x216F (d.mk 0 16 0),
    CaseRange.mk 0x2170 0x217F (d.mk (-16) 0 (-16)),
    CaseRange.mk 0x2183 0x2184 (d.mk UpperLower UpperLower UpperLower),
    CaseRange.mk 0x24B6 0x24CF (d.mk 0 26 0),
    CaseRange.mk 0x24D0 0x24E9 (d.mk (-26) 0 (-26)),
    CaseRange.mk 0x2C00 0x2C2F (d.mk 0 48 0),
    CaseRange.mk 0x2C30 0x2C5F (d.mk (-48) 0 (-48)),
    CaseRange.mk 0x2C60 0x2C61 (d.mk UpperLower UpperLower UpperLower),
    CaseRange.mk 0x2C62 0x2C62 (d.mk 0 (-10743) 0),
    CaseRange.mk 0x2C63 0x2C63 (d.mk 0 (-3814) 0),
    CaseRange.mk 0x2C64 0x2C64 (d.mk 0 (-10727) 0),
    CaseRange.mk 0x2C65 0x2C65 (d.mk (-10795) 0 (-10795)),
    CaseRange.mk 0x2C66 0x2C66 (d.mk (-10792) 0 (-10792)),
    CaseRange.mk 0x2C67 0x2C6C (d.mk UpperLower UpperLower UpperLower),
    CaseRange.mk 0x2C6D 0x2C6D (d.mk 0 (-10780) 0),
    CaseRange.mk 0x2C6E 0x2C6E (d.mk 0 (-10749) 0),
    CaseRange.mk 0x2C6F 0x2C6F (d.mk 0 (-10783) 0),
    CaseRange.mk 0x2C70 0x2C70 (d.mk 0 (-10782) 0),
    CaseRange.mk 0x2C72 0x2C73 (d.mk UpperLower UpperLower UpperLower),
    CaseRange.mk 0x2C75 0x2C76 (d.mk UpperLower UpperLower UpperLower),
    CaseRange.mk 0x2C7E 0x2C7F (d.mk 0 (-10815) 0),
    CaseRange.mk 0x2C80 0x2CE3 (d.mk UpperLower UpperLower UpperLower),
    CaseRange.mk 0x2CEB 0x2CEE (d.mk UpperLower UpperLower UpperLower),
    CaseRange.mk 0x2CF2 0x2CF3 (d.mk UpperLower UpperLower UpperLower),
    CaseRange.mk 0x2D00 0x2D25 (d.mk (-7264) 0 (-7264)),
    CaseRange.mk 0x2D27 0x2D27 (d.mk (-7264) 0 (-7264)),
    CaseRange.mk 0x2D2D 0x2D2D (d.mk (-7264) 0 (-7264)),
    CaseRange.mk 0xA640 0xA66D (d.mk UpperLower UpperLower UpperLower),
    CaseRange.mk 0xA680 0xA69B (d.mk UpperLower UpperLower UpperLower),
    CaseRange.mk 0xA722 0xA72F (d.mk UpperLower UpperLower UpperLower),
    CaseRange.mk 0xA732 0xA76F (d.mk UpperLower UpperLower UpperLower),
    CaseRange.mk 0xA779 0xA77C (d.mk UpperLower UpperLower UpperLower),
    CaseRange.mk 0xA77D 0xA77D (d.mk 0 (-35332) 0),
    CaseRange.mk 0xA77E 0xA787 (d.mk UpperLower UpperLower UpperLower),
    CaseRange.mk 0xA78B 0xA78C (d.mk UpperLower UpperLower UpperLower),
    CaseRange.mk 0xA78D 0xA78D (d.mk 0 (-42280) 0),
    CaseRange.mk 0xA790 0xA793 (d.mk UpperLower UpperLower UpperLower),
    CaseRange.mk 0xA794 0xA794 (d.mk 48 0 48),
    CaseRange.mk 0xA796 0xA7A9 (d.mk UpperLower UpperLower UpperLower),
    CaseRange.mk 0xA7AA 0xA7AA (d.mk 0 (-42308) 0),
    CaseRange.mk 0xA7AB 0xA7AB (d.mk 0 (-42319) 0),
    CaseRange.mk 0xA7AC 0xA7AC (d.mk 0 (-42315) 0),
    CaseRange.mk 0xA7AD 0xA7AD (d.mk 0 (-42305) 0),
    CaseRange.mk 0xA7AE 0xA7AE (d.mk 0 (-42308) 0),
    CaseRange.mk 0xA7B0 0xA7B0 (d.mk 0 (-42258) 0),
    CaseRange.mk 0xA7B1 0xA7B1 (d.mk 0 (-42282) 0),
    CaseRange.mk 0xA7B2 0xA7B2 (d.mk 0 (-42261) 0),
    CaseRange.mk 0xA7B3 0xA7B3 (d.mk 0 928 0),
    CaseRange.mk 0xA7B4 0xA7C3 (d.mk UpperLower UpperLower UpperLower),
    CaseRange.mk 0xA7C4 0xA7C4 (d.mk 0 (-48) 0),
    CaseRange.mk 0xA7C5 0xA7C5 (d.mk 0 (-42307) 0),
    CaseRange.mk 0xA7C6 0xA7C6 (d.mk 0 (-35384) 0),
    CaseRange.mk 0xA7C7 0xA7CA (d.mk UpperLower UpperLower UpperLower),
    CaseRange.mk 0xA7D0 0xA7D1 (d.mk UpperLower UpperLower UpperLower),
    CaseRange.mk 0xA7D6 0xA7D9 (d.mk UpperLower UpperLower UpperLower),
    CaseRange.mk 0xA7F5 0xA7F6 (d.mk UpperLower UpperLower UpperLower),
    CaseRange.mk 0xAB53 0xAB53 (d.mk (-928) 0 (-928)),
    CaseRange.mk 0xAB70 0xABBF (d.mk (-38864) 0 (-38864)),
    CaseRange.mk 0xFF21 0xFF3A (d.mk 0 32 0),
    CaseRange.mk 0xFF41 0xFF5A (d.mk (-32) 0 (-32)),
    CaseRange.mk 0x10400 0x10427 (d.mk 0 40 0),
    CaseRange.mk 0x10428 0x1044F (d.mk (-40) 0 (-40)),
    CaseRange.mk 0x104B0 0x104D3 (d.mk 0 40 0),
    CaseRange.mk 0x104D8 0x104FB (d.mk (-40) 0 (-40)),
    CaseRange.mk 0x10570 0x1057A (d.mk 0 39 0),
    CaseRange.mk 0x1057C 0x1058A (d.mk 0 39 0),
    CaseRange.mk 0x1058C 0x10592 (d.mk 0 39 0),
    CaseRange.mk 0x10594 0x10595 (d.mk 0 39 0),
    CaseRange.mk 0x10597 0x105A1 (d.mk (-39) 0 (-39)),
    CaseRange.mk 0x105A3 0x105B1 (d.mk (-39) 0 (-39)),
    CaseRange.mk 0x105B3 0x105B9 (d.mk (-39) 0 (-39)),
    CaseRange.mk 0x105BB 0x105BC (d.mk (-39) 0 (-39)),
    CaseRange.mk 0x10C80 0x10CB2 (d.mk 0 64 0),
    CaseRange.mk 0x10CC0 0x10CF2 (d.mk (-64) 0 (-64)),
    CaseRange.mk 0x118A0 0x118BF (d.mk 0 32 0),
    CaseRange.mk 0x118C0 0x118DF (d.mk (-32) 0 (-32)),
    CaseRange.mk 0x16E40 0x16E5F (d.mk 0 32 0),
    CaseRange.mk 0x16E60 0x16E7F (d.mk (-32) 0 (-32)),
    CaseRange.mk 0x1E900 0x1E921 (d.mk 0 34 0),
    CaseRange.mk 0x1E922 0x1E943 (d.mk (-34) 0 (-34)) ]

/-- The mapped rune that Go `unicode.to` returns for a rune `r` of the range `cr`: in an
`UpperLower` range the lowest bit of the offset is cleared and replaced by the lowest bit
of `_case` (`(r - cr.Lo) &^ 1 | _case & 1`), elsewhere the delta is added. -/
def unicode.CaseRange.map (cr : unicode.CaseRange) (_case : Nat) (r : Int) : Int :=
  if cr.Delta.get _case > unicode.MaxRune then
    (cr.Lo : Int) + ((r - (cr.Lo : Int)) / 2 * 2 + ((_case % 2 : Nat) : Int))
  else r + cr.Delta.get _case

/-- Go `unicode.to` for `_case` one of `UpperCase`, `LowerCase`, `TitleCase`: the range of the
table that holds `r` maps it, and a rune in no range is returned as it is.  The source finds
the range by binary search; the ranges are disjoint and in increasing order
(`caseRanges_sorted`), so it is the range that this scan finds (`to_of_mem`). -/
def unicode.to (_case : Nat) (r : Int) : List unicode.CaseRange → Int
  | [] => r
  | cr :: caseRange =>
    if (cr.Lo : Int) ≤ r ∧ r ≤ (cr.Hi : Int) then cr.map _case r
    else unicode.to _case r caseRange

/-- Go `unicode.ToLower`. -/
def unicode.ToLower (r : Char) : Char :=
  if r.toNat ≤ unicode.MaxASCII then
    if 'A'.toNat ≤ r.toNat ∧ r.toNat ≤ 'Z'.toNat then
      Char.ofNat (r.toNat + ('a'.toNat - 'A'.toNat))
    else r
  else Char.ofNat (unicode.to unicode.LowerCase r.toNat unicode.CaseRanges).toNat

/-- Go `unicode.ToUpper`. -/
def unicode.ToUpper (r : Char) : Char :=
  if r.toNat ≤ unicode.MaxASCII then
    if 'a'.toNat ≤ r.toNat ∧ r.toNat ≤ 'z'.toNat then
      Char.ofNat (r.toNat - ('a'.toNat - 'A'.toNat))
    else r
  else Char.ofNat (unicode.to unicode.UpperCase r.toNat unicode.CaseRanges).toNat

/-- No range of the table that meets the code points `lo`..`hi` changes a rune under
lower-casing; the search ends at the first range beyond `hi`. -/
def lowerSettled (lo hi : Nat) : List unicode.CaseRange → Bool
  | [] => true
  | cr :: caseRange =>
    if hi < cr.Lo then true
    else (decide (cr.Hi < lo) || decide (cr.Delta.lower = 0)) && lowerSettled lo hi caseRange

/-- The lower-case images of the range `cr` are code points outside the surrogates, and
the table `caseRange` leaves them alone: an `UpperLower` range has an even number of code
points, so that the images stay within it, and the images of another range meet no range
that changes them. -/
def lowerStable (caseRange : List unicode.CaseRange) (cr : unicode.CaseRange) : Bool :=
  if cr.Delta.lower > unicode.MaxRune then
    decide ((cr.Hi - cr.Lo) % 2 = 1) &&
      (decide (cr.Hi < 0xD800) || (decide (0xDFFF < cr.Lo) && decide (cr.Hi < 0x110000)))
  else if cr.Delta.lower = 0 then true
  else
    decide (0 ≤ cr.Lo + cr.Delta.lower) &&
      (decide ((cr.Hi + cr.Delta.lower).toNat < 0xD800) ||
        (decide (0xDFFF < (cr.Lo + cr.Delta.lower).toNat) &&
          decide ((cr.Hi + cr.Delta.lower).toNat < 0x110000))) &&
      lowerSettled (cr.Lo + cr.Delta.lower).toNat (cr.Hi + cr.Delta.lower).toNat caseRange

/-- The ranges of a table are disjoint and in increasing order. -/
def rangesSorted : List unicode.CaseRange → Bool
  | [] => true
  | [cr] => decide (cr.Lo ≤ cr.Hi)
  | cr :: next :: caseRange =>
    decide (cr.Lo ≤ cr.Hi) && decide (cr.Hi < next.Lo) && rangesSorted (next :: caseRange)

/-! ## Strings (Go package `strings`) -/

/-- Go `strings.HasPrefix(s, p)`. -/
def HasPrefix : Str → Str → Bool
  | _, [] => true
  | [], _ :: _ => false
  | c :: s, d :: p => c == d && HasPrefix s p

/-- Go `strings.Contains(s, substr)`: `substr` occurs somewhere within `s`. -/
def Contains : Str → Str → Bool
  | [], sub => HasPrefix [] sub
  | c :: s, sub => HasPrefix (c :: s) sub || Contains s sub

/-- Go `strings.ToLower(s)`, which is `strings.Map(unicode.ToLower, s)`. -/
def ToLower (s : Str) : Str := s.map unicode.ToLower

/-- Go `strings.ToUpper(s)`, which is `strings.Map(unicode.ToUpper, s)`. -/
def ToUpper (s : Str) : Str := s.map unicode.ToUpper

/-- Go `strings.HasSuffix(s, suffix)`. -/
def HasSuffix (s suffix : Str) : Bool := HasPrefix s.reverse suffix.reverse

/-- Go `strings.TrimSuffix(s, suffix)`: `s` without the trailing `suffix` when it ends
with it, `s` itself otherwise. -/
def TrimSuffix (s suffix : Str) : Str :=
  if HasSuffix s suffix then s.take (s.length - suffix.length) else s

/-- Go `s1 < s2` on strings. -/
def strLess : Str → Str → Bool
  | [], [] => false
  | [], _ :: _ => true
  | _ :: _, [] => false
  | a :: s, b :: t =>
    if a.toNat < b.toNat then true
    else if b.toNat < a.toNat then false
    else strLess s t

/-- The text `fmt.Sprintf("Statement %d says: ", i)` for an index `i ≥ 0`. -/
def statementPrefix (i : Nat) : Str :=
  "Statement ".toList ++ (Nat.repr i).toList ++ " says: ".toList

/-! ## The heuristic -/

/-- Source: `isResourcePolicyInteresting` (resource-trusts.go, lines 1280-1298). -/
def isResourcePolicyInteresting (statementSummaryInEnglish : Str) : Bool :=
  if (Contains (ToLower statementSummaryInEnglish) (ToLower "Everyone".toList)
        && !Contains (ToLower statementSummaryInEnglish) "denied".toList) ||
      Contains (ToLower statementSummaryInEnglish) (ToLower "aws:PrincipalOrgID".toList) ||
      Contains (ToLower statementSummaryInEnglish) (ToLower "aws:PrincipalAccount".toList) ||
      Contains (ToLower statementSummaryInEnglish) (ToLower "aws:PrincipalOrgPaths".toList) ||
      Contains (ToLower statementSummaryInEnglish) (ToLower "role".toList) ||
      Contains (ToLower statementSummaryInEnglish) (ToLower "root".toList) ||
      (Contains (ToLower statementSummaryInEnglish) (ToLower "aws:arn".toList)
        && !Contains (ToLower statementSummaryInEnglish) (ToLower "SourceArn".toList)) ||
      (Contains (ToLower statementSummaryInEnglish) (ToLower "aws:arn".toList)
        && !Contains (ToLower statementSummaryInEnglish) (ToLower "SourceAccount".toList))
  then true
  else false

/-- Go `strings.ReplaceAll(s, old, new)` for a non-empty `old`: the occurrences of `old`
are replaced from left to right and do not overlap.  The counter says how many runes
of an occurrence already replaced are still to be skipped. -/
def replaceFrom (old new : Str) : Nat → Str → Str
  | _, [] => []
  | skip + 1, _ :: rest => replaceFrom old new skip rest
  | 0, c :: rest =>
    if HasPrefix (c :: rest) old then new ++ replaceFrom old new (old.length - 1) rest
    else c :: replaceFrom old new 0 rest

/-- Go `strings.ReplaceAll(s, old, new)` (non-empty `old`). -/
def ReplaceAll (s old new : Str) : Str := replaceFrom old new 0 s

/-- Go `aws.ToString(p)`: the empty string for a nil pointer. -/
def awsToString : Option Str → Str
  | none => []
  | some s => s

/-- Go `aws.ToBool(p)`: false for a nil pointer. -/
def awsToBool : Option Bool → Bool
  | none => false
  | some b => b

/-! ## Policies and the other collaborators of the module -/

/-- A parsed policy document (type `policy.Policy`): its ordered statements.  The statement
type is left open; the module only hands statements to the policy package. -/
structure Policy (Stmt : Type) where
  Statement : List Stmt
  deriving DecidableEq, Repr

/-- Modelled from the spec: `Policy.IsEmpty` of package `internal/aws/policy`, which is not
among the sources ("`IsEmpty()` ⇔ zero statements"). -/
def Policy.IsEmpty {Stmt : Type} (p : Policy Stmt) : Bool := p.Statement.isEmpty

/-- What resource-trusts.go uses and does not define: the colouring closure `magenta` of the
package, and from package `policy` the statement summariser, the public-access test, the
parser (a Go result pair) and the `Resource` field of a statement. -/
structure Deps (Stmt : Type) where
  magenta : Str → Str
  GetStatementSummaryInEnglish : Stmt → Str → Str
  IsPublic : Policy Stmt → Bool
  ParseJSONPolicy : Str → Policy Stmt × Option Str
  Resource : Stmt → List Str

/-- Source: `Resource2` (resource-trusts.go, lines 47-61).  The field `Policy` is left out:
no fetch task assigns it and nothing reads it. -/
structure Resource2 where
  AccountID : Str := []
  Name : Str := []
  ARN : Str := []
  Region : Str := []
  PolicyJSON : Str := []
  ResourcePolicySummary : Str := []
  Public : Str := []
  Interesting : Str := []
  TrustedPrincipals : Str := []
  TrustsCrossAccount : Str := []
  TrustsAllAccounts : Str := []
  HasConditions : Str := []
  deriving DecidableEq, Repr

/-- Source: `internal.CommandCounter` (internal/aws.go, lines 376-382). -/
structure CommandCounter where
  Total : Int := 0
  Pending : Int := 0
  Complete : Int := 0
  Error : Int := 0
  Executing : Int := 0
  deriving DecidableEq, Repr

/-- What one pass of a task's resource loop does: the findings sent on `dataReceiver`, in
order, and how often `m.CommandCounter.Error++` ran. -/
structure ResourceOut where
  sent : List Resource2 := []
  errors : Int := 0
  deriving DecidableEq, Repr

/-- What a whole task does: the findings sent and the counters at its end. -/
structure TaskOut where
  sent : List Resource2
  counter : CommandCounter
  deriving DecidableEq, Repr

/-- The literal `"No"`. -/
def no : Str := "No".toList

/-- The call `magenta("Yes")`. -/
def yes {Stmt : Type} (d : Deps Stmt) : Str := d.magenta "Yes".toList

/-- The newline `"\n"`. -/
def nl : Str := "\n".toList

section Tasks

variable {Stmt : Type}

/-! ## Ranking (`PrintResources`, lines 159-162) -/

/-- One pass of the inner loop of Go's `insertionSortLessFunc`: the new element `x` is
swapped leftwards while `less x y` holds for its left neighbour `y`.  The argument is the
sorted part read from right to left, and so is the result. -/
def siftLeft {α : Type} (less : α → α → Bool) (x : α) : List α → List α
  | [] => [x]
  | y :: ys => if less x y then y :: siftLeft less x ys else x :: y :: ys

/-- Go `sort.Slice(xs, less)`, with `less` given on the elements: insertion sort, which is
what the library runs on slices of at most 12 elements. -/
def sortSlice {α : Type} (less : α → α → Bool) (xs : List α) : List α :=
  (xs.foldl (fun sortedRev x => siftLeft less x sortedRev) []).reverse

/-- The comparator of the ranking step, `less(i, j)` being
`m.Resources2[j].Interesting > m.Resources2[i].Interesting`. -/
def lessInteresting (ri rj : Resource2) : Bool := strLess ri.Interesting rj.Interesting

/-- Source: the ranking step of `PrintResources` (lines 159-162). -/
def rankResources (resources2 : List Resource2) : List Resource2 :=
  sortSlice lessInteresting resources2

/-! ## Summaries -/

/-- The summary of statement number `i` of a policy with `n` statements in the tasks that
send one finding per statement (e.g. `getSQSQueuesPerRegion`, lines 547-554). -/
def statementSummary (d : Deps Stmt) (account : Str) (n i : Nat) (statement : Stmt) : Str :=
  TrimSuffix
    (if n > 1 then
      statementPrefix i ++ d.GetStatementSummaryInEnglish statement account ++ nl
    else d.GetStatementSummaryInEnglish statement account)
    nl

/-- The statement loop of `getS3Buckets` (lines 484-492) and of `getSNSTopicsPerRegion`
(lines 398-407): `n` is `len(Policy.Statement)`, `i` the index of the next statement and
`acc` the value of `statementSummaryInEnglish` so far. -/
def accumulateSummary (d : Deps Stmt) (account : Str) (n : Nat) : Nat → Str → List Stmt → Str
  | _, acc, [] => acc
  | i, acc, statement :: rest =>
    accumulateSummary d account n (i + 1)
      (if n > 1 then
        acc ++ statementPrefix i ++ d.GetStatementSummaryInEnglish statement account ++ nl
      else d.GetStatementSummaryInEnglish statement account)
      rest

/-- The summary that `getS3Buckets` and `getSNSTopicsPerRegion` put on their finding
(lines 484-493, 398-408). -/
def joinedSummary (d : Deps Stmt) (account : Str) (p : Policy Stmt) : Str :=
  TrimSuffix (accumulateSummary d account p.Statement.length 0 [] p.Statement) nl

/-- The statement loop shared, text for text, by the tasks that send one finding per
statement (SQS 546-569, ECR 610-633, CodeBuild 684-707, Lambda 749-772, EFS 815-838,
SecretsManager 885-908, KMS 952-976, APIGateway 1019-1043, VpcEndpoint 1089-1113,
OpenSearch 1182-1206).  `mk` builds the finding from the summary and the current value of
`isInteresting`, which the loop carries from one statement to the next. -/
def statementLoop (d : Deps Stmt) (account : Str) (mk : Str → Str → Resource2) (n : Nat) :
    Nat → Str → List Stmt → List Resource2
  | _, _, [] => []
  | i, isInteresting, statement :: rest =>
    let statementSummaryInEnglish := statementSummary d account n i statement
    let isInteresting :=
      if isResourcePolicyInteresting statementSummaryInEnglish then yes d else isInteresting
    mk statementSummaryInEnglish isInteresting ::
      statementLoop d account mk n (i + 1) isInteresting rest

/-- The finding literal of the fetch tasks (e.g. lines 560-568). -/
def mkFinding (account arn name region isPublic summary isInteresting : Str) : Resource2 :=
  { AccountID := account, ARN := arn, ResourcePolicySummary := summary, Public := isPublic,
    Name := name, Region := region, Interesting := isInteresting }

/-! ## The resource loops of the fetch tasks

Each `...Body` is one pass of the `for` loop of the task over the listed resources; the
results of the remote calls made for that resource are part of its input. -/

/-- A bucket of `ListBuckets` with the results of `sdk.CachedGetBucketLocation` and
`sdk.CachedGetBucketPolicy` for it. -/
structure BucketInput where
  Name : Str
  CachedGetBucketLocation : Str × Option Str
  CachedGetBucketPolicy : Str × Option Str

/-- Source: the loop body of `getS3Buckets` (lines 447-509). -/
def getS3BucketsBody (d : Deps Stmt) (account : Str) (b : BucketInput) : ResourceOut :=
  match b.CachedGetBucketLocation with
  | (_, some _) => { sent := [], errors := 0 }
  | (region, none) =>
    match b.CachedGetBucketPolicy with
    | (_, some _) => { sent := [], errors := 0 }
    | (policyJSON, none) =>
      let parsed := d.ParseJSONPolicy policyJSON
      -- `bucket.Policy` keeps its zero value when parsing fails
      let bucketPolicy : Policy Stmt :=
        match parsed.2 with
        | some _ => { Statement := [] }
        | none => parsed.1
      let bucketIsPublic := if d.IsPublic parsed.1 then yes d else no
      let isInteresting := if d.IsPublic parsed.1 then yes d else no
      if !bucketPolicy.IsEmpty then
        let statementSummaryInEnglish := joinedSummary d account bucketPolicy
        let isInteresting :=
          if isResourcePolicyInteresting statementSummaryInEnglish then yes d else isInteresting
        { sent := [mkFinding account ("arn:aws:s3:::".toList ++ b.Name) b.Name region
                    bucketIsPublic statementSummaryInEnglish isInteresting],
          errors := 0 }
      else { sent := [], errors := 0 }

/-- A topic of `listTopics` with the result of `getTopicWithAttributes` (the policy of the
topic and the error) and of `arn.Parse` on its ARN (`Resource` and `Region`, or nothing on
an error). -/
structure TopicInput (Stmt : Type) where
  TopicArn : Str
  getTopicWithAttributes : Policy Stmt × Option Str
  arnParse : Option (Str × Str)

/-- Source: the loop body of `getSNSTopicsPerRegion` (lines 370-425). -/
def getSNSTopicsPerRegionBody (d : Deps Stmt) (account : Str) (t : TopicInput Stmt) :
    ResourceOut :=
  match t.getTopicWithAttributes with
  | (_, some _) => { sent := [], errors := 1 }
  | (topicPolicy, none) =>
    let topicName := match t.arnParse with
      | none => t.TopicArn
      | some parsedArn => parsedArn.1
    let parsedArnRegion := match t.arnParse with
      | none => []
      | some parsedArn => parsedArn.2
    let topicIsPublic := if d.IsPublic topicPolicy then yes d else no
    let isInteresting := if d.IsPublic topicPolicy then yes d else no
    if !topicPolicy.IsEmpty then
      let statementSummaryInEnglish := joinedSummary d account topicPolicy
      let isInteresting :=
        if isResourcePolicyInteresting statementSummaryInEnglish then yes d else isInteresting
      { sent := [mkFinding account t.TopicArn topicName parsedArnRegion topicIsPublic
                  statementSummaryInEnglish isInteresting],
        errors := 0 }
    else { sent := [], errors := 0 }

/-- A listed resource of one of the tasks that fetch a parsed policy per resource, with the
result of that fetch: `Arn` and `Name` are what the task puts into `ARN` and `Name` of its
findings (SQS: `queue.Arn`, `q`; ECR: `RepositoryArn`, `RepositoryName`; Lambda:
`FunctionArn`, `FunctionName`; EFS: `FileSystemArn`, `Name`; SecretsManager: `ARN`, `Name`;
KMS: `KeyArn`, `KeyId`). -/
structure PolicyResource (Stmt : Type) where
  Arn : Str
  Name : Str
  fetch : Policy Stmt × Option Str

/-- Source: the loop body of `getSQSQueuesPerRegion` (lines 530-571). -/
def getSQSQueuesPerRegionBody (d : Deps Stmt) (account r : Str) (q : PolicyResource Stmt) :
    ResourceOut :=
  match q.fetch with
  | (_, some _) => { sent := [], errors := 1 }
  | (queuePolicy, none) =>
    if !queuePolicy.IsEmpty then
      let isPublic := if d.IsPublic queuePolicy then yes d else no
      let isInteresting := if d.IsPublic queuePolicy then yes d else no
      { sent := statementLoop d account (mkFinding account q.Arn q.Name r isPublic)
                  queuePolicy.Statement.length 0 isInteresting queuePolicy.Statement,
        errors := 0 }
    else { sent := [], errors := 0 }

/-- Source: the loop body of `getECRRecordsPerRegion` (lines 592-635). -/
def getECRRecordsPerRegionBody (d : Deps Stmt) (account r : Str) (repo : PolicyResource Stmt) :
    ResourceOut :=
  match repo.fetch with
  | (_, some _) => { sent := [], errors := 1 }
  | (repoPolicy, none) =>
    if !repoPolicy.IsEmpty then
      let isPublic := if d.IsPublic repoPolicy then yes d else no
      let isInteresting := if d.IsPublic repoPolicy then yes d else no
      { sent := statementLoop d account (mkFinding account repo.Arn repo.Name r isPublic)
                  repoPolicy.Statement.length 0 isInteresting repoPolicy.Statement,
        errors := 0 }
    else { sent := [], errors := 0 }

/-- A project of `ListProjects` with the results of `sdk.CachedCodeBuildBatchGetProjects`
(ARN and name of the project, error) and `sdk.CachedCodeBuildGetResourcePolicy`. -/
structure ProjectInput where
  CachedCodeBuildBatchGetProjects : (Str × Str) × Option Str
  CachedCodeBuildGetResourcePolicy : Str × Option Str

/-- Source: the loop body of `getCodeBuildResourcePoliciesPerRegion` (lines 656-709). -/
def getCodeBuildResourcePoliciesPerRegionBody (d : Deps Stmt) (account r : Str)
    (p : ProjectInput) : ResourceOut :=
  match p.CachedCodeBuildBatchGetProjects with
  | (_, some _) => { sent := [], errors := 1 }
  | (project, none) =>
    match p.CachedCodeBuildGetResourcePolicy with
    | (_, some _) => { sent := [], errors := 0 }
    | (policyJSON, none) =>
      -- the error of the parser is not looked at
      let projectPolicy := (d.ParseJSONPolicy policyJSON).1
      if !projectPolicy.IsEmpty then
        let isPublic := if d.IsPublic projectPolicy then yes d else no
        let isInteresting := if d.IsPublic projectPolicy then yes d else no
        { sent := statementLoop d account (mkFinding account project.1 project.2 r isPublic)
                    projectPolicy.Statement.length 0 isInteresting projectPolicy.Statement,
          errors := 0 }
      else { sent := [], errors := 0 }

/-- Source: the loop body of `getLambdaPolicyPerRegion` (lines 730-774). -/
def getLambdaPolicyPerRegionBody (d : Deps Stmt) (account r : Str) (f : PolicyResource Stmt) :
    ResourceOut :=
  match f.fetch with
  | (_, some _) => { sent := [], errors := 1 }
  | (functionPolicy, none) =>
    if !functionPolicy.IsEmpty then
      let isPublic := if d.IsPublic functionPolicy then yes d else no
      let isInteresting := if d.IsPublic functionPolicy then yes d else no
      { sent := statementLoop d account (mkFinding account f.Arn f.Name r isPublic)
                  functionPolicy.Statement.length 0 isInteresting functionPolicy.Statement,
        errors := 0 }
    else { sent := [], errors := 0 }

/-- Source: the loop body of `getEFSfilesystemPoliciesPerRegion` (lines 795-840). -/
def getEFSfilesystemPoliciesPerRegionBody (d : Deps Stmt) (account r : Str)
    (fs : PolicyResource Stmt) : ResourceOut :=
  match fs.fetch with
  | (_, some _) => { sent := [], errors := 1 }
  | (fsPolicy, none) =>
    let isPublic := if d.IsPublic fsPolicy then yes d else no
    let isInteresting := if d.IsPublic fsPolicy then yes d else no
    if !fsPolicy.IsEmpty then
      { sent := statementLoop d account (mkFinding account fs.Arn fs.Name r isPublic)
                  fsPolicy.Statement.length 0 isInteresting fsPolicy.Statement,
        errors := 0 }
    else { sent := [], errors := 0 }

/-- Source: the loop body of `getSecretsManagerSecretsPoliciesPerRegion` (lines 865-910). -/
def getSecretsManagerSecretsPoliciesPerRegionBody (d : Deps Stmt) (account r : Str)
    (s : PolicyResource Stmt) : ResourceOut :=
  match s.fetch with
  | (_, some _) => { sent := [], errors := 1 }
  | (secretPolicy, none) =>
    let isPublic := if d.IsPublic secretPolicy then yes d else no
    let isInteresting := if d.IsPublic secretPolicy then yes d else no
    if !secretPolicy.IsEmpty then
      { sent := statementLoop d account (mkFinding account s.Arn s.Name r isPublic)
                  secretPolicy.Statement.length 0 isInteresting secretPolicy.Statement,
        errors := 0 }
    else { sent := [], errors := 0 }

/-- Source: the loop body of `getKMSPoliciesPerRegion` (lines 932-978). -/
def getKMSPoliciesPerRegionBody (d : Deps Stmt) (account r : Str) (key : PolicyResource Stmt) :
    ResourceOut :=
  match key.fetch with
  | (_, some _) => { sent := [], errors := 1 }
  | (keyPolicy, none) =>
    let isPublic := if d.IsPublic keyPolicy then yes d else no
    let isInteresting := if d.IsPublic keyPolicy then yes d else no
    if !keyPolicy.IsEmpty then
      { sent := statementLoop d account (mkFinding account key.Arn key.Name r isPublic)
                  keyPolicy.Statement.length 0 isInteresting keyPolicy.Statement,
        errors := 0 }
    else { sent := [], errors := 0 }

/-- The endpoint type `apiGatewayTypes.EndpointTypeRegional`. -/
def EndpointTypeRegional : Str := "REGIONAL".toList

/-- The endpoint type `apiGatewayTypes.EndpointTypeEdge`. -/
def EndpointTypeEdge : Str := "EDGE".toList

/-- The endpoint type `apiGatewayTypes.EndpointTypePrivate`. -/
def EndpointTypePrivate : Str := "PRIVATE".toList

/-- The fields of `apiGatewayTypes.RestApi` that the module reads; `Types` stands for
`EndpointConfiguration.Types`. -/
structure RestApi where
  Id : Str
  Name : Option Str
  Policy : Option Str
  Types : List Str

/-- The loop of `IsPublicApiGateway` over the endpoint types. -/
def anyPublicEndpointType : List Str → Bool
  | [] => false
  | endpointType :: rest =>
    if endpointType == EndpointTypeRegional || endpointType == EndpointTypeEdge then true
    else anyPublicEndpointType rest

/-- Source: `IsPublicApiGateway` (sdk/apigateway.go, lines 56-64). -/
def IsPublicApiGateway (ra : RestApi) : Bool := anyPublicEndpointType ra.Types

/-- The test `p != nil && *p != ""` on a string pointer. -/
def nonEmptyPtr : Option Str → Bool
  | none => false
  | some s => s != []

/-- Source: the loop body of `getAPIGatewayPoliciesPerRegion` (lines 996-1056). -/
def getAPIGatewayPoliciesPerRegionBody (d : Deps Stmt) (account r : Str) (restAPI : RestApi) :
    ResourceOut :=
  if IsPublicApiGateway restAPI then { sent := [], errors := 0 }
  else
    let isPublic := no
    let isInteresting := no
    let arn := "arn:aws:execute-api:".toList ++ r ++ ":".toList ++ account ++ ":".toList ++
      restAPI.Id ++ "/*".toList
    if nonEmptyPtr restAPI.Policy then
      let policyJson := ReplaceAll (awsToString restAPI.Policy) "\\\"".toList "\"".toList
      let parsed := d.ParseJSONPolicy policyJson
      match parsed.2 with
      | some _ => { sent := [], errors := 1 }
      | none =>
        if !parsed.1.IsEmpty then
          { sent := statementLoop d account
                      (mkFinding account arn (awsToString restAPI.Name) r isPublic)
                      parsed.1.Statement.length 0 isInteresting parsed.1.Statement,
            errors := 0 }
        else { sent := [], errors := 0 }
    else
      { sent := [mkFinding account arn (awsToString restAPI.Name) r isPublic [] isInteresting],
        errors := 0 }

/-- The fields of `ec2Types.VpcEndpoint` that the module reads. -/
structure VpcEndpoint where
  VpcEndpointId : Option Str
  PolicyDocument : Option Str

/-- Source: the loop body of `getVPCEndpointPoliciesPerRegion` (lines 1074-1126). -/
def getVPCEndpointPoliciesPerRegionBody (d : Deps Stmt) (account r : Str)
    (vpcEndpoint : VpcEndpoint) : ResourceOut :=
  let isPublic := no
  let isInteresting := no
  let arn := "arn:aws:ec2:".toList ++ r ++ ":".toList ++ account ++ ":vpc-endpoint/".toList ++
    awsToString vpcEndpoint.VpcEndpointId
  if nonEmptyPtr vpcEndpoint.PolicyDocument then
    let vpcEndpointPolicyJson := awsToString vpcEndpoint.PolicyDocument
    let parsed := d.ParseJSONPolicy vpcEndpointPolicyJson
    match parsed.2 with
    | some _ => { sent := [], errors := 1 }
    | none =>
      if !parsed.1.IsEmpty then
        { sent := statementLoop d account
                    (mkFinding account arn (awsToString vpcEndpoint.VpcEndpointId) r isPublic)
                    parsed.1.Statement.length 0 isInteresting parsed.1.Statement,
          errors := 0 }
      else { sent := [], errors := 0 }
  else
    { sent := [mkFinding account arn (awsToString vpcEndpoint.VpcEndpointId) r isPublic []
                isInteresting],
      errors := 0 }

/-- A domain of `CachedOpenSearchListDomainNames` with the results of
`sdk.CachedOpenSearchDescribeDomainConfig` (of which `AdvancedSecurityOptions.Options.Enabled`
is read) and of `sdk.CachedOpenSearchDescribeDomain` (`ARN` and `AccessPolicies`). -/
structure DomainInput where
  DomainName : Option Str
  CachedOpenSearchDescribeDomainConfig : Option Bool × Option Str
  CachedOpenSearchDescribeDomain : (Option Str × Option Str) × Option Str

/-- Source: the loop body of `getOpenSearchPoliciesPerRegion` (lines 1143-1219). -/
def getOpenSearchPoliciesPerRegionBody (d : Deps Stmt) (account r : Str)
    (openSearchDomain : DomainInput) : ResourceOut :=
  match openSearchDomain.CachedOpenSearchDescribeDomainConfig with
  | (_, some _) => { sent := [], errors := 1 }
  | (enabled, none) =>
    let isPublic := if awsToBool enabled then no else yes d
    let isInteresting := if awsToBool enabled then no else yes d
    match openSearchDomain.CachedOpenSearchDescribeDomain with
    | (_, some _) => { sent := [], errors := 1 }
    | (openSearchDomainStatus, none) =>
      let arn := awsToString openSearchDomainStatus.1
      let name := awsToString openSearchDomain.DomainName
      if nonEmptyPtr openSearchDomainStatus.2 then
        let policyJson :=
          ReplaceAll (awsToString openSearchDomainStatus.2) "\\\"".toList "\"".toList
        let parsed := d.ParseJSONPolicy policyJson
        match parsed.2 with
        | some _ => { sent := [], errors := 1 }
        | none =>
          if !parsed.1.IsEmpty then
            { sent := statementLoop d account (mkFinding account arn name r isPublic)
                        parsed.1.Statement.length 0 isInteresting parsed.1.Statement,
              errors := 0 }
          else { sent := [], errors := 0 }
      else
        { sent := [mkFinding account arn name r isPublic [] isInteresting], errors := 0 }

/-- The inner loop of `getGlueResourcePoliciesPerRegion` over `statement.Resource`
(lines 1257-1274): it carries the summary, trimmed once more in every pass, and
`isInteresting`, and hands back the latter with the findings. -/
def glueResourceLoop (d : Deps Stmt) (account r isPublic : Str) :
    Str → Str → List Str → List Resource2 × Str
  | _, isInteresting, [] => ([], isInteresting)
  | statementSummaryInEnglish, isInteresting, resource :: rest =>
    let statementSummaryInEnglish := TrimSuffix statementSummaryInEnglish nl
    let isInteresting :=
      if isResourcePolicyInteresting statementSummaryInEnglish then yes d else isInteresting
    let out := glueResourceLoop d account r isPublic statementSummaryInEnglish isInteresting rest
    (mkFinding account resource resource r isPublic statementSummaryInEnglish isInteresting ::
      out.1, out.2)

/-- The statement loop of `getGlueResourcePoliciesPerRegion` (lines 1254-1275). -/
def glueStatementLoop (d : Deps Stmt) (account r isPublic : Str) :
    Str → List Stmt → List Resource2
  | _, [] => []
  | isInteresting, statement :: rest =>
    let out := glueResourceLoop d account r isPublic
      (d.GetStatementSummaryInEnglish statement account) isInteresting (d.Resource statement)
    out.1 ++ glueStatementLoop d account r isPublic out.2 rest

/-- Source: the loop body of `getGlueResourcePoliciesPerRegion` (lines 1240-1277). -/
def getGlueResourcePoliciesPerRegionBody (d : Deps Stmt) (account r : Str)
    (resourcePolicy : Policy Stmt) : ResourceOut :=
  let isPublic := if d.IsPublic resourcePolicy then yes d else no
  let isInteresting := if d.IsPublic resourcePolicy then yes d else no
  if !resourcePolicy.IsEmpty then
    { sent := glueStatementLoop d account r isPublic isInteresting resourcePolicy.Statement,
      errors := 0 }
  else { sent := [], errors := 0 }

/-! ## The tasks -/

/-- The deferred function of every fetch task (e.g. lines 353-358). -/
def finishTask (c : CommandCounter) : CommandCounter :=
  { c with Executing := c.Executing - 1, Complete := c.Complete + 1 }

/-- The frame common to the fetch tasks: the listing call, whose error ends the task, the
loop over the listed resources, and the deferred update of the counters. -/
def runTask {α : Type} (c : CommandCounter) (listing : List α × Option Str)
    (body : α → ResourceOut) : TaskOut :=
  match listing.2 with
  | some _ => { sent := [], counter := finishTask c }
  | none =>
    { sent := (listing.1.map fun x => (body x).sent).flatten,
      counter := finishTask { c with Error := c.Error + (listing.1.map fun x => (body x).errors).sum } }

/-- Source: `getS3Buckets` (lines 429-510). -/
def getS3Buckets (d : Deps Stmt) (account : Str) (c : CommandCounter)
    (ListBuckets : List BucketInput × Option Str) : TaskOut :=
  runTask c ListBuckets (getS3BucketsBody d account)

/-- Source: `getSNSTopicsPerRegion` (lines 352-427). -/
def getSNSTopicsPerRegion (d : Deps Stmt) (account : Str) (c : CommandCounter)
    (ListTopics : List (TopicInput Stmt) × Option Str) : TaskOut :=
  runTask c ListTopics (getSNSTopicsPerRegionBody d account)

/-- Source: `getSQSQueuesPerRegion` (lines 512-572). -/
def getSQSQueuesPerRegion (d : Deps Stmt) (account r : Str) (c : CommandCounter)
    (ListQueues : List (PolicyResource Stmt) × Option Str) : TaskOut :=
  runTask c ListQueues (getSQSQueuesPerRegionBody d account r)

/-- Source: `getAPIGatewayPoliciesPerRegion` (lines 981-1057). -/
def getAPIGatewayPoliciesPerRegion (d : Deps Stmt) (account r : Str) (c : CommandCounter)
    (restAPIs : List RestApi × Option Str) : TaskOut :=
  runTask c restAPIs (getAPIGatewayPoliciesPerRegionBody d account r)

/-- Source: `getECRRecordsPerRegion` (lines 574-636). -/
def getECRRecordsPerRegion (d : Deps Stmt) (account r : Str) (c : CommandCounter)
    (DescribeRepositories : List (PolicyResource Stmt) × Option Str) : TaskOut :=
  runTask c DescribeRepositories (getECRRecordsPerRegionBody d account r)

/-- Source: `getCodeBuildResourcePoliciesPerRegion` (lines 638-710). -/
def getCodeBuildResourcePoliciesPerRegion (d : Deps Stmt) (account r : Str)
    (c : CommandCounter) (ListProjects : List ProjectInput × Option Str) : TaskOut :=
  runTask c ListProjects (getCodeBuildResourcePoliciesPerRegionBody d account r)

/-- Source: `getLambdaPolicyPerRegion` (lines 712-775). -/
def getLambdaPolicyPerRegion (d : Deps Stmt) (account r : Str) (c : CommandCounter)
    (ListFunctions : List (PolicyResource Stmt) × Option Str) : TaskOut :=
  runTask c ListFunctions (getLambdaPolicyPerRegionBody d account r)

/-- Source: `getEFSfilesystemPoliciesPerRegion` (lines 777-841). -/
def getEFSfilesystemPoliciesPerRegion (d : Deps Stmt) (account r : Str) (c : CommandCounter)
    (ListFileSystems : List (PolicyResource Stmt) × Option Str) : TaskOut :=
  runTask c ListFileSystems (getEFSfilesystemPoliciesPerRegionBody d account r)

/-- Source: `getSecretsManagerSecretsPoliciesPerRegion` (lines 847-911). -/
def getSecretsManagerSecretsPoliciesPerRegion (d : Deps Stmt) (account r : Str)
    (c : CommandCounter) (ListSecrets : List (PolicyResource Stmt) × Option Str) : TaskOut :=
  runTask c ListSecrets (getSecretsManagerSecretsPoliciesPerRegionBody d account r)

/-- Source: `getKMSPoliciesPerRegion` (lines 917-979). -/
def getKMSPoliciesPerRegion (d : Deps Stmt) (account r : Str) (c : CommandCounter)
    (listKeys : List (PolicyResource Stmt) × Option Str) : TaskOut :=
  runTask c listKeys (getKMSPoliciesPerRegionBody d account r)

/-- Source: `getVPCEndpointPoliciesPerRegion` (lines 1059-1127). -/
def getVPCEndpointPoliciesPerRegion (d : Deps Stmt) (account r : Str) (c : CommandCounter)
    (vpcEndpoints : List VpcEndpoint × Option Str) : TaskOut :=
  runTask c vpcEndpoints (getVPCEndpointPoliciesPerRegionBody d account r)

/-- Source: `getOpenSearchPoliciesPerRegion` (lines 1129-1220). -/
def getOpenSearchPoliciesPerRegion (d : Deps Stmt) (account r : Str) (c : CommandCounter)
    (openSearchDomains : List DomainInput × Option Str) : TaskOut :=
  runTask c openSearchDomains (getOpenSearchPoliciesPerRegionBody d account r)

/-- Source: `getGlueResourcePoliciesPerRegion` (lines 1222-1278). -/
def getGlueResourcePoliciesPerRegion (d : Deps Stmt) (account r : Str) (c : CommandCounter)
    (ResourcePolicies : List (Policy Stmt) × Option Str) : TaskOut :=
  runTask c ResourcePolicies (getGlueResourcePoliciesPerRegionBody d account r)

/-- Every finding whose `Interesting` is `yesValue` stands before every finding whose
`Interesting` is `"No"`: no `"No"` finding precedes a `yesValue` finding. -/
def yesBeforeNo (yesValue : Str) (out : List Resource2) : Prop :=
  out.Pairwise fun a b => ¬ (a.Interesting = no ∧ b.Interesting = yesValue)

/-- Every `"No"` finding stands before every `yesValue` finding. -/
def noBeforeYes (yesValue : Str) (out : List Resource2) : Prop :=
  out.Pairwise fun a b => ¬ (a.Interesting = yesValue ∧ b.Interesting = no)

/-- The list is in non-decreasing order of the `Interesting` strings. -/
def ascendingByInteresting (out : List Resource2) : Prop :=
  out.Pairwise fun a b => strLess b.Interesting a.Interesting = false

/-- The summary of a policy with the statements `stmts` as the specification words it: with
more than one statement the lines `Statement <i> says: ` followed by the summary of
statement `i`, counted from 0, joined by single newlines; with one statement its summary
without one trailing newline. -/
def summaryBySpec (d : Deps Stmt) (account : Str) (stmts : List Stmt) : Str :=
  if stmts.length > 1 then
    nl.intercalate
      (List.zipWith (fun i statement =>
          statementPrefix i ++ d.GetStatementSummaryInEnglish statement account)
        (List.range stmts.length) stmts)
  else
    match stmts with
    | [statement] => TrimSuffix (d.GetStatementSummaryInEnglish statement account) nl
    | _ => []

/-! ## The scan: `executeChecks` and the dispatch loop of `PrintResources`

The region goroutines and the bucket task are run one after the other; within a region
the source itself calls the tasks one after the other. -/

/-- The fields of `ResourceTrustsModule` that the scan reads: whether the optional clients
are non-nil, the concurrency budget and the account of the caller. -/
structure Module where
  KMSClient : Bool
  APIGatewayClient : Bool
  EC2Client : Bool
  OpenSearchClient : Bool
  Goroutines : Int
  account : Str

/-- What the listing calls of the per-region tasks return in one region. -/
structure RegionInputs (Stmt : Type) where
  ListTopics : List (TopicInput Stmt) × Option Str
  ListQueues : List (PolicyResource Stmt) × Option Str
  DescribeRepositories : List (PolicyResource Stmt) × Option Str
  ListProjects : List ProjectInput × Option Str
  ListFunctions : List (PolicyResource Stmt) × Option Str
  ListFileSystems : List (PolicyResource Stmt) × Option Str
  ListSecrets : List (PolicyResource Stmt) × Option Str
  ResourcePolicies : List (Policy Stmt) × Option Str
  listKeys : List (PolicyResource Stmt) × Option Str
  restAPIs : List RestApi × Option Str
  vpcEndpoints : List VpcEndpoint × Option Str
  openSearchDomains : List DomainInput × Option Str

/-- The state of a scan: the counters, the findings the receiver has appended to
`m.Resources2`, and, as a record for the properties below, the fetch tasks run so far,
each as the pair of its service name and region. -/
structure ScanState where
  counter : CommandCounter := {}
  received : List Resource2 := []
  tasks : List (Str × Str) := []
  deriving DecidableEq, Repr

/-- What the fetch tasks have done in a state of the scan: the tasks run, the findings
received, and the counters `Complete` and `Executing`. -/
def ScanState.progress (st : ScanState) : List (Str × Str) × List Resource2 × Int × Int :=
  (st.tasks, st.received, st.counter.Complete, st.counter.Executing)

/-- One availability check of `executeChecks` (e.g. lines 210-218): `oracle` is the pair
`res, err` of `servicemap.IsServiceInRegion(service, r)`.  The error is logged and nothing
else; when `res` is true, `Total` is incremented and the task is run. -/
def runCheck (st : ScanState) (service r : Str) (oracle : Bool × Option Str)
    (task : CommandCounter → TaskOut) : ScanState :=
  if oracle.1 then
    let out := task { st.counter with Total := st.counter.Total + 1 }
    { counter := out.counter, received := st.received ++ out.sent,
      tasks := st.tasks ++ [(service, r)] }
  else st

/-- Source: `executeChecks` (lines 204-337), with the send on the semaphore of every task
going through; `executeChecksOn` is the same with the semaphore. -/
def executeChecks (d : Deps Stmt) (m : Module) (IsServiceInRegion : Str → Str → Bool × Option Str)
    (includeKms : Bool) (r : Str) (w : RegionInputs Stmt) (st : ScanState) : ScanState :=
  let st := runCheck st "sns".toList r (IsServiceInRegion "sns".toList r)
    fun c => getSNSTopicsPerRegion d m.account c w.ListTopics
  let st := runCheck st "sqs".toList r (IsServiceInRegion "sqs".toList r)
    fun c => getSQSQueuesPerRegion d m.account r c w.ListQueues
  let st := runCheck st "ecr".toList r (IsServiceInRegion "ecr".toList r)
    fun c => getECRRecordsPerRegion d m.account r c w.DescribeRepositories
  let st := runCheck st "codebuild".toList r (IsServiceInRegion "codebuild".toList r)
    fun c => getCodeBuildResourcePoliciesPerRegion d m.account r c w.ListProjects
  let st := runCheck st "lambda".toList r (IsServiceInRegion "lambda".toList r)
    fun c => getLambdaPolicyPerRegion d m.account r c w.ListFunctions
  let st := runCheck st "efs".toList r (IsServiceInRegion "efs".toList r)
    fun c => getEFSfilesystemPoliciesPerRegion d m.account r c w.ListFileSystems
  let st := runCheck st "secretsmanager".toList r (IsServiceInRegion "secretsmanager".toList r)
    fun c => getSecretsManagerSecretsPoliciesPerRegion d m.account r c w.ListSecrets
  let st := runCheck st "glue".toList r (IsServiceInRegion "glue".toList r)
    fun c => getGlueResourcePoliciesPerRegion d m.account r c w.ResourcePolicies
  let st :=
    if includeKms && m.KMSClient then
      runCheck st "kms".toList r (IsServiceInRegion "kms".toList r)
        fun c => getKMSPoliciesPerRegion d m.account r c w.listKeys
    else st
  let st :=
    if m.APIGatewayClient then
      runCheck st "apigateway".toList r (IsServiceInRegion "apigateway".toList r)
        fun c => getAPIGatewayPoliciesPerRegion d m.account r c w.restAPIs
    else st
  let st :=
    if m.EC2Client then
      runCheck st "ec2".toList r (IsServiceInRegion "ec2".toList r)
        fun c => getVPCEndpointPoliciesPerRegion d m.account r c w.vpcEndpoints
    else st
  let st :=
    if m.OpenSearchClient then
      runCheck st "es".toList r (IsServiceInRegion "es".toList r)
        fun c => getOpenSearchPoliciesPerRegion d m.account r c w.openSearchDomains
    else st
  st

/-- The loop over `m.AWSRegions` of `PrintResources` (lines 104-109): per region
`Pending++` and `executeChecks`. -/
def scanRegions (d : Deps Stmt) (m : Module) (IsServiceInRegion : Str → Str → Bool × Option Str)
    (includeKms : Bool) (world : Str → RegionInputs Stmt) : List Str → ScanState → ScanState
  | [], st => st
  | region :: rest, st =>
    scanRegions d m IsServiceInRegion includeKms world rest
      (executeChecks d m IsServiceInRegion includeKms region (world region)
        { st with counter := { st.counter with Pending := st.counter.Pending + 1 } })

/-! ## The semaphore

`PrintResources` makes the channel `semaphore` with a buffer of `m.Goroutines` elements
(line 90).  Every fetch task begins with the send `semaphore <- struct{}{}` and ends with
the deferred receive `<-semaphore` (e.g. lines 359-360).  The goroutines of the pass are run
one after the other, each until it returns or waits in a send that cannot go through. -/

/-- The send `semaphore <- struct{}{}` on a channel of capacity `capacity` with `buffered`
elements in its buffer: it goes through, and the buffer holds one element more, when the
buffer has room.  A channel of capacity 0 has no buffer and a send on it waits for a
receiver; the only receives on `semaphore` are the deferred ones of tasks whose own send has
gone through, so no receiver is ever waiting. -/
def semaphoreSend (capacity : Int) (buffered : Nat) : Option Nat :=
  if (buffered : Int) < capacity then some (buffered + 1) else none

/-- The deferred receive `<-semaphore` of a task whose send has gone through. -/
def semaphoreReceive (buffered : Nat) : Nat := buffered - 1

/-- A goroutine of the pass: the state of the scan, the number of elements in the buffer of
`semaphore`, and whether the goroutine waits for ever in a send on `semaphore`. -/
structure Goroutine where
  st : ScanState
  buffered : Nat
  waits : Bool
  deriving DecidableEq, Repr

/-- A fetch task called by a goroutine (e.g. lines 352-360): the send on the semaphore, and
when that goes through the task itself and its deferred receive.  A task whose send does not
go through has done nothing, and its goroutine waits. -/
def startTask (capacity : Int) (g : Goroutine) (service r : Str)
    (task : CommandCounter → TaskOut) : Goroutine :=
  match semaphoreSend capacity g.buffered with
  | none => { g with waits := true }
  | some buffered =>
    let out := task g.st.counter
    { st := { counter := out.counter, received := g.st.received ++ out.sent,
              tasks := g.st.tasks ++ [(service, r)] },
      buffered := semaphoreReceive buffered, waits := false }

/-- One availability check of `executeChecks` (e.g. lines 210-218) in a goroutine of the
pass: a goroutine that waits does nothing more; otherwise, when `res` is true, `Total` is
incremented and the task is called. -/
def runCheckOn (capacity : Int) (g : Goroutine) (service r : Str) (oracle : Bool × Option Str)
    (task : CommandCounter → TaskOut) : Goroutine :=
  if g.waits then g
  else if oracle.1 then
    startTask capacity
      { g with st := { g.st with counter := { g.st.counter with Total := g.st.counter.Total + 1 } } }
      service r task
  else g

/-- Source: `executeChecks` (lines 204-337), run as a goroutine of the pass on the semaphore
of capacity `capacity`: the checks and tasks of `executeChecks`, each task behind its send
on the semaphore. -/
def executeChecksOn (d : Deps Stmt) (m : Module)
    (IsServiceInRegion : Str → Str → Bool × Option Str) (includeKms : Bool) (capacity : Int)
    (r : Str) (w : RegionInputs Stmt) (g : Goroutine) : Goroutine :=
  let g := runCheckOn capacity g "sns".toList r (IsServiceInRegion "sns".toList r)
    fun c => getSNSTopicsPerRegion d m.account c w.ListTopics
  let g := runCheckOn capacity g "sqs".toList r (IsServiceInRegion "sqs".toList r)
    fun c => getSQSQueuesPerRegion d m.account r c w.ListQueues
  let g := runCheckOn capacity g "ecr".toList r (IsServiceInRegion "ecr".toList r)
    fun c => getECRRecordsPerRegion d m.account r c w.DescribeRepositories
  let g := runCheckOn capacity g "codebuild".toList r (IsServiceInRegion "codebuild".toList r)
    fun c => getCodeBuildResourcePoliciesPerRegion d m.account r c w.ListProjects
  let g := runCheckOn capacity g "lambda".toList r (IsServiceInRegion "lambda".toList r)
    fun c => getLambdaPolicyPerRegion d m.account r c w.ListFunctions
  let g := runCheckOn capacity g "efs".toList r (IsServiceInRegion "efs".toList r)
    fun c => getEFSfilesystemPoliciesPerRegion d m.account r c w.ListFileSystems
  let g := runCheckOn capacity g "secretsmanager".toList r (IsServiceInRegion "secretsmanager".toList r)
    fun c => getSecretsManagerSecretsPoliciesPerRegion d m.account r c w.ListSecrets
  let g := runCheckOn capacity g "glue".toList r (IsServiceInRegion "glue".toList r)
    fun c => getGlueResourcePoliciesPerRegion d m.account r c w.ResourcePolicies
  let g :=
    if includeKms && m.KMSClient then
      runCheckOn capacity g "kms".toList r (IsServiceInRegion "kms".toList r)
        fun c => getKMSPoliciesPerRegion d m.account r c w.listKeys
    else g
  let g :=
    if m.APIGatewayClient then
      runCheckOn capacity g "apigateway".toList r (IsServiceInRegion "apigateway".toList r)
        fun c => getAPIGatewayPoliciesPerRegion d m.account r c w.restAPIs
    else g
  let g :=
    if m.EC2Client then
      runCheckOn capacity g "ec2".toList r (IsServiceInRegion "ec2".toList r)
        fun c => getVPCEndpointPoliciesPerRegion d m.account r c w.vpcEndpoints
    else g
  let g :=
    if m.OpenSearchClient then
      runCheckOn capacity g "es".toList r (IsServiceInRegion "es".toList r)
        fun c => getOpenSearchPoliciesPerRegion d m.account r c w.openSearchDomains
    else g
  g

/-- The pass so far: the state of the scan, the number of elements in the buffer of
`semaphore`, and the number of goroutines that wait for ever in a send on `semaphore`. -/
structure Pass where
  st : ScanState
  buffered : Nat
  waiting : Nat
  deriving DecidableEq, Repr

/-- The loop over `m.AWSRegions` of `PrintResources` (lines 104-109) with the goroutine
that it starts in every pass: `Pending++` and `executeChecks`. -/
def scanRegionsOn (d : Deps Stmt) (m : Module)
    (IsServiceInRegion : Str → Str → Bool × Option Str) (includeKms : Bool) (capacity : Int)
    (world : Str → RegionInputs Stmt) : List Str → Pass → Pass
  | [], p => p
  | region :: rest, p =>
    let g := executeChecksOn d m IsServiceInRegion includeKms capacity region (world region)
      { st := { p.st with counter := { p.st.counter with Pending := p.st.counter.Pending + 1 } },
        buffered := p.buffered, waits := false }
    scanRegionsOn d m IsServiceInRegion includeKms capacity world rest
      { st := g.st, buffered := g.buffered,
        waiting := p.waiting + (if g.waits then 1 else 0) }

/-- How the scan pass of `PrintResources` ends: `wg.Wait()` returns with the state `st`, or
a goroutine waits for ever in a send on the semaphore and `wg.Wait()` never returns, `st`
being the state the scan has reached, or `make(chan struct{}, m.Goroutines)` panics. -/
inductive PassResult where
  | returns (st : ScanState)
  | waits (st : ScanState)
  | panics
  deriving DecidableEq, Repr

/-- Source: the scan pass of `PrintResources` (lines 89-113): the semaphore of capacity
`m.Goroutines`, whose `make` panics for a negative capacity, the region loop and the one
global bucket task, recorded as service `s3` with an empty region, and `wg.Wait()`, which
returns when no goroutine waits. -/
def scanPass (d : Deps Stmt) (m : Module) (IsServiceInRegion : Str → Str → Bool × Option Str)
    (includeKms : Bool) (AWSRegions : List Str) (world : Str → RegionInputs Stmt)
    (ListBuckets : List BucketInput × Option Str) (st : ScanState) : PassResult :=
  if m.Goroutines < 0 then PassResult.panics
  else
    let p := scanRegionsOn d m IsServiceInRegion includeKms m.Goroutines world AWSRegions
      { st := st, buffered := 0, waiting := 0 }
    let g := startTask m.Goroutines { st := p.st, buffered := p.buffered, waits := false }
      "s3".toList [] fun c => getS3Buckets d m.account c ListBuckets
    if p.waiting = 0 ∧ g.waits = false then PassResult.returns g.st else PassResult.waits g.st

/-- The services that `executeChecks` asks the oracle about, in the order of the source:
eight always, `kms` behind `includeKms` and a non-nil client, and `apigateway`, `ec2`, `es`
behind their clients. -/
def checkedServices (m : Module) (includeKms : Bool) : List Str :=
  ["sns".toList, "sqs".toList, "ecr".toList, "codebuild".toList, "lambda".toList,
    "efs".toList, "secretsmanager".toList, "glue".toList] ++
  (if includeKms && m.KMSClient then ["kms".toList] else []) ++
  (if m.APIGatewayClient then ["apigateway".toList] else []) ++
  (if m.EC2Client then ["ec2".toList] else []) ++
  (if m.OpenSearchClient then ["es".toList] else [])

/-- The checked services that the oracle reports present in region `r`. -/
def presentServices (m : Module) (IsServiceInRegion : Str → Str → Bool × Option Str)
    (includeKms : Bool) (r : Str) : List Str :=
  (checkedServices m includeKms).filter fun service => (IsServiceInRegion service r).1

/-- Every finding with `Public` = Yes has `Interesting` = Yes. -/
def publicImpliesInteresting (d : Deps Stmt) (sent : List Resource2) : Prop :=
  ∀ f ∈ sent, f.Public = yes d → f.Interesting = yes d

/-- What the counters of a task look like at its end, `c` being the counters at its start:
`Complete` one more, `Executing` one less, `Total` and `Pending` as before. -/
def finishedOnce (c : CommandCounter) (out : TaskOut) : Prop :=
  out.counter.Complete = c.Complete + 1 ∧ out.counter.Executing = c.Executing - 1 ∧
    out.counter.Total = c.Total ∧ out.counter.Pending = c.Pending

/-- A task whose listing call failed sent nothing and left `Error` as it was. -/
def listingFailureSilent (c : CommandCounter) (out : TaskOut) : Prop :=
  out.sent = [] ∧ out.counter.Error = c.Error

/-! ## The cache layer (`sdk/apigateway.go`, `sdk/ec2.go`)

A client is a transition function on a client state `σ`: a request yields the Go result
pair and the next state.  A `Cached...` function hands back, next to its Go result, the
cache and the client state after the call and the requests it made; it yields `none` when
the call does not return (the type assertion on the cached value panics, or the
pagination loop is still running when the fuel is used up). -/

/-- The type `middleware.Metadata` of the field `ResultMetadata` of an SDK output, as its
entries; the zero value has none. -/
abbrev Metadata := List (Str × Str)

/-- The type `apigateway.GetRestApisOutput`: the fields read. -/
structure GetRestApisOutput where
  Items : List RestApi
  Position : Option Str

/-- The type `ec2.DescribeVpcEndpointsOutput`: the fields read. -/
structure DescribeVpcEndpointsOutput where
  VpcEndpoints : List VpcEndpoint
  NextToken : Option Str

/-- The type `apigateway.GetStagesOutput`. -/
structure GetStagesOutput (Stage : Type) where
  Item : List Stage
  ResultMetadata : Metadata
  deriving DecidableEq, Repr

/-- Source: `CachedGetStagesOutput` (sdk/apigateway.go, lines 41-43). -/
structure CachedGetStagesOutput (Stage : Type) where
  Item : List Stage
  deriving DecidableEq, Repr

/-- The type `apigateway.GetMethodOutput`; a Go map is the list of its entries. -/
structure GetMethodOutput (Integration MethodResponse : Type) where
  ApiKeyRequired : Option Bool
  AuthorizationScopes : List Str
  AuthorizationType : Option Str
  AuthorizerId : Option Str
  HttpMethod : Option Str
  MethodIntegration : Option Integration
  MethodResponses : List (Str × MethodResponse)
  OperationName : Option Str
  RequestModels : List (Str × Str)
  RequestParameters : List (Str × Bool)
  RequestValidatorId : Option Str
  ResultMetadata : Metadata
  deriving DecidableEq, Repr

/-- Source: `CachedGetMethodOutput` (sdk/apigateway.go, lines 26-39). -/
structure CachedGetMethodOutput (Integration MethodResponse : Type) where
  ApiKeyRequired : Option Bool
  AuthorizationScopes : List Str
  AuthorizationType : Option Str
  AuthorizerId : Option Str
  HttpMethod : Option Str
  MethodIntegration : Option Integration
  MethodResponses : List (Str × MethodResponse)
  OperationName : Option Str
  RequestModels : List (Str × Str)
  RequestParameters : List (Str × Bool)
  RequestValidatorId : Option Str
  ResourceId : Option Str
  deriving DecidableEq, Repr

/-- Source: `toCachedGetStagesOutput` (sdk/apigateway.go, lines 134-138). -/
def toCachedGetStagesOutput {Stage : Type} (gso : GetStagesOutput Stage) :
    CachedGetStagesOutput Stage :=
  { Item := gso.Item }

/-- Source: `fromCachedGetStagesOutput` (sdk/apigateway.go, lines 141-146);
`ResultMetadata` keeps its zero value. -/
def fromCachedGetStagesOutput {Stage : Type} (cgso : CachedGetStagesOutput Stage) :
    GetStagesOutput Stage :=
  { Item := cgso.Item, ResultMetadata := [] }

/-- Source: `toCachedGetMethodOutput` (sdk/apigateway.go, lines 296-310); `ResourceId` is
not assigned. -/
def toCachedGetMethodOutput {Integration MethodResponse : Type}
    (gmo : GetMethodOutput Integration MethodResponse) :
    CachedGetMethodOutput Integration MethodResponse :=
  { ApiKeyRequired := gmo.ApiKeyRequired
    AuthorizationScopes := gmo.AuthorizationScopes
    AuthorizationType := gmo.AuthorizationType
    AuthorizerId := gmo.AuthorizerId
    HttpMethod := gmo.HttpMethod
    MethodIntegration := gmo.MethodIntegration
    MethodResponses := gmo.MethodResponses
    OperationName := gmo.OperationName
    RequestModels := gmo.RequestModels
    RequestParameters := gmo.RequestParameters
    RequestValidatorId := gmo.RequestValidatorId
    ResourceId := none }

/-- Source: `fromCachedGetMethodOutput` (sdk/apigateway.go, lines 313-328);
`ResultMetadata` keeps its zero value. -/
def fromCachedGetMethodOutput {Integration MethodResponse : Type}
    (cgmo : CachedGetMethodOutput Integration MethodResponse) :
    GetMethodOutput Integration MethodResponse :=
  { ApiKeyRequired := cgmo.ApiKeyRequired
    AuthorizationScopes := cgmo.AuthorizationScopes
    AuthorizationType := cgmo.AuthorizationType
    AuthorizerId := cgmo.AuthorizerId
    HttpMethod := cgmo.HttpMethod
    MethodIntegration := cgmo.MethodIntegration
    MethodResponses := cgmo.MethodResponses
    OperationName := cgmo.OperationName
    RequestModels := cgmo.RequestModels
    RequestParameters := cgmo.RequestParameters
    RequestValidatorId := cgmo.RequestValidatorId
    ResultMetadata := [] }

/-- What the functions at hand put into the cache, by dynamic type; `other` stands for the
values of the remaining `Cached...` functions. -/
inductive CacheValue (Stage Integration MethodResponse : Type) where
  | restApis (v : List RestApi)
  | vpcEndpoints (v : List VpcEndpoint)
  | stages (v : CachedGetStagesOutput Stage)
  | method (v : CachedGetMethodOutput Integration MethodResponse)
  | other (description : Str)

/-- Modelled from the spec: the key/value store `internal.Cache`, which is created outside
the sources at hand ("`Get(key) -> (value, found)`, `Set(key, value, ttl)`"); entries are
taken to be within their TTL. -/
abbrev Cache (V : Type) := Str → Option V

/-- Modelled from the spec: `Cache.Get(key)`; `none` is "not found". -/
def Cache.Get {V : Type} (c : Cache V) (key : Str) : Option V := c key

/-- Modelled from the spec: `Cache.Set(key, value, cache.DefaultExpiration)`. -/
def Cache.Set {V : Type} (c : Cache V) (key : Str) (value : V) : Cache V :=
  fun k => if k = key then some value else c k

/-- The methods of `APIGatewayClientInterface` that the functions at hand call: the state
of the client, the request (pagination token or identifiers) and the region option. -/
structure APIGatewayClient (σ Stage Integration MethodResponse : Type) where
  GetRestApis : σ → Option Str → Str → (GetRestApisOutput × Option Str) × σ
  GetStages : σ → Str → Str → (GetStagesOutput Stage × Option Str) × σ
  GetMethod : σ → Str → Str → Str → Str →
    (GetMethodOutput Integration MethodResponse × Option Str) × σ

/-- The method of `AWSEC2ClientInterface` that `CachedEC2DescribeVpcEndpoints` calls. -/
structure EC2Client (σ : Type) where
  DescribeVpcEndpoints : σ → Option Str → Str → (DescribeVpcEndpointsOutput × Option Str) × σ

/-- A returned call of a `Cached...` function: its Go result pair, the cache and the client
state afterwards, and the client requests it made, each by its pagination token (`none`
for a request without one). -/
structure Fetched (σ V β : Type) where
  value : β
  err : Option Str
  cache : Cache V
  client : σ
  calls : List (Option Str)

/-- The pagination loop `for { ... }` of `CachedApiGatewayGetRestAPIs` (lines 76-98) and of
`CachedEC2DescribeVpcEndpoints` (lines 238-257), which differ in the names of the output
fields only: `items` and `next` read the page and the token off an output.  The result is
the accumulated slice, the error if a request failed, the client state and the tokens of
the requests made; `none` when the fuel runs out before the loop ends. -/
def pageLoop {σ Out α : Type} (request : σ → Option Str → (Out × Option Str) × σ)
    (items : Out → List α) (next : Out → Option Str) :
    Nat → σ → Option Str → List α → List (Option Str) →
      Option (List α × Option Str × σ × List (Option Str))
  | 0, _, _, _, _ => none
  | fuel + 1, s, PaginationControl, acc, calls =>
    match request s PaginationControl with
    | ((_, some err), s') => some (acc, some err, s', calls ++ [PaginationControl])
    | ((out, none), s') =>
      match next out with
      | none => some (acc ++ items out, none, s', calls ++ [PaginationControl])
      | some token =>
        pageLoop request items next fuel s' (some token) (acc ++ items out)
          (calls ++ [PaginationControl])

/-- The cache key of `CachedApiGatewayGetRestAPIs` (line 70). -/
def restApisCacheKey (accountID region : Str) : Str :=
  accountID ++ "-apigateway-GetRestApis-".toList ++ region

/-- The cache key of `CachedApiGatewayGetStages` (line 105). -/
def stagesCacheKey (accountID region restAPIID : Str) : Str :=
  accountID ++ "-apigateway-GetStages-".toList ++ region ++ "-".toList ++ restAPIID

/-- The cache key of `CachedApiGatewayGetMethod` (line 264). -/
def methodCacheKey (accountID region restAPIID resourceID method : Str) : Str :=
  accountID ++ "-apigateway-GetMethod-".toList ++ region ++ "-".toList ++ restAPIID ++
    "-".toList ++ resourceID ++ "-".toList ++ method

/-- The cache key of `CachedEC2DescribeVpcEndpoints` (sdk/ec2.go, line 233). -/
def vpcEndpointsCacheKey (accountID region : Str) : Str :=
  accountID ++ "-ec2-DescribeVpcEndpoints-".toList ++ region

/-- The cache key of `CachedApiGatewayGetResources` (line 152). -/
def resourcesCacheKey (accountID region restAPIID : Str) : Str :=
  accountID ++ "-apigateway-GetResources-".toList ++ region ++ "-".toList ++ restAPIID

/-- The cache key of `CachedApiGatewayGetDomainNames` (line 190). -/
def domainNamesCacheKey (accountID region : Str) : Str :=
  accountID ++ "-apigateway-GetDomainNames-".toList ++ region

/-- The cache key of `CachedApiGatewayGetBasePathMappings` (line 227). -/
def basePathMappingsCacheKey (accountID region : Str) (domain : Option Str) : Str :=
  accountID ++ "-apigateway-GetBasePathMappings-".toList ++ region ++ "-".toList ++ awsToString domain

/-- The cache key of `CachedApiGatewayGetUsagePlans` (line 334). -/
def usagePlansCacheKey (accountID region : Str) : Str :=
  accountID ++ "-apigateway-GetUsagePlans-".toList ++ region

/-- The cache key of `CachedApiGatewayGetUsagePlanKeys` (line 372). -/
def usagePlanKeysCacheKey (accountID region usagePlanID : Str) : Str :=
  accountID ++ "-apigateway-GetUsagePlanKeys-".toList ++ region ++ "-".toList ++ usagePlanID

/-- The cache key of `CachedEC2DescribeInstances` (sdk/ec2.go, line 37). -/
def instancesCacheKey (accountID region : Str) : Str :=
  accountID ++ "-ec2-DescribeInstances-".toList ++ region

/-- The cache key of `CachedEC2DescribeInstanceAttributeUserData` (sdk/ec2.go, line 73). -/
def instanceAttributeUserDataCacheKey (accountID region instanceID : Str) : Str :=
  accountID ++ "-ec2-DescribeInstanceAttributeUserData-".toList ++ region ++ "-".toList ++ instanceID

/-- The cache key of `CachedEC2DescribeNetworkInterfaces` (sdk/ec2.go, line 99). -/
def networkInterfacesCacheKey (accountID region : Str) : Str :=
  accountID ++ "-ec2-DescribeNetworkInterfaces-".toList ++ region

/-- The cache key of `CachedEC2DescribeSnapshots` (sdk/ec2.go, line 132). -/
def snapshotsCacheKey (accountID region : Str) : Str :=
  accountID ++ "-ec2-DescribeSnapshots-".toList ++ region

/-- The cache key of `CachedEC2DescribeVolumes` (sdk/ec2.go, line 166). -/
def volumesCacheKey (accountID region : Str) : Str :=
  accountID ++ "-ec2-DescribeVolumes-".toList ++ region

/-- The cache key of `CachedEC2DescribeImages` (sdk/ec2.go, line 199). -/
def imagesCacheKey (accountID region : Str) : Str :=
  accountID ++ "-ec2-DescribeImages-".toList ++ region

/-- The cached operations of `aws/sdk/apigateway.go` and `aws/sdk/ec2.go`, each named as
its function `Cached...`. -/
inductive CachedOperation where
  | ApiGatewayGetRestAPIs
  | ApiGatewayGetStages
  | ApiGatewayGetResources
  | ApiGatewayGetDomainNames
  | ApiGatewayGetBasePathMappings
  | ApiGatewayGetMethod
  | ApiGatewayGetUsagePlans
  | ApiGatewayGetUsagePlanKeys
  | EC2DescribeInstances
  | EC2DescribeInstanceAttributeUserData
  | EC2DescribeNetworkInterfaces
  | EC2DescribeSnapshots
  | EC2DescribeVolumes
  | EC2DescribeImages
  | EC2DescribeVpcEndpoints
  deriving DecidableEq, Repr

/-- The service word of the key format of a cached operation. -/
def CachedOperation.service : CachedOperation → Str
  | .ApiGatewayGetRestAPIs => "apigateway".toList
  | .ApiGatewayGetStages => "apigateway".toList
  | .ApiGatewayGetResources => "apigateway".toList
  | .ApiGatewayGetDomainNames => "apigateway".toList
  | .ApiGatewayGetBasePathMappings => "apigateway".toList
  | .ApiGatewayGetMethod => "apigateway".toList
  | .ApiGatewayGetUsagePlans => "apigateway".toList
  | .ApiGatewayGetUsagePlanKeys => "apigateway".toList
  | .EC2DescribeInstances => "ec2".toList
  | .EC2DescribeInstanceAttributeUserData => "ec2".toList
  | .EC2DescribeNetworkInterfaces => "ec2".toList
  | .EC2DescribeSnapshots => "ec2".toList
  | .EC2DescribeVolumes => "ec2".toList
  | .EC2DescribeImages => "ec2".toList
  | .EC2DescribeVpcEndpoints => "ec2".toList

/-- The operation word of the key format of a cached operation. -/
def CachedOperation.operation : CachedOperation → Str
  | .ApiGatewayGetRestAPIs => "GetRestApis".toList
  | .ApiGatewayGetStages => "GetStages".toList
  | .ApiGatewayGetResources => "GetResources".toList
  | .ApiGatewayGetDomainNames => "GetDomainNames".toList
  | .ApiGatewayGetBasePathMappings => "GetBasePathMappings".toList
  | .ApiGatewayGetMethod => "GetMethod".toList
  | .ApiGatewayGetUsagePlans => "GetUsagePlans".toList
  | .ApiGatewayGetUsagePlanKeys => "GetUsagePlanKeys".toList
  | .EC2DescribeInstances => "DescribeInstances".toList
  | .EC2DescribeInstanceAttributeUserData => "DescribeInstanceAttributeUserData".toList
  | .EC2DescribeNetworkInterfaces => "DescribeNetworkInterfaces".toList
  | .EC2DescribeSnapshots => "DescribeSnapshots".toList
  | .EC2DescribeVolumes => "DescribeVolumes".toList
  | .EC2DescribeImages => "DescribeImages".toList
  | .EC2DescribeVpcEndpoints => "DescribeVpcEndpoints".toList

/-- The text `key` is a cache key that the cached operation builds for the account
`accountID`, for some region and some further arguments. -/
def CachedOperation.builds (op : CachedOperation) (accountID key : Str) : Prop :=
  match op with
  | .ApiGatewayGetRestAPIs =>
    ∃ region : Str, key = restApisCacheKey accountID region
  | .ApiGatewayGetStages =>
    ∃ region restAPIID : Str, key = stagesCacheKey accountID region restAPIID
  | .ApiGatewayGetResources =>
    ∃ region restAPIID : Str, key = resourcesCacheKey accountID region restAPIID
  | .ApiGatewayGetDomainNames =>
    ∃ region : Str, key = domainNamesCacheKey accountID region
  | .ApiGatewayGetBasePathMappings =>
    ∃ (region : Str) (domain : Option Str), key = basePathMappingsCacheKey accountID region domain
  | .ApiGatewayGetMethod =>
    ∃ region restAPIID resourceID method : Str, key = methodCacheKey accountID region restAPIID resourceID method
  | .ApiGatewayGetUsagePlans =>
    ∃ region : Str, key = usagePlansCacheKey accountID region
  | .ApiGatewayGetUsagePlanKeys =>
    ∃ region usagePlanID : Str, key = usagePlanKeysCacheKey accountID region usagePlanID
  | .EC2DescribeInstances =>
    ∃ region : Str, key = instancesCacheKey accountID region
  | .EC2DescribeInstanceAttributeUserData =>
    ∃ region instanceID : Str, key = instanceAttributeUserDataCacheKey accountID region instanceID
  | .EC2DescribeNetworkInterfaces =>
    ∃ region : Str, key = networkInterfacesCacheKey accountID region
  | .EC2DescribeSnapshots =>
    ∃ region : Str, key = snapshotsCacheKey accountID region
  | .EC2DescribeVolumes =>
    ∃ region : Str, key = volumesCacheKey accountID region
  | .EC2DescribeImages =>
    ∃ region : Str, key = imagesCacheKey accountID region
  | .EC2DescribeVpcEndpoints =>
    ∃ region : Str, key = vpcEndpointsCacheKey accountID region

section CacheLayer

variable {σ Stage Integration MethodResponse : Type}

/-- Source: `CachedApiGatewayGetRestAPIs` (sdk/apigateway.go, lines 67-101). -/
def CachedApiGatewayGetRestAPIs (fuel : Nat)
    (client : APIGatewayClient σ Stage Integration MethodResponse) (s : σ)
    (cache : Cache (CacheValue Stage Integration MethodResponse)) (accountID region : Str) :
    Option (Fetched σ (CacheValue Stage Integration MethodResponse) (List RestApi)) :=
  let cacheKey := restApisCacheKey accountID region
  match cache.Get cacheKey with
  | some (CacheValue.restApis cached) =>
    some { value := cached, err := none, cache := cache, client := s, calls := [] }
  | some _ => none
  | none =>
    match pageLoop (fun s token => client.GetRestApis s token region)
        (fun out => out.Items) (fun out => out.Position) fuel s none [] [] with
    | none => none
    | some (restAPIs, some err, s', calls) =>
      some { value := restAPIs, err := some err, cache := cache, client := s', calls := calls }
    | some (restAPIs, none, s', calls) =>
      some { value := restAPIs, err := none,
             cache := cache.Set cacheKey (CacheValue.restApis restAPIs),
             client := s', calls := calls }

/-- Source: `CachedEC2DescribeVpcEndpoints` (sdk/ec2.go, lines 230-260). -/
def CachedEC2DescribeVpcEndpoints (fuel : Nat) (client : EC2Client σ) (s : σ)
    (cache : Cache (CacheValue Stage Integration MethodResponse)) (accountID region : Str) :
    Option (Fetched σ (CacheValue Stage Integration MethodResponse) (List VpcEndpoint)) :=
  let cacheKey := vpcEndpointsCacheKey accountID region
  match cache.Get cacheKey with
  | some (CacheValue.vpcEndpoints cached) =>
    some { value := cached, err := none, cache := cache, client := s, calls := [] }
  | some _ => none
  | none =>
    match pageLoop (fun s token => client.DescribeVpcEndpoints s token region)
        (fun out => out.VpcEndpoints) (fun out => out.NextToken) fuel s none [] [] with
    | none => none
    | some (VpcEndpoints, some err, s', calls) =>
      some { value := VpcEndpoints, err := some err, cache := cache, client := s',
             calls := calls }
    | some (VpcEndpoints, none, s', calls) =>
      some { value := VpcEndpoints, err := none,
             cache := cache.Set cacheKey (CacheValue.vpcEndpoints VpcEndpoints),
             client := s', calls := calls }

/-- Source: `CachedApiGatewayGetStages` (sdk/apigateway.go, lines 104-131). -/
def CachedApiGatewayGetStages (client : APIGatewayClient σ Stage Integration MethodResponse)
    (s : σ) (cache : Cache (CacheValue Stage Integration MethodResponse))
    (accountID region restAPIID : Str) :
    Option (Fetched σ (CacheValue Stage Integration MethodResponse) (GetStagesOutput Stage)) :=
  let cacheKey := stagesCacheKey accountID region restAPIID
  match cache.Get cacheKey with
  | some (CacheValue.stages cachedOutput) =>
    some { value := fromCachedGetStagesOutput cachedOutput, err := none, cache := cache,
           client := s, calls := [] }
  | some _ => none
  | none =>
    match client.GetStages s restAPIID region with
    | ((_, some err), s') =>
      some { value := { Item := [], ResultMetadata := [] }, err := some err, cache := cache,
             client := s', calls := [none] }
    | ((GetStages, none), s') =>
      some { value := GetStages, err := none,
             cache := cache.Set cacheKey (CacheValue.stages (toCachedGetStagesOutput GetStages)),
             client := s', calls := [none] }

/-- Source: `CachedApiGatewayGetMethod` (sdk/apigateway.go, lines 262-293). -/
def CachedApiGatewayGetMethod (client : APIGatewayClient σ Stage Integration MethodResponse)
    (s : σ) (cache : Cache (CacheValue Stage Integration MethodResponse))
    (accountID region restAPIID resourceID method : Str) :
    Option (Fetched σ (CacheValue Stage Integration MethodResponse)
      (GetMethodOutput Integration MethodResponse)) :=
  let cacheKey := methodCacheKey accountID region restAPIID resourceID method
  match cache.Get cacheKey with
  | some (CacheValue.method cachedOutput) =>
    some { value := fromCachedGetMethodOutput cachedOutput, err := none, cache := cache,
           client := s, calls := [] }
  | some _ => none
  | none =>
    match client.GetMethod s restAPIID resourceID method region with
    | ((_, some err), s') =>
      some { value :=
               { ApiKeyRequired := none, AuthorizationScopes := [], AuthorizationType := none,
                 AuthorizerId := none, HttpMethod := none, MethodIntegration := none,
                 MethodResponses := [], OperationName := none, RequestModels := [],
                 RequestParameters := [], RequestValidatorId := none, ResultMetadata := [] },
             err := some err, cache := cache, client := s', calls := [none] }
    | ((GetMethod, none), s') =>
      some { value := GetMethod, err := none,
             cache := cache.Set cacheKey (CacheValue.method (toCachedGetMethodOutput GetMethod)),
             client := s', calls := [none] }

/-- The client answers the chain of requests that starts in state `s` with the token
`token` by the pages `pages`, one after the other and without error: every page but the
last carries a token, with which the next request is made, and the last carries none. -/
def servesPages {Out : Type} (request : σ → Option Str → (Out × Option Str) × σ)
    (next : Out → Option Str) : σ → Option Str → List Out → Prop
  | _, _, [] => False
  | s, token, [p] => (request s token).1 = (p, none) ∧ next p = none
  | s, token, p :: q :: rest =>
    (request s token).1 = (p, none) ∧ (next p).isSome = true ∧
      servesPages request next (request s token).2 (next p) (q :: rest)

end CacheLayer

/-! ## Profiles, paths and the output table -/

/-- Source: `ReorganizeAWSProfiles` (internal/aws.go, lines 398-408): the loop appends to
`newProfiles`, which starts as the one-element slice of `mgmtProfile`. -/
def ReorganizeAWSProfiles (allProfiles : List Str) (mgmtProfile : Str) : List Str :=
  allProfiles.foldl
    (fun newProfiles profile =>
      if profile != mgmtProfile then newProfiles ++ [profile] else newProfiles)
    [mgmtProfile]

/-- The characters of the class `[<>:"'|?*]` of `bannedPathChars` (internal/aws.go,
line 359). -/
def bannedPathChars : List Char := ['<', '>', ':', '"', '\'', '|', '?', '*']

/-- Source: `removeBadPathChars` (internal/aws.go, lines 357-364):
`ReplaceAllString` puts `_` for every match of the class, that is for every banned
character. -/
def removeBadPathChars (receivedPath : Option Str) : Str :=
  (awsToString receivedPath).map fun c => if c ∈ bannedPathChars then '_' else c

/-- The fields of `sts.GetCallerIdentityOutput` that are read. -/
structure CallerIdentity where
  Account : Option Str
  UserId : Option Str

/-- Source: `BuildAWSPath` (internal/aws.go, lines 366-371). -/
def BuildAWSPath (Caller : CallerIdentity) : Str :=
  let callerAccount := removeBadPathChars Caller.Account
  let callerUserID := removeBadPathChars Caller.UserId
  callerAccount ++ "-".toList ++ callerUserID

/-- Go `strings.Split(s, sep)` for a non-empty `sep`: `piece` is the piece being read, in
reverse, and the counter says how many runes of a separator already found are still to be
skipped. -/
def splitFrom (sep : Str) : Nat → Str → Str → List Str
  | _, piece, [] => [piece.reverse]
  | skip + 1, piece, _ :: rest => splitFrom sep skip piece rest
  | 0, piece, c :: rest =>
    if HasPrefix (c :: rest) sep then piece.reverse :: splitFrom sep (sep.length - 1) [] rest
    else splitFrom sep 0 (c :: piece) rest

/-- Go `strings.Split(s, sep)` (non-empty `sep`). -/
def Split (s sep : Str) : List Str := splitFrom sep 0 [] s

/-- Source: the choice of `tableCols` in `PrintResources` (lines 133-157). -/
def tableCols (AWSTableCols AWSOutputType : Str) : List Str :=
  if AWSTableCols != [] then
    let AWSTableCols := ReplaceAll AWSTableCols ", ".toList ",".toList
    let AWSTableCols := ReplaceAll AWSTableCols ",  ".toList ",".toList
    Split AWSTableCols ",".toList
  else if AWSOutputType == "wide".toList then
    ["Account".toList, "ARN".toList, "Public".toList, "Interesting".toList,
      "Resource Policy Summary".toList]
  else
    ["ARN".toList, "Public".toList, "Interesting".toList, "Resource Policy Summary".toList]

/-- Source: the receiver loop (lines 339-350): every finding received is appended to
`m.Resources2`. -/
def Receiver (resources2 received : List Resource2) : List Resource2 :=
  received.foldl (fun resources2 data => resources2 ++ [data]) resources2

/-- Source: the table rows of `PrintResources` (lines 165-177): one row is appended to
`m.output.Body` per element of `m.Resources2`. -/
def tableRows (account : Str) (body : List (List Str)) (resources2 : List Resource2) :
    List (List Str) :=
  resources2.foldl
    (fun body r => body ++ [[account, r.ARN, r.Public, r.Interesting, r.ResourcePolicySummary]])
    body

/-- Source: ranking and rendering in `PrintResources` (lines 159-177), for a module whose
`output.Body` is still empty: the sorted `m.Resources2` and the body built from it. -/
def rankAndRender (account : Str) (resources2 : List Resource2) :
    List Resource2 × List (List Str) :=
  let sorted := rankResources resources2
  (sorted, tableRows account [] sorted)

/-- Some statement among the first `k + 1` of `stmts`, which are numbered from `i`, has a
summary that `isResourcePolicyInteresting` flags. -/
def interestingWithin (d : Deps Stmt) (account : Str) (n : Nat) : Nat → Nat → List Stmt → Bool
  | _, _, [] => false
  | i, 0, statement :: _ => isResourcePolicyInteresting (statementSummary d account n i statement)
  | i, k + 1, statement :: rest =>
    isResourcePolicyInteresting (statementSummary d account n i statement) ||
      interestingWithin d account n (i + 1) k rest

/-- The findings `sent` for the statements of the policy `p` carry a sticky flag that starts
from `start`, the value of `isInteresting` before the statement loop (`true` for
`magenta("Yes")`): the finding of statement `k` has `Interesting` = Yes when `start` holds or
the summary of some statement `j ≤ k` is flagged by `isResourcePolicyInteresting`, and
`"No"` otherwise. -/
def stickyInteresting (d : Deps Stmt) (account : Str) (start : Bool) (p : Policy Stmt)
    (sent : List Resource2) : Prop :=
  ∀ (k : Nat) (f : Resource2), sent[k]? = some f →
    (f.Interesting = yes d ∧
        (start = true ∨ ∃ j, j ≤ k ∧ ∃ statement, p.Statement[j]? = some statement ∧
          isResourcePolicyInteresting
            (statementSummary d account p.Statement.length j statement) = true)) ∨
      (f.Interesting = no ∧
        ¬ (start = true ∨ ∃ j, j ≤ k ∧ ∃ statement, p.Statement[j]? = some statement ∧
          isResourcePolicyInteresting
            (statementSummary d account p.Statement.length j statement) = true))

/-- Once a finding of the resource has `Interesting` = Yes, so have all later ones. -/
def staysInteresting (d : Deps Stmt) (sent : List Resource2) : Prop :=
  ∀ (k k2 : Nat) (f f2 : Resource2), k ≤ k2 → sent[k]? = some f → sent[k2]? = some f2 →
    f.Interesting = yes d → f2.Interesting = yes d

section CacheFailure

variable {σ : Type}

/-- The client answers the chain of requests that starts in state `s` with the token
`token` by the pages `pages`, each with a token, and fails the request after them with the
error `err`. -/
def failsAfterPages {Out : Type} (request : σ → Option Str → (Out × Option Str) × σ)
    (next : Out → Option Str) : σ → Option Str → List Out → Str → Prop
  | s, token, [], err => (request s token).1.2 = some err
  | s, token, p :: rest, err =>
    (request s token).1 = (p, none) ∧ (next p).isSome = true ∧
      failsAfterPages request next (request s token).2 (next p) rest err

end CacheFailure

/-! ## Sample collaborators, for evaluating the tasks on concrete inputs -/

/-- Statements that are their own summary; a policy text parses to its lines (none for the
empty text, an error for the text `!`), and a policy is public when a statement mentions
`*`.  `colour` tells whether `magenta` wraps its argument in the escape sequence. -/
def sampleDeps (colour : Bool) : Deps Str where
  magenta := fun s => if colour then "\x1b[35m".toList ++ s ++ "\x1b[0m".toList else s
  GetStatementSummaryInEnglish := fun statement _ => statement
  IsPublic := fun p => p.Statement.any fun statement => Contains statement "*".toList
  ParseJSONPolicy := fun raw =>
    if raw = "!".toList then ({ Statement := [] }, some "malformed".toList)
    else ({ Statement := (raw.splitOn '\n').filter fun line => line != [] }, none)
  Resource := fun _ => []

/-- A region in which every listing call succeeds and lists nothing. -/
def emptyRegion : RegionInputs Str where
  ListTopics := ([], none)
  ListQueues := ([], none)
  DescribeRepositories := ([], none)
  ListProjects := ([], none)
  ListFunctions := ([], none)
  ListFileSystems := ([], none)
  ListSecrets := ([], none)
  ResourcePolicies := ([], none)
  listKeys := ([], none)
  restAPIs := ([], none)
  vpcEndpoints := ([], none)
  openSearchDomains := ([], none)

/-- A module with all optional clients set and a budget of five goroutines. -/
def sampleModule : Module where
  KMSClient := true
  APIGatewayClient := true
  EC2Client := true
  OpenSearchClient := true
  Goroutines := 5
  account := "111122223333".toList

/-- An oracle that reports `sns` and `kms` present everywhere, without error. -/
def snsAndKmsOracle : Str → Str → Bool × Option Str :=
  fun service _ => (service == "sns".toList || service == "kms".toList, none)

/-- An oracle that answers `true` together with an error for `sns` and `false` for every
other service. -/
def erringOracle : Str → Str → Bool × Option Str :=
  fun service _ =>
    if service = "sns".toList then (true, some "service map unavailable".toList)
    else (false, none)

/-- An API Gateway client that answers `GetRestApis` from a script, one entry per request,
whatever the token, and fails when the script is used up; its state is what is left of the
script.  `GetStages` and `GetMethod` answer with a fixed output that carries a request id
in `ResultMetadata`. -/
def scriptedApiGateway :
    APIGatewayClient (List (GetRestApisOutput × Option Str)) Str Unit Unit where
  GetRestApis := fun script _ _ =>
    match script with
    | [] => (({ Items := [], Position := none }, some "no response left".toList), [])
    | response :: rest => (response, rest)
  GetStages := fun script _ _ =>
    (({ Item := ["prod".toList], ResultMetadata := [("RequestID".toList, "r-1".toList)] },
      none), script)
  GetMethod := fun script _ _ _ _ =>
    (({ ApiKeyRequired := some true, AuthorizationScopes := [],
        AuthorizationType := some "NONE".toList, AuthorizerId := none,
        HttpMethod := some "GET".toList, MethodIntegration := none, MethodResponses := [],
        OperationName := none, RequestModels := [], RequestParameters := [],
        RequestValidatorId := none,
        ResultMetadata := [("RequestID".toList, "r-2".toList)] }, none), script)

/-- An EC2 client that answers `DescribeVpcEndpoints` from a script. -/
def scriptedEC2 : EC2Client (List (DescribeVpcEndpointsOutput × Option Str)) where
  DescribeVpcEndpoints := fun script _ _ =>
    match script with
    | [] => (({ VpcEndpoints := [], NextToken := none }, some "no response left".toList), [])
    | response :: rest => (response, rest)

/-- The cache without entries. -/
def emptyCache : Cache (CacheValue Str Unit Unit) := fun _ => none

/-- Two REST APIs and the two pages on which a client lists them. -/
def apiOrders : RestApi :=
  { Id := "abc123".toList, Name := some "orders".toList, Policy := none,
    Types := [EndpointTypePrivate] }

/-- A second REST API. -/
def apiBilling : RestApi :=
  { Id := "def456".toList, Name := some "billing".toList, Policy := none,
    Types := [EndpointTypePrivate] }

/-- The first page, which carries the token `t1`. -/
def pageOne : GetRestApisOutput := { Items := [apiOrders], Position := some "t1".toList }

/-- The last page. -/
def pageTwo : GetRestApisOutput := { Items := [apiBilling], Position := none }

/-- A VPC endpoint on a single page. -/
def endpointPage : DescribeVpcEndpointsOutput :=
  { VpcEndpoints := [{ VpcEndpointId := some "vpce-1".toList, PolicyDocument := none }],
    NextToken := none }


/-- A queue whose policy has three statements, the second of which names a role. -/
def stickyQueue : PolicyResource Str where
  Arn := "arn:aws:sqs:us-east-1:111111111111:jobs".toList
  Name := "jobs".toList
  fetch := ({ Statement := ["111111111111 may send".toList, "a role may read".toList,
    "222222222222 may read".toList] }, none)

/-! ## Lemmas on the string primitives -/

theorem hasPrefix_iff (s p : Str) : HasPrefix s p = true ↔ p <+: s := by
  induction s generalizing p with
  | nil => cases p <;> simp [HasPrefix]
  | cons c s ih =>
    cases p with
    | nil => simp [HasPrefix]
    | cons e p =>
      simp only [HasPrefix, Bool.and_eq_true, beq_iff_eq, ih, List.cons_prefix_cons]
      constructor <;> rintro ⟨rfl, h⟩ <;> exact ⟨rfl, h⟩

theorem contains_iff (s sub : Str) : Contains s sub = true ↔ sub <:+: s := by
  induction s with
  | nil => rw [Contains, hasPrefix_iff, List.prefix_nil, List.infix_nil]
  | cons c s ih =>
    rw [Contains, Bool.or_eq_true, ih, hasPrefix_iff, List.infix_cons_iff]

theorem contains_append_of_left (a b sub : Str) (h : Contains a sub = true) :
    Contains (a ++ b) sub = true := by
  rw [contains_iff] at h ⊢
  exact h.trans (List.infix_append' [] a b)

theorem toLower_append (a b : Str) : ToLower (a ++ b) = ToLower a ++ ToLower b := by
  simp [ToLower]

set_option maxRecDepth 100000 in
theorem caseRanges_sorted : rangesSorted unicode.CaseRanges = true := by
  decide!

set_option maxRecDepth 100000 in
theorem caseRanges_lowerStable :
    unicode.CaseRanges.all (lowerStable unicode.CaseRanges) = true := by
  decide!

theorem rangesSorted_head (a : unicode.CaseRange) (rest : List unicode.CaseRange)
    (h : rangesSorted (a :: rest) = true) : a.Lo ≤ a.Hi := by
  cases rest with
  | nil => simpa [rangesSorted] using h
  | cons b rest =>
    simp only [rangesSorted, Bool.and_eq_true, decide_eq_true_eq] at h
    exact h.1.1

theorem rangesSorted_tail (a : unicode.CaseRange) (rest : List unicode.CaseRange)
    (h : rangesSorted (a :: rest) = true) : rangesSorted rest = true := by
  cases rest with
  | nil => rfl
  | cons b rest =>
    simp only [rangesSorted, Bool.and_eq_true, decide_eq_true_eq] at h
    exact h.2

theorem rangesSorted_beyond (rest : List unicode.CaseRange) :
    ∀ (a : unicode.CaseRange), rangesSorted (a :: rest) = true → ∀ b ∈ rest, a.Hi < b.Lo := by
  induction rest with
  | nil => intro a _ b hb; simp at hb
  | cons c rest ih =>
    intro a h b hb
    have hc := rangesSorted_head c rest (rangesSorted_tail a _ h)
    simp only [rangesSorted, Bool.and_eq_true, decide_eq_true_eq] at h
    rcases List.mem_cons.1 hb with rfl | hb
    · exact h.1.2
    · have := ih c h.2 b hb
      omega

theorem to_of_mem (_case : Nat) (r : Int) (tbl : List unicode.CaseRange)
    (hs : rangesSorted tbl = true) (e : unicode.CaseRange) (he : e ∈ tbl)
    (hr : (e.Lo : Int) ≤ r ∧ r ≤ (e.Hi : Int)) :
    unicode.to _case r tbl = e.map _case r := by
  induction tbl with
  | nil => simp at he
  | cons cr rest ih =>
    rw [unicode.to]
    rcases List.mem_cons.1 he with rfl | he
    · rw [if_pos hr]
    · have := rangesSorted_beyond rest cr hs e he
      rw [if_neg (by omega)]
      exact ih (rangesSorted_tail cr rest hs) he

theorem to_eq_self_of_settled (_case : Nat) (x : Int) (tbl : List unicode.CaseRange)
    (h : ∀ e2 ∈ tbl, (e2.Lo : Int) ≤ x → x ≤ (e2.Hi : Int) → e2.map _case x = x) :
    unicode.to _case x tbl = x := by
  induction tbl with
  | nil => rfl
  | cons cr rest ih =>
    rw [unicode.to]
    split_ifs with hc
    · exact h cr (List.mem_cons_self _ _) hc.1 hc.2
    · exact ih (fun e2 he2 => h e2 (List.mem_cons_of_mem _ he2))

theorem to_eq_self_or_map (_case : Nat) (r : Int) (tbl : List unicode.CaseRange) :
    unicode.to _case r tbl = r ∨
      ∃ e ∈ tbl, (e.Lo : Int) ≤ r ∧ r ≤ (e.Hi : Int) ∧
        unicode.to _case r tbl = e.map _case r := by
  induction tbl with
  | nil => exact Or.inl rfl
  | cons cr rest ih =>
    rw [unicode.to]
    split_ifs with hc
    · exact Or.inr ⟨cr, List.mem_cons_self _ _, hc.1, hc.2, rfl⟩
    · rcases ih with h | ⟨e, he, h1, h2, h3⟩
      · exact Or.inl h
      · exact Or.inr ⟨e, List.mem_cons_of_mem _ he, h1, h2, h3⟩

theorem lowerSettled_spec (lo hi : Nat) (x : Int) (hx : (lo : Int) ≤ x ∧ x ≤ (hi : Int))
    (tbl : List unicode.CaseRange) (hs : rangesSorted tbl = true)
    (h : lowerSettled lo hi tbl = true) :
    ∀ e2 ∈ tbl, (e2.Lo : Int) ≤ x → x ≤ (e2.Hi : Int) → e2.Delta.lower = 0 := by
  induction tbl with
  | nil => intro e2 he2; simp at he2
  | cons cr rest ih =>
    intro e2 he2 h1 h2
    have hcr := rangesSorted_head cr rest hs
    have hbeyond := rangesSorted_beyond rest cr hs
    rw [lowerSettled] at h
    split_ifs at h with hhi
    · rcases List.mem_cons.1 he2 with rfl | he2
      · omega
      · have := hbeyond e2 he2
        omega
    · simp only [Bool.and_eq_true, Bool.or_eq_true, decide_eq_true_eq] at h
      rcases List.mem_cons.1 he2 with rfl | he2
      · rcases h.1 with h3 | h3
        · omega
        · exact h3
      · exact ih (rangesSorted_tail cr rest hs) h.2 e2 he2 h1 h2

theorem lowerStable_spec (tbl : List unicode.CaseRange) (hs : rangesSorted tbl = true)
    (e : unicode.CaseRange) (he : e ∈ tbl) (h : lowerStable tbl e = true) (r : Int)
    (hr : (e.Lo : Int) ≤ r ∧ r ≤ (e.Hi : Int)) :
    e.map unicode.LowerCase r = r ∨
      ((0 ≤ e.map unicode.LowerCase r ∧
          (e.map unicode.LowerCase r < 0xD800 ∨
            (0xDFFF < e.map unicode.LowerCase r ∧ e.map unicode.LowerCase r < 0x110000))) ∧
        unicode.to unicode.LowerCase (e.map unicode.LowerCase r) tbl =
          e.map unicode.LowerCase r) := by
  unfold lowerStable at h
  by_cases hUL : e.Delta.lower > unicode.MaxRune
  · rw [if_pos hUL] at h
    simp only [Bool.and_eq_true, Bool.or_eq_true, decide_eq_true_eq] at h
    have hmap : e.map unicode.LowerCase r = (e.Lo : Int) + ((r - (e.Lo : Int)) / 2 * 2 + 1) := by
      simp only [unicode.CaseRange.map, unicode.LowerCase, unicode.d.get]
      rw [if_pos hUL]
      norm_num
    right
    have hin : (e.Lo : Int) ≤ e.map unicode.LowerCase r ∧
        e.map unicode.LowerCase r ≤ (e.Hi : Int) := by
      rw [hmap]; omega
    refine ⟨by rw [hmap]; omega, ?_⟩
    rw [to_of_mem unicode.LowerCase _ tbl hs e he hin]
    generalize e.map unicode.LowerCase r = y at hmap
    simp only [unicode.CaseRange.map, unicode.LowerCase, unicode.d.get]
    rw [if_pos hUL, hmap]
    norm_num
    omega
  · rw [if_neg hUL] at h
    by_cases h0 : e.Delta.lower = 0
    · left
      simp only [unicode.CaseRange.map, unicode.LowerCase, unicode.d.get]
      rw [if_neg hUL, h0, add_zero]
    · rw [if_neg h0] at h
      simp only [Bool.and_eq_true, Bool.or_eq_true, decide_eq_true_eq] at h
      have hmap : e.map unicode.LowerCase r = r + e.Delta.lower := by
        simp only [unicode.CaseRange.map, unicode.LowerCase, unicode.d.get]
        rw [if_neg hUL]
      right
      rw [hmap]
      refine ⟨by omega, ?_⟩
      apply to_eq_self_of_settled
      intro e2 he2 h1 h2
      have hz := lowerSettled_spec _ _ (r + e.Delta.lower) (by omega) tbl hs h.2 e2 he2 h1 h2
      simp only [unicode.CaseRange.map, unicode.LowerCase, unicode.d.get]
      rw [hz, if_neg (by simp [unicode.MaxRune]), add_zero]

theorem to_lower_stable (r : Int) :
    unicode.to unicode.LowerCase r unicode.CaseRanges = r ∨
      ((0 ≤ unicode.to unicode.LowerCase r unicode.CaseRanges ∧
          (unicode.to unicode.LowerCase r unicode.CaseRanges < 0xD800 ∨
            (0xDFFF < unicode.to unicode.LowerCase r unicode.CaseRanges ∧
              unicode.to unicode.LowerCase r unicode.CaseRanges < 0x110000))) ∧
        unicode.to unicode.LowerCase (unicode.to unicode.LowerCase r unicode.CaseRanges)
          unicode.CaseRanges = unicode.to unicode.LowerCase r unicode.CaseRanges) := by
  rcases to_eq_self_or_map unicode.LowerCase r unicode.CaseRanges with h | ⟨e, he, h1, h2, h3⟩
  · exact Or.inl h
  · rw [h3]
    rcases lowerStable_spec unicode.CaseRanges caseRanges_sorted e he
      (List.all_eq_true.1 caseRanges_lowerStable e he) r ⟨h1, h2⟩ with h | h
    · exact Or.inl h
    · exact Or.inr h

theorem to_lower_idem (r : Int) :
    unicode.to unicode.LowerCase (unicode.to unicode.LowerCase r unicode.CaseRanges)
        unicode.CaseRanges = unicode.to unicode.LowerCase r unicode.CaseRanges := by
  rcases to_lower_stable r with h | h
  · rw [h]; exact h
  · exact h.2

theorem to_lower_valid (r : Int) (hr : 0 ≤ r ∧ (r < 0xD800 ∨ (0xDFFF < r ∧ r < 0x110000))) :
    0 ≤ unicode.to unicode.LowerCase r unicode.CaseRanges ∧
      (unicode.to unicode.LowerCase r unicode.CaseRanges < 0xD800 ∨
        (0xDFFF < unicode.to unicode.LowerCase r unicode.CaseRanges ∧
          unicode.to unicode.LowerCase r unicode.CaseRanges < 0x110000)) := by
  rcases to_lower_stable r with h | h
  · rw [h]; exact hr
  · exact h.1

theorem to_lower_of_capital (r : Int) (h : 65 ≤ r ∧ r ≤ 90) :
    unicode.to unicode.LowerCase r unicode.CaseRanges = r + 32 := by
  have e : unicode.CaseRanges =
      unicode.CaseRange.mk 0x0041 0x005A (unicode.d.mk 0 32 0) :: unicode.CaseRanges.tail := rfl
  rw [e, unicode.to, if_pos (by constructor <;> simp <;> omega)]
  simp [unicode.CaseRange.map, unicode.d.get, unicode.LowerCase, unicode.MaxRune]

theorem char_toNat_ofNat_valid (n : Nat) (h : n < 0xD800 ∨ (0xDFFF < n ∧ n < 0x110000)) :
    (Char.ofNat n).toNat = n := by
  have hv : n.isValidChar := h
  simp only [Char.ofNat, hv, dif_pos, Char.ofNatAux, Char.toNat]
  rfl

theorem char_valid (c : Char) : c.toNat < 0xD800 ∨ (0xDFFF < c.toNat ∧ c.toNat < 0x110000) :=
  c.valid

theorem char_toNat_ofNat_lower (n : Nat) (h1 : 65 ≤ n) (h2 : n ≤ 90) :
    (Char.ofNat (n + 32)).toNat = n + 32 :=
  char_toNat_ofNat_valid _ (by omega)

theorem char_toNat_ofNat_upper (n : Nat) (h1 : 97 ≤ n) (h2 : n ≤ 122) :
    (Char.ofNat (n - 32)).toNat = n - 32 :=
  char_toNat_ofNat_valid _ (by omega)

theorem unicode_toLower_of_ascii (c : Char) (h : c.toNat ≤ 127) :
    unicode.ToLower c =
      if 65 ≤ c.toNat ∧ c.toNat ≤ 90 then Char.ofNat (c.toNat + 32) else c := by
  unfold unicode.ToLower
  rw [if_pos (show c.toNat ≤ unicode.MaxASCII from h)]
  rfl

theorem unicode_toUpper_of_ascii (c : Char) (h : c.toNat ≤ 127) :
    unicode.ToUpper c =
      if 97 ≤ c.toNat ∧ c.toNat ≤ 122 then Char.ofNat (c.toNat - 32) else c := by
  unfold unicode.ToUpper
  rw [if_pos (show c.toNat ≤ unicode.MaxASCII from h)]
  rfl

theorem unicode_toLower_of_not_ascii (c : Char) (h : ¬ c.toNat ≤ 127) :
    unicode.ToLower c =
      Char.ofNat (unicode.to unicode.LowerCase c.toNat unicode.CaseRanges).toNat := by
  unfold unicode.ToLower
  rw [if_neg (show ¬ c.toNat ≤ unicode.MaxASCII from h)]

theorem char_toLower_toLower (c : Char) :
    unicode.ToLower (unicode.ToLower c) = unicode.ToLower c := by
  by_cases hA : c.toNat ≤ 127
  · rw [unicode_toLower_of_ascii c hA]
    by_cases hU : 65 ≤ c.toNat ∧ c.toNat ≤ 90
    · rw [if_pos hU]
      have hn := char_toNat_ofNat_lower c.toNat hU.1 hU.2
      rw [unicode_toLower_of_ascii _ (by rw [hn]; omega), if_neg (by rw [hn]; omega)]
    · rw [if_neg hU, unicode_toLower_of_ascii c hA, if_neg hU]
  · rw [unicode_toLower_of_not_ascii c hA]
    have hc := char_valid c
    have hv := to_lower_valid c.toNat ⟨by omega, by omega⟩
    have hidem := to_lower_idem (c.toNat : Int)
    generalize unicode.to unicode.LowerCase c.toNat unicode.CaseRanges = n at hv hidem ⊢
    have hnat : (Char.ofNat n.toNat).toNat = n.toNat := char_toNat_ofNat_valid _ (by omega)
    have hcast : ((Char.ofNat n.toNat).toNat : Int) = n := by rw [hnat]; omega
    by_cases hA2 : (Char.ofNat n.toNat).toNat ≤ 127
    · rw [unicode_toLower_of_ascii _ hA2, if_neg]
      rintro ⟨h1, h2⟩
      have hcap := to_lower_of_capital n (by omega)
      rw [hidem] at hcap
      omega
    · rw [unicode_toLower_of_not_ascii _ hA2, hcast, hidem]

theorem char_toLower_toUpper (c : Char) (hA : c.toNat ≤ 127) :
    unicode.ToLower (unicode.ToUpper c) = unicode.ToLower c := by
  rw [unicode_toUpper_of_ascii c hA]
  by_cases h : 97 ≤ c.toNat ∧ c.toNat ≤ 122
  · rw [if_pos h]
    have hn := char_toNat_ofNat_upper c.toNat h.1 h.2
    rw [unicode_toLower_of_ascii _ (by rw [hn]; omega), if_pos (by rw [hn]; omega), hn,
      unicode_toLower_of_ascii c hA, if_neg (by omega)]
    have e : c.toNat - 32 + 32 = c.toNat := by omega
    rw [e, Char.ofNat_toNat]
  · rw [if_neg h]

theorem toLower_toLower (s : Str) : ToLower (ToLower s) = ToLower s := by
  simp [ToLower, char_toLower_toLower]

theorem toLower_toUpper (s : Str) (h : ∀ c ∈ s, c.toNat < 128) :
    ToLower (ToUpper s) = ToLower s := by
  simp only [ToLower, ToUpper, List.map_map]
  apply List.map_congr_left
  intro c hc
  exact char_toLower_toUpper c (by have := h c hc; omega)

theorem keyword_everyone : ToLower "Everyone".toList = "everyone".toList := by decide
theorem keyword_orgid : ToLower "aws:PrincipalOrgID".toList = "aws:principalorgid".toList := by
  decide
theorem keyword_account :
    ToLower "aws:PrincipalAccount".toList = "aws:principalaccount".toList := by decide
theorem keyword_orgpaths :
    ToLower "aws:PrincipalOrgPaths".toList = "aws:principalorgpaths".toList := by decide
theorem keyword_role : ToLower "role".toList = "role".toList := by decide
theorem keyword_root : ToLower "root".toList = "root".toList := by decide
theorem keyword_arn : ToLower "aws:arn".toList = "aws:arn".toList := by decide
theorem keyword_sourcearn : ToLower "SourceArn".toList = "sourcearn".toList := by decide
theorem keyword_sourceaccount : ToLower "SourceAccount".toList = "sourceaccount".toList := by
  decide

/-- The heuristic, with the keywords written out in lower case. -/
theorem isResourcePolicyInteresting_eq (s : Str) :
    isResourcePolicyInteresting s =
      ((Contains (ToLower s) "everyone".toList && !Contains (ToLower s) "denied".toList) ||
        Contains (ToLower s) "aws:principalorgid".toList ||
        Contains (ToLower s) "aws:principalaccount".toList ||
        Contains (ToLower s) "aws:principalorgpaths".toList ||
        Contains (ToLower s) "role".toList ||
        Contains (ToLower s) "root".toList ||
        (Contains (ToLower s) "aws:arn".toList && !Contains (ToLower s) "sourcearn".toList) ||
        (Contains (ToLower s) "aws:arn".toList &&
          !Contains (ToLower s) "sourceaccount".toList)) := by
  unfold isResourcePolicyInteresting
  rw [keyword_everyone, keyword_orgid, keyword_account, keyword_orgpaths, keyword_role,
    keyword_root, keyword_arn, keyword_sourcearn, keyword_sourceaccount]
  simp

theorem mem_intersperse_of_mem {α : Type} (sep l : α) :
    ∀ (lines : List α), l ∈ lines → l ∈ lines.intersperse sep
  | [], h => by simp at h
  | [x], h => by simpa using h
  | x :: y :: t, h => by
    rw [List.intersperse_cons₂]
    rcases List.mem_cons.1 h with rfl | h'
    · exact List.mem_cons_self _ _
    · exact List.mem_cons_of_mem _ (List.mem_cons_of_mem _ (mem_intersperse_of_mem sep l _ h'))

theorem infix_intercalate_of_mem (sep l : Str) (lines : List Str) (h : l ∈ lines) :
    l <:+: sep.intercalate lines := by
  unfold List.intercalate
  exact List.infix_of_mem_flatten (mem_intersperse_of_mem sep l lines h)

theorem contains_of_infix (s t sub : Str) (hst : s <:+: t) (h : Contains s sub = true) :
    Contains t sub = true := by
  rw [contains_iff] at h ⊢
  exact h.trans hst

theorem toLower_mono (s t : Str) (h : s <:+: t) : ToLower s <:+: ToLower t := by
  obtain ⟨a, b, rfl⟩ := h
  exact ⟨ToLower a, ToLower b, by simp [ToLower]⟩

/-! ## The heuristic `isResourcePolicyInteresting` -/

/-- C6: `isResourcePolicyInteresting s` is true whenever the lower-cased `s` contains, anywhere,
one of `aws:principalorgid`, `aws:principalaccount`, `aws:principalorgpaths`, `role`, `root`,
whatever else `s` contains. -/
theorem isResourcePolicyInteresting_of_keyword (s : Str)
    (h : Contains (ToLower s) "aws:principalorgid".toList = true ∨
      Contains (ToLower s) "aws:principalaccount".toList = true ∨
      Contains (ToLower s) "aws:principalorgpaths".toList = true ∨
      Contains (ToLower s) "role".toList = true ∨
      Contains (ToLower s) "root".toList = true) :
    isResourcePolicyInteresting s = true := by
  rw [isResourcePolicyInteresting_eq]
  rcases h with h | h | h | h | h <;> rw [h] <;>
    simp only [Bool.or_true, Bool.true_or, Bool.or_false, Bool.false_or, Bool.and_true,
      Bool.true_and, Bool.and_false, Bool.false_and, Bool.not_true, Bool.not_false]

/-- C6 at two summaries: `root` inside "Uprooted", next to "denied", and `role` inside
"petroleum". -/
theorem isResourcePolicyInteresting_of_keyword_witness :
    isResourcePolicyInteresting "Uprooted trees are denied to Everyone".toList = true ∧
      isResourcePolicyInteresting "The Petroleum board may read".toList = true :=
  ⟨isResourcePolicyInteresting_of_keyword _ (by decide),
    isResourcePolicyInteresting_of_keyword _ (by decide)⟩

/-- The `everyone` clause of the heuristic: without `denied` it raises the flag, with
`denied` it does not. -/
theorem everyone_clause (s : Str)
    (hE : Contains (ToLower s) "everyone".toList = true) :
    (Contains (ToLower s) "denied".toList = false → isResourcePolicyInteresting s = true) ∧
      (Contains (ToLower s) "denied".toList = true →
        Contains (ToLower s) "aws:principalorgid".toList = false →
        Contains (ToLower s) "aws:principalaccount".toList = false →
        Contains (ToLower s) "aws:principalorgpaths".toList = false →
        Contains (ToLower s) "role".toList = false →
        Contains (ToLower s) "root".toList = false →
        Contains (ToLower s) "aws:arn".toList = false →
        isResourcePolicyInteresting s = false) := by
  rw [isResourcePolicyInteresting_eq]
  constructor
  · intro hD
    rw [hE, hD]
    simp only [Bool.or_true, Bool.true_or, Bool.or_false, Bool.false_or, Bool.and_true,
      Bool.true_and, Bool.and_false, Bool.false_and, Bool.not_true, Bool.not_false]
  · intro hD h1 h2 h3 h4 h5 h6
    rw [hE, hD, h1, h2, h3, h4, h5, h6]
    simp only [Bool.or_true, Bool.true_or, Bool.or_false, Bool.false_or, Bool.and_true,
      Bool.true_and, Bool.and_false, Bool.false_and, Bool.not_true, Bool.not_false]

/-- The word "controller" does not contain `role` (it reads r-o-l-l-e); a summary with that
word and no keyword is not flagged. -/
theorem controller_not_flagged :
    Contains (ToLower "The controller may read".toList) "role".toList = false ∧
      isResourcePolicyInteresting "The controller may read".toList = false := by
  decide

/-- C7: for a summary whose lower-cased form contains `everyone`: without `denied` the
heuristic is true; with `denied` and none of the other keywords it is false. -/
theorem isResourcePolicyInteresting_everyone (s : Str)
    (hE : Contains (ToLower s) "everyone".toList = true) :
    (Contains (ToLower s) "denied".toList = false → isResourcePolicyInteresting s = true) ∧
      (Contains (ToLower s) "denied".toList = true →
        Contains (ToLower s) "aws:principalorgid".toList = false →
        Contains (ToLower s) "aws:principalaccount".toList = false →
        Contains (ToLower s) "aws:principalorgpaths".toList = false →
        Contains (ToLower s) "role".toList = false →
        Contains (ToLower s) "root".toList = false →
        Contains (ToLower s) "aws:arn".toList = false →
        isResourcePolicyInteresting s = false) :=
  everyone_clause s hE

/-- C7 at "Everyone can get objects" (flagged) and at "Everyone is DENIED access" (not
flagged). -/
theorem isResourcePolicyInteresting_everyone_witness :
    isResourcePolicyInteresting "Everyone can get objects".toList = true ∧
      isResourcePolicyInteresting "Everyone is DENIED access".toList = false :=
  ⟨(isResourcePolicyInteresting_everyone "Everyone can get objects".toList (by decide)).1
      (by decide),
    (isResourcePolicyInteresting_everyone "Everyone is DENIED access".toList (by decide)).2
      (by decide) (by decide) (by decide) (by decide) (by decide) (by decide) (by decide)⟩

/-- C8, as the code has it: the `denied` exception looks at the whole summary.  For a
summary joined from lines of which one contains `everyone`: when `denied` occurs nowhere in
the summary the heuristic is true; when `denied` occurs anywhere in it, on whatever line,
and none of the other keywords does, the heuristic is false. -/
theorem denied_exception_whole_summary (lines : List Str) (l : Str)
    (hl : l ∈ lines) (hE : Contains (ToLower l) "everyone".toList = true) :
    (Contains (ToLower (nl.intercalate lines)) "denied".toList = false →
        isResourcePolicyInteresting (nl.intercalate lines) = true) ∧
      (Contains (ToLower (nl.intercalate lines)) "denied".toList = true →
        Contains (ToLower (nl.intercalate lines)) "aws:principalorgid".toList = false →
        Contains (ToLower (nl.intercalate lines)) "aws:principalaccount".toList = false →
        Contains (ToLower (nl.intercalate lines)) "aws:principalorgpaths".toList = false →
        Contains (ToLower (nl.intercalate lines)) "role".toList = false →
        Contains (ToLower (nl.intercalate lines)) "root".toList = false →
        Contains (ToLower (nl.intercalate lines)) "aws:arn".toList = false →
        isResourcePolicyInteresting (nl.intercalate lines) = false) := by
  have hW : Contains (ToLower (nl.intercalate lines)) "everyone".toList = true :=
    contains_of_infix _ _ _ (toLower_mono _ _ (infix_intercalate_of_mem nl l lines hl)) hE
  exact everyone_clause _ hW

/-- C8 as amended, at the two-line summaries "Everyone can read / bob may write" (flagged)
and "Everyone can read / bob is denied" (not flagged). -/
theorem denied_exception_whole_summary_witness :
    isResourcePolicyInteresting
        (nl.intercalate ["Everyone can read".toList, "bob may write".toList]) = true ∧
      isResourcePolicyInteresting
        (nl.intercalate ["Everyone can read".toList, "bob is denied".toList]) = false :=
  ⟨(denied_exception_whole_summary
      ["Everyone can read".toList, "bob may write".toList] "Everyone can read".toList
      (by decide) (by decide)).1 (by decide),
    (denied_exception_whole_summary
      ["Everyone can read".toList, "bob is denied".toList] "Everyone can read".toList
      (by decide) (by decide)).2
      (by decide) (by decide) (by decide) (by decide) (by decide) (by decide) (by decide)⟩

/-- C8 fails as stated: the bucket policy with the statements "Everyone can read" and
"bob is denied" gets from `getS3Buckets` the two-line summary below, whose first line
contains `everyone` and not `denied`; the heuristic is false on it and the finding is sent
with `Interesting = "No"`. -/
theorem everyone_with_denied_on_other_line_not_flagged :
    (getS3BucketsBody (sampleDeps false) "111122223333".toList
        { Name := "logs".toList
          CachedGetBucketLocation := ("us-east-1".toList, none)
          CachedGetBucketPolicy := ("Everyone can read\nbob is denied".toList, none) }).sent =
      [mkFinding "111122223333".toList "arn:aws:s3:::logs".toList "logs".toList
        "us-east-1".toList "No".toList
        "Statement 0 says: Everyone can read\nStatement 1 says: bob is denied".toList
        "No".toList] ∧
      Contains (ToLower "Statement 0 says: Everyone can read".toList) "everyone".toList = true ∧
      Contains (ToLower "Statement 0 says: Everyone can read".toList) "denied".toList = false ∧
      isResourcePolicyInteresting
        "Statement 0 says: Everyone can read\nStatement 1 says: bob is denied".toList = false := by
  decide

/-- C9 at the summary "Allowed for aws:arn with SourceArn set": none of `everyone`,
`aws:principalorgid`, `aws:principalaccount`, `aws:principalorgpaths`, `role`, `root`
occurs, `aws:arn` occurs together with `sourcearn` and without `sourceaccount`, and the
code flags the summary. -/
theorem arn_with_sourcearn_flagged :
    Contains (ToLower "Allowed for aws:arn with SourceArn set".toList) "aws:arn".toList = true ∧
      Contains (ToLower "Allowed for aws:arn with SourceArn set".toList)
        "sourcearn".toList = true ∧
      Contains (ToLower "Allowed for aws:arn with SourceArn set".toList)
        "sourceaccount".toList = false ∧
      isResourcePolicyInteresting "Allowed for aws:arn with SourceArn set".toList = true := by
  decide

/-- What the code computes where C9 speaks: without the first six keywords the heuristic is
true exactly when `aws:arn` occurs and `sourcearn` and `sourceaccount` do not both occur. -/
theorem isResourcePolicyInteresting_arn (s : Str)
    (h0 : Contains (ToLower s) "everyone".toList = false)
    (h1 : Contains (ToLower s) "aws:principalorgid".toList = false)
    (h2 : Contains (ToLower s) "aws:principalaccount".toList = false)
    (h3 : Contains (ToLower s) "aws:principalorgpaths".toList = false)
    (h4 : Contains (ToLower s) "role".toList = false)
    (h5 : Contains (ToLower s) "root".toList = false) :
    isResourcePolicyInteresting s =
      (Contains (ToLower s) "aws:arn".toList &&
        !(Contains (ToLower s) "sourcearn".toList &&
          Contains (ToLower s) "sourceaccount".toList)) := by
  rw [isResourcePolicyInteresting_eq, h0, h1, h2, h3, h4, h5]
  cases Contains (ToLower s) "aws:arn".toList <;>
    cases Contains (ToLower s) "sourcearn".toList <;>
    cases Contains (ToLower s) "sourceaccount".toList <;> rfl

/-- C10: the heuristic does not depend on letter case: it gives the same on `s` and on
`ToLower s`, and for an ASCII `s` the same on `ToUpper s`. -/
theorem isResourcePolicyInteresting_case_insensitive (s : Str) :
    isResourcePolicyInteresting s = isResourcePolicyInteresting (ToLower s) ∧
      ((∀ c ∈ s, c.toNat < 128) →
        isResourcePolicyInteresting s = isResourcePolicyInteresting (ToUpper s)) := by
  constructor
  · unfold isResourcePolicyInteresting
    rw [toLower_toLower]
  · intro h
    unfold isResourcePolicyInteresting
    rw [toLower_toUpper s h]

/-- C10 at the ASCII summary "Role Admin of Root": the upper-cased summary is flagged like
the summary itself. -/
theorem isResourcePolicyInteresting_case_insensitive_witness :
    (∀ c ∈ "Role Admin of Root".toList, c.toNat < 128) ∧
      isResourcePolicyInteresting "Role Admin of Root".toList =
        isResourcePolicyInteresting (ToUpper "Role Admin of Root".toList) :=
  ⟨by decide,
    (isResourcePolicyInteresting_case_insensitive "Role Admin of Root".toList).2 (by decide)⟩

/-- Letter case beyond ASCII: `strings.ToLower` maps the dotted capital I (U+0130) to `i`, so
"Everyone is DENİED access" holds `denied` and is not flagged; and `strings.ToUpper` maps
the long s (U+017F) to `S` where `strings.ToLower` leaves it alone, so "awſ:arn" is not
flagged and its upper-cased form is. -/
theorem case_mapping_beyond_ascii :
    ToLower "Everyone is DENİED access".toList = "everyone is denied access".toList ∧
      isResourcePolicyInteresting "Everyone is DENİED access".toList = false ∧
      ToUpper "awſ:arn".toList = "AWS:ARN".toList ∧
      ToLower "awſ:arn".toList = "awſ:arn".toList ∧
      isResourcePolicyInteresting "awſ:arn".toList = false ∧
      isResourcePolicyInteresting (ToUpper "awſ:arn".toList) = true := by
  decide

/-! ## Ranking -/

theorem strLess_asymm (a b : Str) : strLess a b = true → strLess b a = false := by
  induction a generalizing b with
  | nil => cases b <;> simp [strLess]
  | cons x a ih =>
    cases b with
    | nil => simp [strLess]
    | cons y b =>
      simp only [strLess]
      intro h
      split_ifs at h ⊢ <;> first | omega | rfl | exact ih _ h

theorem strLess_false_trans (a b c : Str) :
    strLess b a = false → strLess c b = false → strLess c a = false := by
  induction a generalizing b c with
  | nil => cases b <;> cases c <;> simp [strLess]
  | cons x a ih =>
    cases b with
    | nil => cases c <;> simp [strLess]
    | cons y b =>
      cases c with
      | nil => simp [strLess]
      | cons z c =>
        simp only [strLess]
        intro h1 h2
        split_ifs at h1 h2 ⊢ <;> first | omega | rfl | exact ih _ _ h1 h2

theorem siftLeft_perm {α : Type} (less : α → α → Bool) (x : α) (l : List α) :
    (siftLeft less x l).Perm (x :: l) := by
  induction l with
  | nil => exact List.Perm.refl _
  | cons y ys ih =>
    unfold siftLeft
    split_ifs
    · exact (List.Perm.cons y ih).trans (List.Perm.swap x y ys)
    · exact List.Perm.refl _

theorem siftLeft_pairwise {α : Type} (less : α → α → Bool)
    (hasym : ∀ a b, less a b = true → less b a = false)
    (htrans : ∀ a b c, less b a = false → less c b = false → less c a = false)
    (x : α) (l : List α) (hl : l.Pairwise fun p q => less p q = false) :
    (siftLeft less x l).Pairwise fun p q => less p q = false := by
  induction l with
  | nil => simp [siftLeft]
  | cons y ys ih =>
    rw [List.pairwise_cons] at hl
    unfold siftLeft
    split_ifs with hxy
    · rw [List.pairwise_cons]
      refine ⟨?_, ih hl.2⟩
      intro q hq
      rcases List.mem_cons.1 ((siftLeft_perm less x ys).subset hq) with rfl | hq'
      · exact hasym _ _ hxy
      · exact hl.1 q hq'
    · rw [List.pairwise_cons]
      refine ⟨?_, List.pairwise_cons.2 hl⟩
      intro q hq
      have hxy' : less x y = false := by simpa using hxy
      rcases List.mem_cons.1 hq with rfl | hq'
      · exact hxy'
      · exact htrans q y x (hl.1 q hq') hxy'

theorem foldl_siftLeft_perm {α : Type} (less : α → α → Bool) (xs acc : List α) :
    (xs.foldl (fun sortedRev x => siftLeft less x sortedRev) acc).Perm (xs.reverse ++ acc) := by
  induction xs generalizing acc with
  | nil => simp
  | cons x xs ih =>
    rw [List.foldl_cons, List.reverse_cons, List.append_assoc]
    refine (ih _).trans (List.Perm.append_left _ ?_)
    exact siftLeft_perm less x acc

theorem foldl_siftLeft_pairwise {α : Type} (less : α → α → Bool)
    (hasym : ∀ a b, less a b = true → less b a = false)
    (htrans : ∀ a b c, less b a = false → less c b = false → less c a = false)
    (xs acc : List α) (hacc : acc.Pairwise fun p q => less p q = false) :
    (xs.foldl (fun sortedRev x => siftLeft less x sortedRev) acc).Pairwise
      fun p q => less p q = false := by
  induction xs generalizing acc with
  | nil => simpa using hacc
  | cons x xs ih =>
    rw [List.foldl_cons]
    exact ih _ (siftLeft_pairwise less hasym htrans x acc hacc)

theorem sortSlice_perm {α : Type} (less : α → α → Bool) (xs : List α) :
    (sortSlice less xs).Perm xs := by
  unfold sortSlice
  refine (List.reverse_perm _).trans ((foldl_siftLeft_perm less xs []).trans ?_)
  rw [List.append_nil]
  exact List.reverse_perm xs

theorem sortSlice_pairwise {α : Type} (less : α → α → Bool)
    (hasym : ∀ a b, less a b = true → less b a = false)
    (htrans : ∀ a b c, less b a = false → less c b = false → less c a = false)
    (xs : List α) : (sortSlice less xs).Pairwise fun a b => less b a = false := by
  unfold sortSlice
  rw [List.pairwise_reverse]
  exact foldl_siftLeft_pairwise less hasym htrans xs [] List.Pairwise.nil

theorem rankResources_ascending (resources2 : List Resource2) :
    ascendingByInteresting (rankResources resources2) := by
  unfold ascendingByInteresting rankResources
  exact sortSlice_pairwise lessInteresting
    (fun a b h => strLess_asymm _ _ h)
    (fun a b c h1 h2 => strLess_false_trans _ _ _ h1 h2) resources2

/-- C1, as the code has it: the ranking step leaves a permutation of the collected list in
non-decreasing order of the `Interesting` strings.  Hence every `magenta("Yes")` finding
stands before every `"No"` finding whenever `magenta("Yes")` is below `"No"` in the string
order (as the escape-coloured value is), and every `"No"` finding stands before every
`magenta("Yes")` finding whenever `"No"` is below `magenta("Yes")` (as for the plain `"Yes"`
that `magenta` returns with colours off). -/
theorem rankResources_order (resources2 : List Resource2) (yesValue : Str) :
    (rankResources resources2).Perm resources2 ∧
      ascendingByInteresting (rankResources resources2) ∧
      (strLess yesValue no = true → yesBeforeNo yesValue (rankResources resources2)) ∧
      (strLess no yesValue = true → noBeforeYes yesValue (rankResources resources2)) := by
  refine ⟨sortSlice_perm _ _, rankResources_ascending _, ?_, ?_⟩
  · intro h
    refine (rankResources_ascending resources2).imp ?_
    rintro a b hab ⟨ha, hb⟩
    rw [ha, hb, h] at hab
    exact Bool.noConfusion hab
  · intro h
    refine (rankResources_ascending resources2).imp ?_
    rintro a b hab ⟨ha, hb⟩
    rw [ha, hb, h] at hab
    exact Bool.noConfusion hab

/-- C1 as amended, with colours on and with colours off, on the collected list
No, Yes, No. -/
theorem rankResources_order_witness :
    yesBeforeNo (yes (sampleDeps true))
        (rankResources [{ Interesting := no }, { Interesting := yes (sampleDeps true) },
          { Interesting := no }]) ∧
      noBeforeYes (yes (sampleDeps false))
        (rankResources [{ Interesting := no }, { Interesting := yes (sampleDeps false) },
          { Interesting := no }]) :=
  ⟨(rankResources_order _ (yes (sampleDeps true))).2.2.1 (by decide),
    (rankResources_order _ (yes (sampleDeps false))).2.2.2 (by decide)⟩

/-- C1 fails as stated: with colours off `magenta("Yes")` is `"Yes"`, and the ranking step
turns the collected list Yes, No into No, Yes, so that the `"No"` finding comes first. -/
theorem rankResources_no_first_without_colour :
    yes (sampleDeps false) = "Yes".toList ∧
      rankResources [{ ARN := "a".toList, Interesting := yes (sampleDeps false) },
          { ARN := "b".toList, Interesting := no }] =
        [{ ARN := "b".toList, Interesting := no },
          { ARN := "a".toList, Interesting := yes (sampleDeps false) }] ∧
      ¬ yesBeforeNo (yes (sampleDeps false))
        (rankResources [{ ARN := "a".toList, Interesting := yes (sampleDeps false) },
          { ARN := "b".toList, Interesting := no }]) := by
  refine ⟨by decide, by decide, ?_⟩
  have e : rankResources [{ ARN := "a".toList, Interesting := yes (sampleDeps false) },
          { ARN := "b".toList, Interesting := no }] =
        [{ ARN := "b".toList, Interesting := no },
          { ARN := "a".toList, Interesting := yes (sampleDeps false) }] := by decide
  rw [e]
  unfold yesBeforeNo
  intro h
  rw [List.pairwise_cons] at h
  exact h.1 _ (List.mem_singleton.2 rfl) ⟨rfl, rfl⟩

/-! ## Summaries -/

theorem trimSuffix_append_nl (x : Str) : TrimSuffix (x ++ nl) nl = x := by
  have h : HasSuffix (x ++ nl) nl = true := by
    simp [HasSuffix, nl, HasPrefix]
  unfold TrimSuffix
  rw [if_pos h]
  simp [nl]

theorem accumulateSummary_many (d : Deps Stmt) (account : Str) (n : Nat) (hn : n > 1)
    (stmts : List Stmt) (i : Nat) (acc : Str) :
    accumulateSummary d account n i acc stmts =
      acc ++ ((List.zipWith (fun i statement =>
          statementPrefix i ++ d.GetStatementSummaryInEnglish statement account)
        (List.range' i stmts.length) stmts).map fun line => line ++ nl).flatten := by
  induction stmts generalizing i acc with
  | nil => simp [accumulateSummary]
  | cons st rest ih =>
    rw [accumulateSummary, if_pos hn, ih]
    simp [List.range'_succ, List.append_assoc]

theorem flatten_lines_eq_intercalate (line : Str) (lines : List Str) :
    (((line :: lines).map fun l => l ++ nl).flatten) = nl.intercalate (line :: lines) ++ nl := by
  induction lines generalizing line with
  | nil => simp [List.intercalate]
  | cons l2 rest ih =>
    have h := ih l2
    simp only [List.map_cons, List.flatten_cons] at h ⊢
    rw [h]
    simp [List.intercalate, List.append_assoc]

theorem joinedSummary_eq_summaryBySpec (d : Deps Stmt) (account : Str) (p : Policy Stmt)
    (hne : p.Statement ≠ []) :
    joinedSummary d account p = summaryBySpec d account p.Statement := by
  unfold joinedSummary summaryBySpec
  by_cases hn : p.Statement.length > 1
  · rw [if_pos hn, accumulateSummary_many d account _ hn, List.nil_append,
      ← List.range_eq_range']
    cases hs : p.Statement with
    | nil => exact absurd hs hne
    | cons st rest =>
      simp only [List.length_cons, List.range_succ_eq_map, List.zipWith_cons_cons]
      rw [flatten_lines_eq_intercalate, trimSuffix_append_nl]
  · rw [if_neg hn]
    cases hs : p.Statement with
    | nil => exact absurd hs hne
    | cons st rest =>
      cases rest with
      | nil => simp [accumulateSummary]
      | cons st2 rest2 => rw [hs] at hn; simp at hn

/-- C4: in `getS3Buckets` and `getSNSTopicsPerRegion` a resource with a non-empty policy gets
one finding, whose `ResourcePolicySummary` is, for more than one statement, the lines
`Statement <i> says: ` ++ t_i joined by single newlines with none after the last line, and
for one statement t_0 without one trailing newline. -/
theorem summary_of_s3_and_sns (d : Deps Stmt) (account : Str) :
    (∀ (b : BucketInput) (region policyJSON : Str) (p : Policy Stmt),
        b.CachedGetBucketLocation = (region, none) →
        b.CachedGetBucketPolicy = (policyJSON, none) →
        d.ParseJSONPolicy policyJSON = (p, none) →
        p.Statement ≠ [] →
        ∃ f, (getS3BucketsBody d account b).sent = [f] ∧
          f.ResourcePolicySummary = summaryBySpec d account p.Statement) ∧
      (∀ (t : TopicInput Stmt) (p : Policy Stmt),
        t.getTopicWithAttributes = (p, none) →
        p.Statement ≠ [] →
        ∃ f, (getSNSTopicsPerRegionBody d account t).sent = [f] ∧
          f.ResourcePolicySummary = summaryBySpec d account p.Statement) := by
  constructor
  · intro b region policyJSON p h1 h2 h3 hne
    have hE : p.IsEmpty = false := by
      cases hs : p.Statement with
      | nil => exact absurd hs hne
      | cons a l => simp [Policy.IsEmpty, hs]
    simp only [getS3BucketsBody, h1, h2, h3, hE, Bool.not_false, if_true]
    exact ⟨_, rfl, joinedSummary_eq_summaryBySpec d account p hne⟩
  · intro t p h1 hne
    have hE : p.IsEmpty = false := by
      cases hs : p.Statement with
      | nil => exact absurd hs hne
      | cons a l => simp [Policy.IsEmpty, hs]
    simp only [getSNSTopicsPerRegionBody, h1, hE, Bool.not_false, if_true]
    exact ⟨_, rfl, joinedSummary_eq_summaryBySpec d account p hne⟩

/-- C4 on a bucket with the two statements "alice can read" and "bob can write" and on a
topic with the one statement "alice can publish" followed by a newline. -/
theorem summary_of_s3_and_sns_witness :
    (∃ f, (getS3BucketsBody (sampleDeps false) "111122223333".toList
          { Name := "logs".toList
            CachedGetBucketLocation := ("us-east-1".toList, none)
            CachedGetBucketPolicy := ("alice can read\nbob can write".toList, none) }).sent = [f] ∧
        f.ResourcePolicySummary =
          summaryBySpec (sampleDeps false) "111122223333".toList
            ["alice can read".toList, "bob can write".toList]) ∧
      (∃ f, (getSNSTopicsPerRegionBody (sampleDeps false) "111122223333".toList
          { TopicArn := "arn:aws:sns:us-east-1:111122223333:t".toList
            getTopicWithAttributes := ({ Statement := ["alice can publish\n".toList] }, none)
            arnParse := some ("t".toList, "us-east-1".toList) }).sent = [f] ∧
        f.ResourcePolicySummary =
          summaryBySpec (sampleDeps false) "111122223333".toList
            ["alice can publish\n".toList]) :=
  ⟨(summary_of_s3_and_sns (sampleDeps false) "111122223333".toList).1 _ "us-east-1".toList
      "alice can read\nbob can write".toList
      { Statement := ["alice can read".toList, "bob can write".toList] } rfl rfl (by decide)
      (by decide),
    (summary_of_s3_and_sns (sampleDeps false) "111122223333".toList).2 _
      { Statement := ["alice can publish\n".toList] } rfl (by decide)⟩


/-! ## Findings per resource -/

theorem isEmpty_eq_false_iff (p : Policy Stmt) : p.IsEmpty = false ↔ p.Statement ≠ [] := by
  cases hs : p.Statement <;> simp [Policy.IsEmpty, hs]

theorem isEmpty_eq_true_iff (p : Policy Stmt) : p.IsEmpty = true ↔ p.Statement = [] := by
  cases hs : p.Statement <;> simp [Policy.IsEmpty, hs]

theorem statementLoop_length (d : Deps Stmt) (account : Str) (mk : Str → Str → Resource2)
    (n : Nat) (stmts : List Stmt) (i : Nat) (isInteresting : Str) :
    (statementLoop d account mk n i isInteresting stmts).length = stmts.length := by
  induction stmts generalizing i isInteresting with
  | nil => rfl
  | cons st rest ih => simp [statementLoop, ih]

theorem statementLoop_public (d : Deps Stmt) (account arn name r isPublic : Str) (n : Nat)
    (stmts : List Stmt) (i : Nat) (isInteresting : Str) :
    ∀ f ∈ statementLoop d account (mkFinding account arn name r isPublic) n i isInteresting
      stmts, f.Public = isPublic := by
  induction stmts generalizing i isInteresting with
  | nil => intro f hf; simp [statementLoop] at hf
  | cons st rest ih =>
    intro f hf
    rw [statementLoop, List.mem_cons] at hf
    rcases hf with rfl | hf
    · rfl
    · exact ih _ _ f hf

theorem glueResourceLoop_length (d : Deps Stmt) (account r isPublic : Str)
    (resources : List Str) (summary isInteresting : Str) :
    (glueResourceLoop d account r isPublic summary isInteresting resources).1.length =
      resources.length := by
  induction resources generalizing summary isInteresting with
  | nil => rfl
  | cons res rest ih => simp [glueResourceLoop, ih]

theorem glueResourceLoop_public (d : Deps Stmt) (account r isPublic : Str)
    (resources : List Str) (summary isInteresting : Str) :
    ∀ f ∈ (glueResourceLoop d account r isPublic summary isInteresting resources).1,
      f.Public = isPublic := by
  induction resources generalizing summary isInteresting with
  | nil => intro f hf; simp [glueResourceLoop] at hf
  | cons res rest ih =>
    intro f hf
    rw [glueResourceLoop, List.mem_cons] at hf
    rcases hf with rfl | hf
    · rfl
    · exact ih _ _ f hf

theorem glueStatementLoop_length (d : Deps Stmt) (account r isPublic : Str)
    (stmts : List Stmt) (isInteresting : Str) :
    (glueStatementLoop d account r isPublic isInteresting stmts).length =
      (stmts.map fun statement => (d.Resource statement).length).sum := by
  induction stmts generalizing isInteresting with
  | nil => rfl
  | cons st rest ih => simp [glueStatementLoop, ih, glueResourceLoop_length]

theorem glueStatementLoop_public (d : Deps Stmt) (account r isPublic : Str)
    (stmts : List Stmt) (isInteresting : Str) :
    ∀ f ∈ glueStatementLoop d account r isPublic isInteresting stmts, f.Public = isPublic := by
  induction stmts generalizing isInteresting with
  | nil => intro f hf; simp [glueStatementLoop] at hf
  | cons st rest ih =>
    intro f hf
    rw [glueStatementLoop, List.mem_append] at hf
    rcases hf with hf | hf
    · exact glueResourceLoop_public d account r isPublic _ _ _ f hf
    · exact ih _ f hf

/-- The six tasks that fetch a parsed policy per resource send one finding per statement. -/
theorem policyResource_bodies_length (d : Deps Stmt) (account r : Str)
    (x : PolicyResource Stmt) (p : Policy Stmt) (h : x.fetch = (p, none)) :
    (getSQSQueuesPerRegionBody d account r x).sent.length = p.Statement.length ∧
      (getECRRecordsPerRegionBody d account r x).sent.length = p.Statement.length ∧
      (getLambdaPolicyPerRegionBody d account r x).sent.length = p.Statement.length ∧
      (getEFSfilesystemPoliciesPerRegionBody d account r x).sent.length = p.Statement.length ∧
      (getSecretsManagerSecretsPoliciesPerRegionBody d account r x).sent.length =
        p.Statement.length ∧
      (getKMSPoliciesPerRegionBody d account r x).sent.length = p.Statement.length := by
  simp only [getSQSQueuesPerRegionBody, getECRRecordsPerRegionBody,
    getLambdaPolicyPerRegionBody, getEFSfilesystemPoliciesPerRegionBody,
    getSecretsManagerSecretsPoliciesPerRegionBody, getKMSPoliciesPerRegionBody, h]
  cases hE : p.IsEmpty
  · simp [statementLoop_length]
  · have := (isEmpty_eq_true_iff p).1 hE
    simp [this]

/-- In the six tasks that fetch a parsed policy per resource, `Public` follows `IsPublic`. -/
theorem policyResource_bodies_public (d : Deps Stmt) (account r : Str)
    (x : PolicyResource Stmt) (p : Policy Stmt) (h : x.fetch = (p, none)) (f : Resource2)
    (hf : f ∈ (getSQSQueuesPerRegionBody d account r x).sent ∨
      f ∈ (getECRRecordsPerRegionBody d account r x).sent ∨
      f ∈ (getLambdaPolicyPerRegionBody d account r x).sent ∨
      f ∈ (getEFSfilesystemPoliciesPerRegionBody d account r x).sent ∨
      f ∈ (getSecretsManagerSecretsPoliciesPerRegionBody d account r x).sent ∨
      f ∈ (getKMSPoliciesPerRegionBody d account r x).sent) :
    f.Public = if d.IsPublic p then yes d else no := by
  simp only [getSQSQueuesPerRegionBody, getECRRecordsPerRegionBody,
    getLambdaPolicyPerRegionBody, getEFSfilesystemPoliciesPerRegionBody,
    getSecretsManagerSecretsPoliciesPerRegionBody, getKMSPoliciesPerRegionBody, h] at hf
  cases hE : p.IsEmpty
  · simp only [hE, Bool.not_false, if_true] at hf
    rcases hf with hf | hf | hf | hf | hf | hf <;>
      exact statementLoop_public d account _ _ r _ _ _ _ _ f hf
  · simp [hE] at hf

/-- C5, as the code has it: for a resource whose policy was fetched and parsed,
`getS3Buckets` and `getSNSTopicsPerRegion` send one finding when the policy is not empty; the
SQS, ECR, Lambda, EFS, SecretsManager, KMS, CodeBuild, APIGateway, VpcEndpoint and
OpenSearch tasks send one finding per statement of the policy; the Glue task sends one
finding per resource entry of every statement. -/
theorem findings_per_resource (d : Deps Stmt) (account r : Str) :
    (∀ (b : BucketInput) (region policyJSON : Str) (p : Policy Stmt),
        b.CachedGetBucketLocation = (region, none) →
        b.CachedGetBucketPolicy = (policyJSON, none) →
        d.ParseJSONPolicy policyJSON = (p, none) →
        p.Statement ≠ [] →
        (getS3BucketsBody d account b).sent.length = 1) ∧
      (∀ (t : TopicInput Stmt) (p : Policy Stmt),
        t.getTopicWithAttributes = (p, none) →
        p.Statement ≠ [] →
        (getSNSTopicsPerRegionBody d account t).sent.length = 1) ∧
      (∀ (x : PolicyResource Stmt) (p : Policy Stmt),
        x.fetch = (p, none) →
        (getSQSQueuesPerRegionBody d account r x).sent.length = p.Statement.length ∧
        (getECRRecordsPerRegionBody d account r x).sent.length = p.Statement.length ∧
        (getLambdaPolicyPerRegionBody d account r x).sent.length = p.Statement.length ∧
        (getEFSfilesystemPoliciesPerRegionBody d account r x).sent.length =
          p.Statement.length ∧
        (getSecretsManagerSecretsPoliciesPerRegionBody d account r x).sent.length =
          p.Statement.length ∧
        (getKMSPoliciesPerRegionBody d account r x).sent.length = p.Statement.length) ∧
      (∀ (pr : ProjectInput) (project : Str × Str) (policyJSON : Str),
        pr.CachedCodeBuildBatchGetProjects = (project, none) →
        pr.CachedCodeBuildGetResourcePolicy = (policyJSON, none) →
        (getCodeBuildResourcePoliciesPerRegionBody d account r pr).sent.length =
          (d.ParseJSONPolicy policyJSON).1.Statement.length) ∧
      (∀ (restAPI : RestApi) (p : Policy Stmt),
        IsPublicApiGateway restAPI = false →
        nonEmptyPtr restAPI.Policy = true →
        d.ParseJSONPolicy
          (ReplaceAll (awsToString restAPI.Policy) "\\\"".toList "\"".toList) = (p, none) →
        (getAPIGatewayPoliciesPerRegionBody d account r restAPI).sent.length =
          p.Statement.length) ∧
      (∀ (vpcEndpoint : VpcEndpoint) (p : Policy Stmt),
        nonEmptyPtr vpcEndpoint.PolicyDocument = true →
        d.ParseJSONPolicy (awsToString vpcEndpoint.PolicyDocument) = (p, none) →
        (getVPCEndpointPoliciesPerRegionBody d account r vpcEndpoint).sent.length =
          p.Statement.length) ∧
      (∀ (dom : DomainInput) (enabled : Option Bool) (status : Option Str × Option Str)
          (p : Policy Stmt),
        dom.CachedOpenSearchDescribeDomainConfig = (enabled, none) →
        dom.CachedOpenSearchDescribeDomain = (status, none) →
        nonEmptyPtr status.2 = true →
        d.ParseJSONPolicy (ReplaceAll (awsToString status.2) "\\\"".toList "\"".toList) =
          (p, none) →
        (getOpenSearchPoliciesPerRegionBody d account r dom).sent.length =
          p.Statement.length) ∧
      (∀ (p : Policy Stmt),
        (getGlueResourcePoliciesPerRegionBody d account r p).sent.length =
          (p.Statement.map fun statement => (d.Resource statement).length).sum) := by
  refine ⟨?_, ?_, ?_, ?_, ?_, ?_, ?_, ?_⟩
  · intro b region policyJSON p h1 h2 h3 hne
    have hE := (isEmpty_eq_false_iff p).2 hne
    simp [getS3BucketsBody, h1, h2, h3, hE]
  · intro t p h1 hne
    have hE := (isEmpty_eq_false_iff p).2 hne
    simp [getSNSTopicsPerRegionBody, h1, hE]
  · intro x p h
    exact policyResource_bodies_length d account r x p h
  · intro pr project policyJSON h1 h2
    simp only [getCodeBuildResourcePoliciesPerRegionBody, h1, h2]
    cases hE : (d.ParseJSONPolicy policyJSON).1.IsEmpty
    · simp [statementLoop_length]
    · have := (isEmpty_eq_true_iff _).1 hE
      simp [this]
  · intro restAPI p h1 h2 h3
    simp only [getAPIGatewayPoliciesPerRegionBody, h1, h2, h3]
    cases hE : p.IsEmpty
    · simp [statementLoop_length]
    · have := (isEmpty_eq_true_iff _).1 hE
      simp [this]
  · intro vpcEndpoint p h2 h3
    simp only [getVPCEndpointPoliciesPerRegionBody, h2, h3]
    cases hE : p.IsEmpty
    · simp [statementLoop_length]
    · have := (isEmpty_eq_true_iff _).1 hE
      simp [this]
  · intro dom enabled status p h1 h2 h3 h4
    simp only [getOpenSearchPoliciesPerRegionBody, h1, h2, h3, h4]
    cases hE : p.IsEmpty
    · simp [statementLoop_length]
    · have := (isEmpty_eq_true_iff _).1 hE
      simp [this]
  · intro p
    simp only [getGlueResourcePoliciesPerRegionBody]
    cases hE : p.IsEmpty
    · simp [glueStatementLoop_length]
    · have := (isEmpty_eq_true_iff _).1 hE
      simp [this]

/-- C5 as amended, on a queue and on a topic whose policy has the two statements
"alice can send" and "bob can receive": two findings for the queue, one for the topic. -/
theorem findings_per_resource_witness :
    (getSQSQueuesPerRegionBody (sampleDeps false) "111122223333".toList "us-east-1".toList
        { Arn := "arn:aws:sqs:us-east-1:111122223333:q".toList, Name := "q".toList
          fetch := ({ Statement := ["alice can send".toList, "bob can receive".toList] },
            none) }).sent.length = 2 ∧
      (getSNSTopicsPerRegionBody (sampleDeps false) "111122223333".toList
        { TopicArn := "arn:aws:sns:us-east-1:111122223333:t".toList
          getTopicWithAttributes :=
            ({ Statement := ["alice can send".toList, "bob can receive".toList] }, none)
          arnParse := none }).sent.length = 1 :=
  ⟨((findings_per_resource (sampleDeps false) "111122223333".toList "us-east-1".toList).2.2.1
      _ { Statement := ["alice can send".toList, "bob can receive".toList] } rfl).1,
    (findings_per_resource (sampleDeps false) "111122223333".toList "us-east-1".toList).2.1
      _ { Statement := ["alice can send".toList, "bob can receive".toList] } rfl (by decide)⟩

/-- C5 fails as stated: for a queue whose policy has two statements
`getSQSQueuesPerRegion` sends two findings, one per statement, each with the ARN of the
queue. -/
theorem sqs_two_statements_two_findings :
    (getSQSQueuesPerRegionBody (sampleDeps false) "111122223333".toList "us-east-1".toList
        { Arn := "arn:aws:sqs:us-east-1:111122223333:q".toList, Name := "q".toList
          fetch := ({ Statement := ["alice can send".toList, "bob can receive".toList] },
            none) }).sent =
      [mkFinding "111122223333".toList "arn:aws:sqs:us-east-1:111122223333:q".toList
          "q".toList "us-east-1".toList "No".toList
          "Statement 0 says: alice can send".toList "No".toList,
        mkFinding "111122223333".toList "arn:aws:sqs:us-east-1:111122223333:q".toList
          "q".toList "us-east-1".toList "No".toList
          "Statement 1 says: bob can receive".toList "No".toList] := by
  decide

/-- C3, as the code has it: a REST API for which `IsPublicApiGateway` is true is skipped;
no finding is sent for it, no error is counted, and nothing of the result depends on the
policy parser or the classifier. -/
theorem public_api_gateway_skipped (d : Deps Stmt) (account r : Str) (restAPI : RestApi)
    (h : IsPublicApiGateway restAPI = true) :
    getAPIGatewayPoliciesPerRegionBody d account r restAPI = { sent := [], errors := 0 } := by
  simp [getAPIGatewayPoliciesPerRegionBody, h]

/-- C3 as amended, on a REGIONAL REST API that carries a policy. -/
theorem public_api_gateway_skipped_witness :
    IsPublicApiGateway
        { Id := "abc123".toList, Name := some "orders".toList,
          Policy := some "Everyone can invoke".toList, Types := [EndpointTypeRegional] } = true ∧
      getAPIGatewayPoliciesPerRegionBody (sampleDeps true) "111122223333".toList
        "us-east-1".toList
        { Id := "abc123".toList, Name := some "orders".toList,
          Policy := some "Everyone can invoke".toList, Types := [EndpointTypeRegional] } =
        { sent := [], errors := 0 } :=
  ⟨by decide, public_api_gateway_skipped _ _ _ _ (by decide)⟩

/-- C3 fails as stated: for a listing that consists of one REGIONAL and one EDGE REST API
the task sends no finding at all, so none with `Public` = Yes. -/
theorem public_api_gateway_no_finding :
    IsPublicApiGateway
        { Id := "abc123".toList, Name := some "orders".toList,
          Policy := some "Everyone can invoke".toList, Types := [EndpointTypeRegional] } = true ∧
      (getAPIGatewayPoliciesPerRegion (sampleDeps true) "111122223333".toList
        "us-east-1".toList {}
        ([{ Id := "abc123".toList, Name := some "orders".toList,
            Policy := some "Everyone can invoke".toList, Types := [EndpointTypeRegional] },
          { Id := "def456".toList, Name := some "billing".toList,
            Policy := none, Types := [EndpointTypePrivate, EndpointTypeEdge] }], none)).sent =
        [] := by
  decide

/-! ## The `Public` field -/

theorem apiGateway_public (d : Deps Stmt) (account r : Str) (restAPI : RestApi) (f : Resource2)
    (hf : f ∈ (getAPIGatewayPoliciesPerRegionBody d account r restAPI).sent) : f.Public = no := by
  simp only [getAPIGatewayPoliciesPerRegionBody] at hf
  split_ifs at hf <;> (try split at hf) <;>
    first
    | exact statementLoop_public d account _ _ r _ _ _ _ _ f hf
    | (simp only [List.mem_singleton] at hf; rw [hf]; rfl)
    | simp at hf

theorem vpcEndpoint_public (d : Deps Stmt) (account r : Str) (vpcEndpoint : VpcEndpoint)
    (f : Resource2) (hf : f ∈ (getVPCEndpointPoliciesPerRegionBody d account r vpcEndpoint).sent) :
    f.Public = no := by
  simp only [getVPCEndpointPoliciesPerRegionBody] at hf
  split_ifs at hf <;> (try split at hf) <;>
    first
    | exact statementLoop_public d account _ _ r _ _ _ _ _ f hf
    | (simp only [List.mem_singleton] at hf; rw [hf]; rfl)
    | simp at hf

theorem openSearch_public (d : Deps Stmt) (account r : Str) (dom : DomainInput)
    (enabled : Option Bool) (h : dom.CachedOpenSearchDescribeDomainConfig = (enabled, none))
    (f : Resource2) (hf : f ∈ (getOpenSearchPoliciesPerRegionBody d account r dom).sent) :
    f.Public = if awsToBool enabled then no else yes d := by
  simp only [getOpenSearchPoliciesPerRegionBody, h] at hf
  generalize (if awsToBool enabled = true then no else yes d) = pub at hf ⊢
  split at hf
  · simp at hf
  · split_ifs at hf <;> (try split at hf) <;>
      first
      | exact statementLoop_public d account _ _ r _ _ _ _ _ f hf
      | (simp only [List.mem_singleton] at hf; rw [hf]; rfl)
      | simp at hf

/-- C2, as the code has it: on every finding sent for a resource whose policy was parsed,
`Public` is `magenta("Yes")` when `IsPublic()` of that policy is true and `"No"` otherwise
in the S3, SNS, SQS, ECR, Lambda, EFS, SecretsManager, KMS, CodeBuild and Glue tasks.  The
APIGateway and VpcEndpoint tasks put `"No"` on every finding they send, and the OpenSearch
task puts `"No"` when the advanced security options of the domain are enabled and
`magenta("Yes")` when they are not; these three do not consult `IsPublic()`. -/
theorem public_field_of_findings (d : Deps Stmt) (account r : Str) :
    (∀ (b : BucketInput) (region policyJSON : Str) (p : Policy Stmt),
        b.CachedGetBucketLocation = (region, none) →
        b.CachedGetBucketPolicy = (policyJSON, none) →
        d.ParseJSONPolicy policyJSON = (p, none) →
        ∀ f ∈ (getS3BucketsBody d account b).sent,
          f.Public = if d.IsPublic p then yes d else no) ∧
      (∀ (t : TopicInput Stmt) (p : Policy Stmt),
        t.getTopicWithAttributes = (p, none) →
        ∀ f ∈ (getSNSTopicsPerRegionBody d account t).sent,
          f.Public = if d.IsPublic p then yes d else no) ∧
      (∀ (x : PolicyResource Stmt) (p : Policy Stmt),
        x.fetch = (p, none) →
        ∀ f : Resource2,
          (f ∈ (getSQSQueuesPerRegionBody d account r x).sent ∨
            f ∈ (getECRRecordsPerRegionBody d account r x).sent ∨
            f ∈ (getLambdaPolicyPerRegionBody d account r x).sent ∨
            f ∈ (getEFSfilesystemPoliciesPerRegionBody d account r x).sent ∨
            f ∈ (getSecretsManagerSecretsPoliciesPerRegionBody d account r x).sent ∨
            f ∈ (getKMSPoliciesPerRegionBody d account r x).sent) →
          f.Public = if d.IsPublic p then yes d else no) ∧
      (∀ (pr : ProjectInput) (project : Str × Str) (policyJSON : Str),
        pr.CachedCodeBuildBatchGetProjects = (project, none) →
        pr.CachedCodeBuildGetResourcePolicy = (policyJSON, none) →
        ∀ f ∈ (getCodeBuildResourcePoliciesPerRegionBody d account r pr).sent,
          f.Public = if d.IsPublic (d.ParseJSONPolicy policyJSON).1 then yes d else no) ∧
      (∀ (p : Policy Stmt),
        ∀ f ∈ (getGlueResourcePoliciesPerRegionBody d account r p).sent,
          f.Public = if d.IsPublic p then yes d else no) ∧
      (∀ (restAPI : RestApi),
        ∀ f ∈ (getAPIGatewayPoliciesPerRegionBody d account r restAPI).sent, f.Public = no) ∧
      (∀ (vpcEndpoint : VpcEndpoint),
        ∀ f ∈ (getVPCEndpointPoliciesPerRegionBody d account r vpcEndpoint).sent,
          f.Public = no) ∧
      (∀ (dom : DomainInput) (enabled : Option Bool),
        dom.CachedOpenSearchDescribeDomainConfig = (enabled, none) →
        ∀ f ∈ (getOpenSearchPoliciesPerRegionBody d account r dom).sent,
          f.Public = if awsToBool enabled then no else yes d) := by
  refine ⟨?_, ?_, ?_, ?_, ?_, ?_, ?_, ?_⟩
  · intro b region policyJSON p h1 h2 h3 f hf
    simp only [getS3BucketsBody, h1, h2, h3] at hf
    generalize (if d.IsPublic p = true then yes d else no) = pub at hf ⊢
    split_ifs at hf <;>
      first
      | (simp only [List.mem_singleton] at hf; rw [hf]; rfl)
      | simp at hf
  · intro t p h1 f hf
    simp only [getSNSTopicsPerRegionBody, h1] at hf
    generalize (if d.IsPublic p = true then yes d else no) = pub at hf ⊢
    split_ifs at hf <;>
      first
      | (simp only [List.mem_singleton] at hf; rw [hf]; rfl)
      | simp at hf
  · intro x p h f hf
    exact policyResource_bodies_public d account r x p h f hf
  · intro pr project policyJSON h1 h2 f hf
    simp only [getCodeBuildResourcePoliciesPerRegionBody, h1, h2] at hf
    generalize (if d.IsPublic (d.ParseJSONPolicy policyJSON).1 = true then yes d else no) =
      pub at hf ⊢
    split_ifs at hf
    · exact statementLoop_public d account _ _ r _ _ _ _ _ f hf
    · simp at hf
  · intro p f hf
    simp only [getGlueResourcePoliciesPerRegionBody] at hf
    generalize (if d.IsPublic p = true then yes d else no) = pub at hf ⊢
    split_ifs at hf
    · exact glueStatementLoop_public d account r _ _ _ f hf
    · simp at hf
  · intro restAPI f hf
    exact apiGateway_public d account r restAPI f hf
  · intro vpcEndpoint f hf
    exact vpcEndpoint_public d account r vpcEndpoint f hf
  · intro dom enabled h f hf
    exact openSearch_public d account r dom enabled h f hf

/-- C2 as amended, on a queue whose one-statement policy "* can send" is public: the finding
carries `magenta("Yes")`. -/
theorem public_field_of_findings_witness :
    ∀ f ∈ (getSQSQueuesPerRegionBody (sampleDeps true) "111122223333".toList
        "us-east-1".toList
        { Arn := "arn:aws:sqs:us-east-1:111122223333:q".toList, Name := "q".toList
          fetch := ({ Statement := ["* can send".toList] }, none) }).sent,
      f.Public =
        if (sampleDeps true).IsPublic { Statement := ["* can send".toList] }
        then yes (sampleDeps true) else no :=
  fun f hf =>
    (public_field_of_findings (sampleDeps true) "111122223333".toList
      "us-east-1".toList).2.2.1 _ { Statement := ["* can send".toList] } rfl f (Or.inl hf)

/-- C2 fails as stated: a PRIVATE REST API and a VPC endpoint whose parsed policy
"* can invoke" is public get a finding with `Public = "No"`, and an OpenSearch domain
without advanced security options whose parsed policy "alice can read" is not public gets
a finding with `Public = magenta("Yes")`. -/
theorem public_field_not_from_isPublic :
    (sampleDeps true).IsPublic ((sampleDeps true).ParseJSONPolicy "* can invoke".toList).1 =
        true ∧
      (getAPIGatewayPoliciesPerRegionBody (sampleDeps true) "111122223333".toList
          "us-east-1".toList
          { Id := "abc123".toList, Name := some "orders".toList,
            Policy := some "* can invoke".toList,
            Types := [EndpointTypePrivate] }).sent.map (fun f => f.Public) = ["No".toList] ∧
      (getVPCEndpointPoliciesPerRegionBody (sampleDeps true) "111122223333".toList
          "us-east-1".toList
          { VpcEndpointId := some "vpce-1".toList,
            PolicyDocument := some "* can invoke".toList }).sent.map (fun f => f.Public) =
        ["No".toList] ∧
      (sampleDeps true).IsPublic ((sampleDeps true).ParseJSONPolicy "alice can read".toList).1 =
        false ∧
      (getOpenSearchPoliciesPerRegionBody (sampleDeps true) "111122223333".toList
          "us-east-1".toList
          { DomainName := some "search".toList
            CachedOpenSearchDescribeDomainConfig := (some false, none)
            CachedOpenSearchDescribeDomain :=
              ((some "arn:aws:es:us-east-1:111122223333:domain/search".toList,
                some "alice can read".toList), none) }).sent.map (fun f => f.Public) =
        [yes (sampleDeps true)] ∧
      yes (sampleDeps true) ≠ "No".toList := by
  decide

/-! ## Public implies Interesting -/

theorem statementLoop_flags (d : Deps Stmt) (account arn name r isPublic : Str) (n : Nat)
    (stmts : List Stmt) (i : Nat) (isInteresting : Str) :
    ∀ f ∈ statementLoop d account (mkFinding account arn name r isPublic) n i isInteresting
      stmts, f.Public = isPublic ∧ (f.Interesting = yes d ∨ f.Interesting = isInteresting) := by
  induction stmts generalizing i isInteresting with
  | nil => intro f hf; simp [statementLoop] at hf
  | cons st rest ih =>
    intro f hf
    rw [statementLoop, List.mem_cons] at hf
    rcases hf with rfl | hf
    · refine ⟨rfl, ?_⟩
      by_cases h : isResourcePolicyInteresting (statementSummary d account n i st) = true
      · left; simp [mkFinding, h]
      · right; simp [mkFinding, h]
    · obtain ⟨h1, h2⟩ := ih _ _ f hf
      refine ⟨h1, ?_⟩
      rcases h2 with h2 | h2
      · exact Or.inl h2
      · by_cases h : isResourcePolicyInteresting (statementSummary d account n i st) = true
        · left; rw [h2]; simp [h]
        · right; rw [h2]; simp [h]

theorem flags_imply (d : Deps Stmt) (pub : Str) (f : Resource2)
    (h : f.Public = pub ∧ (f.Interesting = yes d ∨ f.Interesting = pub))
    (hpub : f.Public = yes d) : f.Interesting = yes d := by
  obtain ⟨h1, h2 | h2⟩ := h
  · exact h2
  · rw [h2, ← h1, hpub]

theorem glueResourceLoop_flags (d : Deps Stmt) (account r isPublic : Str)
    (resources : List Str) (summary isInteresting : Str) :
    (∀ f ∈ (glueResourceLoop d account r isPublic summary isInteresting resources).1,
        f.Public = isPublic ∧ (f.Interesting = yes d ∨ f.Interesting = isInteresting)) ∧
      ((glueResourceLoop d account r isPublic summary isInteresting resources).2 = yes d ∨
        (glueResourceLoop d account r isPublic summary isInteresting resources).2 =
          isInteresting) := by
  induction resources generalizing summary isInteresting with
  | nil => exact ⟨fun f hf => by simp [glueResourceLoop] at hf, Or.inr rfl⟩
  | cons res rest ih =>
    have key : ∀ x : Str, (x = yes d ∨
        x = if isResourcePolicyInteresting (TrimSuffix summary nl) = true then yes d
          else isInteresting) → (x = yes d ∨ x = isInteresting) := by
      intro x hx
      by_cases h : isResourcePolicyInteresting (TrimSuffix summary nl) = true
      · simp only [h, if_true, or_self] at hx; exact Or.inl hx
      · simp only [h] at hx; exact hx
    obtain ⟨ih1, ih2⟩ := ih (TrimSuffix summary nl)
      (if isResourcePolicyInteresting (TrimSuffix summary nl) = true then yes d
        else isInteresting)
    constructor
    · intro f hf
      rw [glueResourceLoop, List.mem_cons] at hf
      rcases hf with rfl | hf
      · exact ⟨rfl, key _ (Or.inr rfl)⟩
      · exact ⟨(ih1 f hf).1, key _ (ih1 f hf).2⟩
    · rw [glueResourceLoop]
      exact key _ ih2

theorem glueStatementLoop_flags (d : Deps Stmt) (account r isPublic : Str)
    (stmts : List Stmt) (isInteresting : Str) :
    ∀ f ∈ glueStatementLoop d account r isPublic isInteresting stmts,
      f.Public = isPublic ∧ (f.Interesting = yes d ∨ f.Interesting = isInteresting) := by
  induction stmts generalizing isInteresting with
  | nil => intro f hf; simp [glueStatementLoop] at hf
  | cons st rest ih =>
    intro f hf
    rw [glueStatementLoop, List.mem_append] at hf
    obtain ⟨g1, g2⟩ := glueResourceLoop_flags d account r isPublic (d.Resource st)
      (d.GetStatementSummaryInEnglish st account) isInteresting
    rcases hf with hf | hf
    · exact g1 f hf
    · obtain ⟨h1, h2⟩ := ih _ f hf
      refine ⟨h1, ?_⟩
      rcases h2 with h2 | h2
      · exact Or.inl h2
      · rcases g2 with g2 | g2
        · exact Or.inl (h2.trans g2)
        · exact Or.inr (h2.trans g2)

theorem runTask_sent_mem {α : Type} (c : CommandCounter) (listing : List α × Option Str)
    (body : α → ResourceOut) (f : Resource2) (hf : f ∈ (runTask c listing body).sent) :
    ∃ x ∈ listing.1, f ∈ (body x).sent := by
  unfold runTask at hf
  split at hf
  · simp at hf
  · simp only [List.mem_flatten, List.mem_map] at hf
    obtain ⟨l, ⟨x, hx, rfl⟩, hfl⟩ := hf
    exact ⟨x, hx, hfl⟩

theorem runTask_publicImpliesInteresting {α : Type} (d : Deps Stmt) (c : CommandCounter)
    (listing : List α × Option Str) (body : α → ResourceOut)
    (h : ∀ x,
      publicImpliesInteresting d (body x).sent) :
    publicImpliesInteresting d (runTask c listing body).sent := by
  intro f hf hpub
  obtain ⟨x, _, hx⟩ := runTask_sent_mem c listing body f hf
  exact h x f hx hpub

theorem s3_body_flags (d : Deps Stmt) (account : Str) (b : BucketInput) :
    publicImpliesInteresting d (getS3BucketsBody d account b).sent := by
  intro f hf hpub
  simp only [getS3BucketsBody] at hf
  split at hf
  · simp at hf
  · split at hf
    · simp at hf
    · split_ifs at hf <;>
        first
        | (simp only [List.mem_singleton] at hf; subst hf; first | rfl | exact hpub)
        | simp at hf

theorem sns_body_flags (d : Deps Stmt) (account : Str) (t : TopicInput Stmt) :
    publicImpliesInteresting d (getSNSTopicsPerRegionBody d account t).sent := by
  intro f hf hpub
  simp only [getSNSTopicsPerRegionBody] at hf
  split at hf
  · simp at hf
  · split_ifs at hf <;>
      first
      | (simp only [List.mem_singleton] at hf; subst hf; first | rfl | exact hpub)
      | simp at hf

theorem sqs_body_flags (d : Deps Stmt) (account r : Str) (x : PolicyResource Stmt) :
    publicImpliesInteresting d (getSQSQueuesPerRegionBody d account r x).sent := by
  intro f hf hpub
  simp only [getSQSQueuesPerRegionBody] at hf
  split at hf
  · simp at hf
  · split_ifs at hf <;>
      first
      | exact flags_imply d _ f (statementLoop_flags d account _ _ r _ _ _ _ _ f hf) hpub
      | simp at hf

theorem ecr_body_flags (d : Deps Stmt) (account r : Str) (x : PolicyResource Stmt) :
    publicImpliesInteresting d (getECRRecordsPerRegionBody d account r x).sent := by
  intro f hf hpub
  simp only [getECRRecordsPerRegionBody] at hf
  split at hf
  · simp at hf
  · split_ifs at hf <;>
      first
      | exact flags_imply d _ f (statementLoop_flags d account _ _ r _ _ _ _ _ f hf) hpub
      | simp at hf

theorem lambda_body_flags (d : Deps Stmt) (account r : Str) (x : PolicyResource Stmt) :
    publicImpliesInteresting d (getLambdaPolicyPerRegionBody d account r x).sent := by
  intro f hf hpub
  simp only [getLambdaPolicyPerRegionBody] at hf
  split at hf
  · simp at hf
  · split_ifs at hf <;>
      first
      | exact flags_imply d _ f (statementLoop_flags d account _ _ r _ _ _ _ _ f hf) hpub
      | simp at hf

theorem efs_body_flags (d : Deps Stmt) (account r : Str) (x : PolicyResource Stmt) :
    publicImpliesInteresting d (getEFSfilesystemPoliciesPerRegionBody d account r x).sent := by
  intro f hf hpub
  simp only [getEFSfilesystemPoliciesPerRegionBody] at hf
  split at hf
  · simp at hf
  · split_ifs at hf <;>
      first
      | exact flags_imply d _ f (statementLoop_flags d account _ _ r _ _ _ _ _ f hf) hpub
      | simp at hf

theorem secrets_body_flags (d : Deps Stmt) (account r : Str) (x : PolicyResource Stmt) :
    publicImpliesInteresting d (getSecretsManagerSecretsPoliciesPerRegionBody d account r x).sent := by
  intro f hf hpub
  simp only [getSecretsManagerSecretsPoliciesPerRegionBody] at hf
  split at hf
  · simp at hf
  · split_ifs at hf <;>
      first
      | exact flags_imply d _ f (statementLoop_flags d account _ _ r _ _ _ _ _ f hf) hpub
      | simp at hf

theorem kms_body_flags (d : Deps Stmt) (account r : Str) (x : PolicyResource Stmt) :
    publicImpliesInteresting d (getKMSPoliciesPerRegionBody d account r x).sent := by
  intro f hf hpub
  simp only [getKMSPoliciesPerRegionBody] at hf
  split at hf
  · simp at hf
  · split_ifs at hf <;>
      first
      | exact flags_imply d _ f (statementLoop_flags d account _ _ r _ _ _ _ _ f hf) hpub
      | simp at hf

theorem codebuild_body_flags (d : Deps Stmt) (account r : Str) (p : ProjectInput) :
    publicImpliesInteresting d (getCodeBuildResourcePoliciesPerRegionBody d account r p).sent := by
  intro f hf hpub
  simp only [getCodeBuildResourcePoliciesPerRegionBody] at hf
  split at hf
  · simp at hf
  · split at hf
    · simp at hf
    · split_ifs at hf <;>
        first
        | exact flags_imply d _ f (statementLoop_flags d account _ _ r _ _ _ _ _ f hf) hpub
        | simp at hf

theorem glue_body_flags (d : Deps Stmt) (account r : Str) (p : Policy Stmt) :
    publicImpliesInteresting d (getGlueResourcePoliciesPerRegionBody d account r p).sent := by
  intro f hf hpub
  simp only [getGlueResourcePoliciesPerRegionBody] at hf
  split_ifs at hf <;>
    first
    | exact flags_imply d _ f (glueStatementLoop_flags d account r _ _ _ f hf) hpub
    | simp at hf

theorem apigateway_body_flags (d : Deps Stmt) (account r : Str) (restAPI : RestApi) :
    publicImpliesInteresting d (getAPIGatewayPoliciesPerRegionBody d account r restAPI).sent := by
  intro f hf hpub
  simp only [getAPIGatewayPoliciesPerRegionBody] at hf
  split_ifs at hf <;> (try split at hf) <;>
    first
    | exact flags_imply d _ f (statementLoop_flags d account _ _ r _ _ _ _ _ f hf) hpub
    | (simp only [List.mem_singleton] at hf; subst hf; first | rfl | exact hpub)
    | simp at hf

theorem vpc_body_flags (d : Deps Stmt) (account r : Str) (vpcEndpoint : VpcEndpoint) :
    publicImpliesInteresting d
      (getVPCEndpointPoliciesPerRegionBody d account r vpcEndpoint).sent := by
  intro f hf hpub
  simp only [getVPCEndpointPoliciesPerRegionBody] at hf
  split_ifs at hf <;> (try split at hf) <;>
    first
    | exact flags_imply d _ f (statementLoop_flags d account _ _ r _ _ _ _ _ f hf) hpub
    | (simp only [List.mem_singleton] at hf; subst hf; first | rfl | exact hpub)
    | simp at hf

theorem opensearch_body_flags (d : Deps Stmt) (account r : Str) (dom : DomainInput) :
    publicImpliesInteresting d (getOpenSearchPoliciesPerRegionBody d account r dom).sent := by
  intro f hf hpub
  simp only [getOpenSearchPoliciesPerRegionBody] at hf
  split at hf
  · simp at hf
  · split at hf
    · simp at hf
    · split_ifs at hf <;> (try split at hf) <;>
        first
        | exact flags_imply d _ f (statementLoop_flags d account _ _ r _ _ _ _ _ f hf) hpub
        | (simp only [List.mem_singleton] at hf; subst hf; first | rfl | exact hpub)
        | simp at hf

/-! ## Counters of a task and the tasks of a scan -/

theorem runTask_finishedOnce {α : Type} (c : CommandCounter) (listing : List α × Option Str)
    (body : α → ResourceOut) : finishedOnce c (runTask c listing body) := by
  unfold runTask finishedOnce
  split <;> simp [finishTask]

theorem runTask_listing_failure {α : Type} (c : CommandCounter) (listing : List α × Option Str)
    (body : α → ResourceOut) (h : listing.2 ≠ none) :
    listingFailureSilent c (runTask c listing body) := by
  unfold runTask listingFailureSilent
  split
  · simp [finishTask]
  · rename_i h2; exact absurd h2 h

theorem runTask_error {α : Type} (c : CommandCounter) (items : List α) (body : α → ResourceOut) :
    (runTask c (items, none) body).counter.Error =
      c.Error + (items.map fun x => (body x).errors).sum := by
  simp [runTask, finishTask]

theorem runCheck_spec (oracle : Str → Str → Bool × Option Str) (st0 st : ScanState)
    (L : List Str) (service r : Str) (task : CommandCounter → TaskOut)
    (htask : ∀ c, (task c).counter.Total = c.Total)
    (h : st.tasks = st0.tasks ++ L.map (fun x => (x, r)) ∧
      st.counter.Total = st0.counter.Total + L.length) :
    (runCheck st service r (oracle service r) task).tasks =
        st0.tasks ++ (L ++ [service].filter fun x => (oracle x r).1).map (fun x => (x, r)) ∧
      (runCheck st service r (oracle service r) task).counter.Total =
        st0.counter.Total + (L ++ [service].filter fun x => (oracle x r).1).length := by
  unfold runCheck
  cases ho : (oracle service r).1
  · simp [ho, h.1, h.2]
  · simp [ho, h.1, h.2, htask, List.append_assoc, add_assoc]

theorem gatedCheck_spec (oracle : Str → Str → Bool × Option Str) (st0 st : ScanState)
    (L : List Str) (gate : Bool) (service r : Str) (task : CommandCounter → TaskOut)
    (htask : ∀ c, (task c).counter.Total = c.Total)
    (h : st.tasks = st0.tasks ++ L.map (fun x => (x, r)) ∧
      st.counter.Total = st0.counter.Total + L.length) :
    (if gate = true then runCheck st service r (oracle service r) task else st).tasks =
        st0.tasks ++ (L ++ (if gate = true then [service] else []).filter
          fun x => (oracle x r).1).map (fun x => (x, r)) ∧
      (if gate = true then runCheck st service r (oracle service r) task
        else st).counter.Total =
        st0.counter.Total + (L ++ (if gate = true then [service] else []).filter
          fun x => (oracle x r).1).length := by
  cases gate
  · simpa using h
  · simpa using runCheck_spec oracle st0 st L service r task htask h

theorem task_total {α : Type} (c : CommandCounter) (listing : List α × Option Str)
    (body : α → ResourceOut) : (runTask c listing body).counter.Total = c.Total :=
  (runTask_finishedOnce c listing body).2.2.1

theorem checkedServices_eq (m : Module) (includeKms : Bool) :
    checkedServices m includeKms =
      [] ++ ["sns".toList] ++ ["sqs".toList] ++ ["ecr".toList] ++ ["codebuild".toList] ++
        ["lambda".toList] ++ ["efs".toList] ++ ["secretsmanager".toList] ++ ["glue".toList] ++
        (if (includeKms && m.KMSClient) = true then ["kms".toList] else []) ++
        (if m.APIGatewayClient = true then ["apigateway".toList] else []) ++
        (if m.EC2Client = true then ["ec2".toList] else []) ++
        (if m.OpenSearchClient = true then ["es".toList] else []) := by
  simp [checkedServices]

/-- The tasks that `executeChecks` runs in a region are those of the checked services for
which the oracle answers true, in the order of the source, and `Total` grows by their
number. -/
theorem executeChecks_spec (d : Deps Stmt) (m : Module)
    (oracle : Str → Str → Bool × Option Str) (includeKms : Bool) (r : Str)
    (w : RegionInputs Stmt) (st : ScanState) :
    (executeChecks d m oracle includeKms r w st).tasks =
        st.tasks ++ (presentServices m oracle includeKms r).map (fun x => (x, r)) ∧
      (executeChecks d m oracle includeKms r w st).counter.Total =
        st.counter.Total + (presentServices m oracle includeKms r).length := by
  have base : st.tasks = st.tasks ++ ([] : List Str).map (fun x => (x, r)) ∧
      st.counter.Total = st.counter.Total + ([] : List Str).length := by simp
  have h1 := runCheck_spec oracle st _ _ "sns".toList r
    (fun c => getSNSTopicsPerRegion d m.account c w.ListTopics) (fun c => task_total _ _ _) base
  have h2 := runCheck_spec oracle st _ _ "sqs".toList r
    (fun c => getSQSQueuesPerRegion d m.account r c w.ListQueues) (fun c => task_total _ _ _) h1
  have h3 := runCheck_spec oracle st _ _ "ecr".toList r
    (fun c => getECRRecordsPerRegion d m.account r c w.DescribeRepositories)
    (fun c => task_total _ _ _) h2
  have h4 := runCheck_spec oracle st _ _ "codebuild".toList r
    (fun c => getCodeBuildResourcePoliciesPerRegion d m.account r c w.ListProjects)
    (fun c => task_total _ _ _) h3
  have h5 := runCheck_spec oracle st _ _ "lambda".toList r
    (fun c => getLambdaPolicyPerRegion d m.account r c w.ListFunctions)
    (fun c => task_total _ _ _) h4
  have h6 := runCheck_spec oracle st _ _ "efs".toList r
    (fun c => getEFSfilesystemPoliciesPerRegion d m.account r c w.ListFileSystems)
    (fun c => task_total _ _ _) h5
  have h7 := runCheck_spec oracle st _ _ "secretsmanager".toList r
    (fun c => getSecretsManagerSecretsPoliciesPerRegion d m.account r c w.ListSecrets)
    (fun c => task_total _ _ _) h6
  have h8 := runCheck_spec oracle st _ _ "glue".toList r
    (fun c => getGlueResourcePoliciesPerRegion d m.account r c w.ResourcePolicies)
    (fun c => task_total _ _ _) h7
  have h9 := gatedCheck_spec oracle st _ _ (includeKms && m.KMSClient) "kms".toList r
    (fun c => getKMSPoliciesPerRegion d m.account r c w.listKeys)
    (fun c => task_total _ _ _) h8
  have h10 := gatedCheck_spec oracle st _ _ m.APIGatewayClient "apigateway".toList r
    (fun c => getAPIGatewayPoliciesPerRegion d m.account r c w.restAPIs)
    (fun c => task_total _ _ _) h9
  have h11 := gatedCheck_spec oracle st _ _ m.EC2Client "ec2".toList r
    (fun c => getVPCEndpointPoliciesPerRegion d m.account r c w.vpcEndpoints)
    (fun c => task_total _ _ _) h10
  have h12 := gatedCheck_spec oracle st _ _ m.OpenSearchClient "es".toList r
    (fun c => getOpenSearchPoliciesPerRegion d m.account r c w.openSearchDomains)
    (fun c => task_total _ _ _) h11
  unfold presentServices
  rw [checkedServices_eq]
  simp only [List.filter_append, List.filter_nil]
  exact h12

theorem scanRegions_spec (d : Deps Stmt) (m : Module)
    (oracle : Str → Str → Bool × Option Str) (includeKms : Bool)
    (world : Str → RegionInputs Stmt) (regions : List Str) (st : ScanState) :
    (scanRegions d m oracle includeKms world regions st).tasks =
        st.tasks ++ (regions.map fun r =>
          (presentServices m oracle includeKms r).map (fun x => (x, r))).flatten ∧
      (scanRegions d m oracle includeKms world regions st).counter.Total =
        st.counter.Total +
          (regions.map fun r => (presentServices m oracle includeKms r).length).sum := by
  induction regions generalizing st with
  | nil => simp [scanRegions]
  | cons r rest ih =>
    rw [scanRegions]
    obtain ⟨i1, i2⟩ := ih (executeChecks d m oracle includeKms r (world r)
      { st with counter := { st.counter with Pending := st.counter.Pending + 1 } })
    obtain ⟨e1, e2⟩ := executeChecks_spec d m oracle includeKms r (world r)
      { st with counter := { st.counter with Pending := st.counter.Pending + 1 } }
    rw [i1, i2, e1, e2]
    simp [List.append_assoc, add_assoc]

theorem sum_map_const {α : Type} (g : α → Nat) (M : Nat) (l : List α)
    (h : ∀ x ∈ l, g x = M) : (l.map g).sum = l.length * M := by
  induction l with
  | nil => simp
  | cons a t ih =>
    rw [List.map_cons, List.sum_cons, h a (List.mem_cons_self _ _),
      ih fun x hx => h x (List.mem_cons_of_mem _ hx), List.length_cons]
    ring

theorem checkedServices_nodup (m : Module) (includeKms : Bool) :
    (checkedServices m includeKms).Nodup := by
  obtain ⟨k, a, e, o, g, acc⟩ := m
  cases includeKms <;> cases k <;> cases a <;> cases e <;> cases o <;>
    (simp only [checkedServices, Bool.and_false, Bool.and_true, Bool.false_eq_true, if_false,
      if_true, List.append_nil, List.cons_append, List.nil_append]; decide)

theorem s3_not_checked (m : Module) (includeKms : Bool) :
    "s3".toList ∉ checkedServices m includeKms := by
  obtain ⟨k, a, e, o, g, acc⟩ := m
  cases includeKms <;> cases k <;> cases a <;> cases e <;> cases o <;>
    (simp only [checkedServices, Bool.and_false, Bool.and_true, Bool.false_eq_true, if_false,
      if_true, List.append_nil, List.cons_append, List.nil_append]; decide)

theorem kms_checked_iff (m : Module) (includeKms : Bool) :
    "kms".toList ∈ checkedServices m includeKms ↔ includeKms = true ∧ m.KMSClient = true := by
  obtain ⟨k, a, e, o, g, acc⟩ := m
  cases includeKms <;> cases k <;> cases a <;> cases e <;> cases o <;>
    (simp only [checkedServices, Bool.and_false, Bool.and_true, Bool.false_eq_true, if_false,
      if_true, List.append_nil, List.cons_append, List.nil_append]; decide)

theorem checkedServices_without_kms (m : Module) (includeKms : Bool) :
    checkedServices m false =
      (checkedServices m includeKms).filter fun service => service != "kms".toList := by
  obtain ⟨k, a, e, o, g, acc⟩ := m
  cases includeKms <;> cases k <;> cases a <;> cases e <;> cases o <;>
    (simp only [checkedServices, Bool.and_false, Bool.and_true, Bool.false_eq_true, if_false,
      if_true, List.append_nil, List.cons_append, List.nil_append]; decide)

theorem regionTasks_nodup (m : Module) (oracle : Str → Str → Bool × Option Str)
    (includeKms : Bool) (regions : List Str) (h : regions.Nodup) :
    (regions.map fun r =>
      (presentServices m oracle includeKms r).map (fun x => (x, r))).flatten.Nodup := by
  rw [List.nodup_flatten]
  constructor
  · intro l hl
    rw [List.mem_map] at hl
    obtain ⟨r, _, rfl⟩ := hl
    refine List.Nodup.map (fun a b hab => (Prod.mk.inj hab).1) ?_
    exact List.Nodup.sublist (List.filter_sublist _) (checkedServices_nodup m includeKms)
  · rw [List.pairwise_map]
    refine List.Pairwise.imp ?_ h
    intro r r' hne x hx hx'
    rw [List.mem_map] at hx hx'
    obtain ⟨_, _, rfl⟩ := hx
    obtain ⟨_, _, e⟩ := hx'
    exact hne (Prod.mk.inj e).2.symm

theorem s3_not_region_task (m : Module) (oracle : Str → Str → Bool × Option Str)
    (includeKms : Bool) (regions : List Str) :
    (("s3".toList, []) : Str × Str) ∉ (regions.map fun r =>
      (presentServices m oracle includeKms r).map (fun x => (x, r))).flatten := by
  intro h
  rw [List.mem_flatten] at h
  obtain ⟨l, hl, hx⟩ := h
  rw [List.mem_map] at hl
  obtain ⟨r, _, rfl⟩ := hl
  rw [List.mem_map] at hx
  obtain ⟨x, hx, e⟩ := hx
  have : x = "s3".toList := (Prod.mk.inj e).1
  subst this
  exact s3_not_checked m includeKms (List.mem_of_mem_filter hx)

theorem semaphoreSend_of_room (capacity : Int) (h : 1 ≤ capacity) :
    semaphoreSend capacity 0 = some 1 := by
  unfold semaphoreSend
  rw [if_pos (by omega)]

theorem startTask_of_room (capacity : Int) (h : 1 ≤ capacity) (st : ScanState)
    (service r : Str) (task : CommandCounter → TaskOut) :
    startTask capacity { st := st, buffered := 0, waits := false } service r task =
      { st := { counter := (task st.counter).counter,
                received := st.received ++ (task st.counter).sent,
                tasks := st.tasks ++ [(service, r)] },
        buffered := 0, waits := false } := by
  simp only [startTask, semaphoreSend_of_room capacity h, semaphoreReceive]

theorem runCheckOn_of_room (capacity : Int) (h : 1 ≤ capacity) (st : ScanState)
    (service r : Str) (oracle : Bool × Option Str) (task : CommandCounter → TaskOut) :
    runCheckOn capacity { st := st, buffered := 0, waits := false } service r oracle task =
      { st := runCheck st service r oracle task, buffered := 0, waits := false } := by
  unfold runCheckOn runCheck
  cases oracle.1
  · simp
  · simp [startTask_of_room capacity h]

theorem executeChecksOn_of_room (d : Deps Stmt) (m : Module)
    (oracle : Str → Str → Bool × Option Str) (includeKms : Bool) (capacity : Int)
    (h : 1 ≤ capacity) (r : Str) (w : RegionInputs Stmt) (st : ScanState) :
    executeChecksOn d m oracle includeKms capacity r w
        { st := st, buffered := 0, waits := false } =
      { st := executeChecks d m oracle includeKms r w st, buffered := 0, waits := false } := by
  cases h1 : (includeKms && m.KMSClient) <;> cases h2 : m.APIGatewayClient <;>
    cases h3 : m.EC2Client <;> cases h4 : m.OpenSearchClient <;>
    simp only [executeChecksOn, executeChecks, h1, h2, h3, h4, if_true, if_false,
      Bool.false_eq_true, runCheckOn_of_room capacity h]

theorem scanRegionsOn_of_room (d : Deps Stmt) (m : Module)
    (oracle : Str → Str → Bool × Option Str) (includeKms : Bool) (capacity : Int)
    (h : 1 ≤ capacity) (world : Str → RegionInputs Stmt) (regions : List Str)
    (st : ScanState) :
    scanRegionsOn d m oracle includeKms capacity world regions
        { st := st, buffered := 0, waiting := 0 } =
      { st := scanRegions d m oracle includeKms world regions st, buffered := 0,
        waiting := 0 } := by
  induction regions generalizing st with
  | nil => rfl
  | cons r rest ih =>
    rw [scanRegionsOn, scanRegions]
    simp only [executeChecksOn_of_room d m oracle includeKms capacity h]
    exact ih _

theorem scanPass_of_room (d : Deps Stmt) (m : Module) (oracle : Str → Str → Bool × Option Str)
    (includeKms : Bool) (AWSRegions : List Str) (world : Str → RegionInputs Stmt)
    (ListBuckets : List BucketInput × Option Str) (st : ScanState) (h : 1 ≤ m.Goroutines) :
    scanPass d m oracle includeKms AWSRegions world ListBuckets st =
      PassResult.returns
        { counter := (getS3Buckets d m.account
            (scanRegions d m oracle includeKms world AWSRegions st).counter ListBuckets).counter,
          received := (scanRegions d m oracle includeKms world AWSRegions st).received ++
            (getS3Buckets d m.account
              (scanRegions d m oracle includeKms world AWSRegions st).counter ListBuckets).sent,
          tasks := (scanRegions d m oracle includeKms world AWSRegions st).tasks ++
            [("s3".toList, [])] } := by
  unfold scanPass
  rw [if_neg (by omega)]
  simp only [scanRegionsOn_of_room d m oracle includeKms m.Goroutines h,
    startTask_of_room m.Goroutines h]
  simp

theorem startTask_without_room (g : Goroutine) (service r : Str)
    (task : CommandCounter → TaskOut) :
    startTask 0 g service r task = { g with waits := true } := by
  have : semaphoreSend 0 g.buffered = none := by
    unfold semaphoreSend
    rw [if_neg (by omega)]
  simp only [startTask, this]

theorem runCheckOn_without_room (g : Goroutine) (service r : Str) (oracle : Bool × Option Str)
    (task : CommandCounter → TaskOut) :
    (runCheckOn 0 g service r oracle task).st.progress = g.st.progress := by
  unfold runCheckOn
  split_ifs <;> simp [startTask_without_room, ScanState.progress]

theorem executeChecksOn_without_room (d : Deps Stmt) (m : Module)
    (oracle : Str → Str → Bool × Option Str) (includeKms : Bool) (r : Str)
    (w : RegionInputs Stmt) (g : Goroutine) :
    (executeChecksOn d m oracle includeKms 0 r w g).st.progress = g.st.progress := by
  cases h1 : (includeKms && m.KMSClient) <;> cases h2 : m.APIGatewayClient <;>
    cases h3 : m.EC2Client <;> cases h4 : m.OpenSearchClient <;>
    simp only [executeChecksOn, h1, h2, h3, h4, if_true, if_false, Bool.false_eq_true,
      runCheckOn_without_room]

theorem scanRegionsOn_without_room (d : Deps Stmt) (m : Module)
    (oracle : Str → Str → Bool × Option Str) (includeKms : Bool)
    (world : Str → RegionInputs Stmt) (regions : List Str) (p : Pass) :
    (scanRegionsOn d m oracle includeKms 0 world regions p).st.progress = p.st.progress := by
  induction regions generalizing p with
  | nil => rfl
  | cons r rest ih =>
    rw [scanRegionsOn, ih, executeChecksOn_without_room]
    rfl

theorem scanPass_without_room (d : Deps Stmt) (m : Module)
    (oracle : Str → Str → Bool × Option Str) (includeKms : Bool) (AWSRegions : List Str)
    (world : Str → RegionInputs Stmt) (ListBuckets : List BucketInput × Option Str)
    (st : ScanState) (h : m.Goroutines = 0) :
    ∃ st2, scanPass d m oracle includeKms AWSRegions world ListBuckets st =
        PassResult.waits st2 ∧ st2.progress = st.progress := by
  unfold scanPass
  rw [if_neg (by omega), h]
  simp only [startTask_without_room]
  refine ⟨_, if_neg (by simp), ?_⟩
  exact scanRegionsOn_without_room d m oracle includeKms world AWSRegions _

/-! ## Claims on the tasks and the scan -/

/-- C11: on every finding that a fetch task sends to the data receiver, `Public` = Yes
implies `Interesting` = Yes; this holds for the thirteen tasks, for every listing and every
result of the remote calls, whatever `isResourcePolicyInteresting` returns. -/
theorem public_implies_interesting (d : Deps Stmt) (account r : Str) (c : CommandCounter) :
    (∀ l : List BucketInput × Option Str,
      publicImpliesInteresting d (getS3Buckets d account c l).sent) ∧
    (∀ l : List (TopicInput Stmt) × Option Str,
      publicImpliesInteresting d (getSNSTopicsPerRegion d account c l).sent) ∧
    (∀ l : List (PolicyResource Stmt) × Option Str,
      publicImpliesInteresting d (getSQSQueuesPerRegion d account r c l).sent) ∧
    (∀ l : List (PolicyResource Stmt) × Option Str,
      publicImpliesInteresting d (getECRRecordsPerRegion d account r c l).sent) ∧
    (∀ l : List ProjectInput × Option Str,
      publicImpliesInteresting d (getCodeBuildResourcePoliciesPerRegion d account r c l).sent) ∧
    (∀ l : List (PolicyResource Stmt) × Option Str,
      publicImpliesInteresting d (getLambdaPolicyPerRegion d account r c l).sent) ∧
    (∀ l : List (PolicyResource Stmt) × Option Str,
      publicImpliesInteresting d (getEFSfilesystemPoliciesPerRegion d account r c l).sent) ∧
    (∀ l : List (PolicyResource Stmt) × Option Str,
      publicImpliesInteresting d (getSecretsManagerSecretsPoliciesPerRegion d account r c l).sent) ∧
    (∀ l : List (PolicyResource Stmt) × Option Str,
      publicImpliesInteresting d (getKMSPoliciesPerRegion d account r c l).sent) ∧
    (∀ l : List (Policy Stmt) × Option Str,
      publicImpliesInteresting d (getGlueResourcePoliciesPerRegion d account r c l).sent) ∧
    (∀ l : List RestApi × Option Str,
      publicImpliesInteresting d (getAPIGatewayPoliciesPerRegion d account r c l).sent) ∧
    (∀ l : List VpcEndpoint × Option Str,
      publicImpliesInteresting d (getVPCEndpointPoliciesPerRegion d account r c l).sent) ∧
    (∀ l : List DomainInput × Option Str,
      publicImpliesInteresting d (getOpenSearchPoliciesPerRegion d account r c l).sent) := by
  refine ⟨?_, ?_, ?_, ?_, ?_, ?_, ?_, ?_, ?_, ?_, ?_, ?_, ?_⟩
  · intro l
    exact runTask_publicImpliesInteresting d c l _ (s3_body_flags d account)
  · intro l
    exact runTask_publicImpliesInteresting d c l _ (sns_body_flags d account)
  · intro l
    exact runTask_publicImpliesInteresting d c l _ (sqs_body_flags d account r)
  · intro l
    exact runTask_publicImpliesInteresting d c l _ (ecr_body_flags d account r)
  · intro l
    exact runTask_publicImpliesInteresting d c l _ (codebuild_body_flags d account r)
  · intro l
    exact runTask_publicImpliesInteresting d c l _ (lambda_body_flags d account r)
  · intro l
    exact runTask_publicImpliesInteresting d c l _ (efs_body_flags d account r)
  · intro l
    exact runTask_publicImpliesInteresting d c l _ (secrets_body_flags d account r)
  · intro l
    exact runTask_publicImpliesInteresting d c l _ (kms_body_flags d account r)
  · intro l
    exact runTask_publicImpliesInteresting d c l _ (glue_body_flags d account r)
  · intro l
    exact runTask_publicImpliesInteresting d c l _ (apigateway_body_flags d account r)
  · intro l
    exact runTask_publicImpliesInteresting d c l _ (vpc_body_flags d account r)
  · intro l
    exact runTask_publicImpliesInteresting d c l _ (opensearch_body_flags d account r)

/-- C11 on a queue whose two-statement policy "* can send", "bob can receive" is public:
both findings carry `Public` = Yes, and so `Interesting` = Yes. -/
theorem public_implies_interesting_witness :
    publicImpliesInteresting (sampleDeps true)
      (getSQSQueuesPerRegion (sampleDeps true) "111122223333".toList "us-east-1".toList {}
        ([{ Arn := "arn:aws:sqs:us-east-1:111122223333:q".toList, Name := "q".toList
            fetch := ({ Statement := ["* can send".toList, "bob can receive".toList] },
              none) }], none)).sent :=
  (public_implies_interesting (sampleDeps true) "111122223333".toList "us-east-1".toList
    {}).2.2.1 _

/-- C13 on the code: a bucket whose location lookup fails, a bucket whose policy lookup
fails and a bucket whose policy does not parse are skipped by `getS3Buckets` with `Error`
left at 0, and so is a CodeBuild project whose resource-policy lookup fails; a topic whose
attribute lookup fails raises `Error` to 1.  The findings of the other resources are sent
all the same. -/
theorem s3_and_codebuild_failures_not_counted :
    (getS3Buckets (sampleDeps false) "111122223333".toList {}
        ([{ Name := "a".toList, CachedGetBucketLocation := ([], some "denied".toList),
            CachedGetBucketPolicy := ("x can read".toList, none) },
          { Name := "b".toList, CachedGetBucketLocation := ("us-east-1".toList, none),
            CachedGetBucketPolicy := ([], some "denied".toList) },
          { Name := "c".toList, CachedGetBucketLocation := ("us-east-1".toList, none),
            CachedGetBucketPolicy := ("!".toList, none) },
          { Name := "d".toList, CachedGetBucketLocation := ("us-east-1".toList, none),
            CachedGetBucketPolicy := ("x can read".toList, none) }], none)) =
      { sent := [mkFinding "111122223333".toList "arn:aws:s3:::d".toList "d".toList
          "us-east-1".toList "No".toList "x can read".toList "No".toList],
        counter := { Complete := 1, Executing := -1, Error := 0 } } ∧
      (getCodeBuildResourcePoliciesPerRegion (sampleDeps false) "111122223333".toList
        "us-east-1".toList {}
        ([{ CachedCodeBuildBatchGetProjects := (("arn:p".toList, "p".toList), none),
            CachedCodeBuildGetResourcePolicy := ([], some "denied".toList) }], none)) =
      { sent := [], counter := { Complete := 1, Executing := -1, Error := 0 } } ∧
      (getSNSTopicsPerRegion (sampleDeps false) "111122223333".toList {}
        ([{ TopicArn := "arn:t".toList,
            getTopicWithAttributes := ({ Statement := [] }, some "denied".toList),
            arnParse := none }], none)) =
      { sent := [], counter := { Complete := 1, Executing := -1, Error := 1 } } := by
  decide

/-- C14, as the code has it: every fetch task, when it finishes, has increased `Complete` by
one and decreased `Executing` by one, whether its listing call failed or not; a task whose
listing call failed has sent nothing and has left `Error` unchanged. -/
theorem task_counts_complete_once (d : Deps Stmt) (account r : Str) (c : CommandCounter) :
    (∀ l : List BucketInput × Option Str,
      finishedOnce c (getS3Buckets d account c l) ∧
        (l.2 ≠ none → listingFailureSilent c (getS3Buckets d account c l))) ∧
    (∀ l : List (TopicInput Stmt) × Option Str,
      finishedOnce c (getSNSTopicsPerRegion d account c l) ∧
        (l.2 ≠ none → listingFailureSilent c (getSNSTopicsPerRegion d account c l))) ∧
    (∀ l : List (PolicyResource Stmt) × Option Str,
      finishedOnce c (getSQSQueuesPerRegion d account r c l) ∧
        (l.2 ≠ none → listingFailureSilent c (getSQSQueuesPerRegion d account r c l))) ∧
    (∀ l : List (PolicyResource Stmt) × Option Str,
      finishedOnce c (getECRRecordsPerRegion d account r c l) ∧
        (l.2 ≠ none → listingFailureSilent c (getECRRecordsPerRegion d account r c l))) ∧
    (∀ l : List ProjectInput × Option Str,
      finishedOnce c (getCodeBuildResourcePoliciesPerRegion d account r c l) ∧
        (l.2 ≠ none → listingFailureSilent c (getCodeBuildResourcePoliciesPerRegion d account r c l))) ∧
    (∀ l : List (PolicyResource Stmt) × Option Str,
      finishedOnce c (getLambdaPolicyPerRegion d account r c l) ∧
        (l.2 ≠ none → listingFailureSilent c (getLambdaPolicyPerRegion d account r c l))) ∧
    (∀ l : List (PolicyResource Stmt) × Option Str,
      finishedOnce c (getEFSfilesystemPoliciesPerRegion d account r c l) ∧
        (l.2 ≠ none → listingFailureSilent c (getEFSfilesystemPoliciesPerRegion d account r c l))) ∧
    (∀ l : List (PolicyResource Stmt) × Option Str,
      finishedOnce c (getSecretsManagerSecretsPoliciesPerRegion d account r c l) ∧
        (l.2 ≠ none → listingFailureSilent c (getSecretsManagerSecretsPoliciesPerRegion d account r c l))) ∧
    (∀ l : List (PolicyResource Stmt) × Option Str,
      finishedOnce c (getKMSPoliciesPerRegion d account r c l) ∧
        (l.2 ≠ none → listingFailureSilent c (getKMSPoliciesPerRegion d account r c l))) ∧
    (∀ l : List (Policy Stmt) × Option Str,
      finishedOnce c (getGlueResourcePoliciesPerRegion d account r c l) ∧
        (l.2 ≠ none → listingFailureSilent c (getGlueResourcePoliciesPerRegion d account r c l))) ∧
    (∀ l : List RestApi × Option Str,
      finishedOnce c (getAPIGatewayPoliciesPerRegion d account r c l) ∧
        (l.2 ≠ none → listingFailureSilent c (getAPIGatewayPoliciesPerRegion d account r c l))) ∧
    (∀ l : List VpcEndpoint × Option Str,
      finishedOnce c (getVPCEndpointPoliciesPerRegion d account r c l) ∧
        (l.2 ≠ none → listingFailureSilent c (getVPCEndpointPoliciesPerRegion d account r c l))) ∧
    (∀ l : List DomainInput × Option Str,
      finishedOnce c (getOpenSearchPoliciesPerRegion d account r c l) ∧
        (l.2 ≠ none → listingFailureSilent c (getOpenSearchPoliciesPerRegion d account r c l))) := by
  refine ⟨?_, ?_, ?_, ?_, ?_, ?_, ?_, ?_, ?_, ?_, ?_, ?_, ?_⟩
  · intro l
    exact ⟨runTask_finishedOnce c l _, runTask_listing_failure c l _⟩
  · intro l
    exact ⟨runTask_finishedOnce c l _, runTask_listing_failure c l _⟩
  · intro l
    exact ⟨runTask_finishedOnce c l _, runTask_listing_failure c l _⟩
  · intro l
    exact ⟨runTask_finishedOnce c l _, runTask_listing_failure c l _⟩
  · intro l
    exact ⟨runTask_finishedOnce c l _, runTask_listing_failure c l _⟩
  · intro l
    exact ⟨runTask_finishedOnce c l _, runTask_listing_failure c l _⟩
  · intro l
    exact ⟨runTask_finishedOnce c l _, runTask_listing_failure c l _⟩
  · intro l
    exact ⟨runTask_finishedOnce c l _, runTask_listing_failure c l _⟩
  · intro l
    exact ⟨runTask_finishedOnce c l _, runTask_listing_failure c l _⟩
  · intro l
    exact ⟨runTask_finishedOnce c l _, runTask_listing_failure c l _⟩
  · intro l
    exact ⟨runTask_finishedOnce c l _, runTask_listing_failure c l _⟩
  · intro l
    exact ⟨runTask_finishedOnce c l _, runTask_listing_failure c l _⟩
  · intro l
    exact ⟨runTask_finishedOnce c l _, runTask_listing_failure c l _⟩

/-- C14 as amended, on `getSNSTopicsPerRegion` with a failing `listTopics`. -/
theorem task_counts_complete_once_witness :
    listingFailureSilent {}
      (getSNSTopicsPerRegion (sampleDeps false) "111122223333".toList {}
        (([], some "throttled".toList) : List (TopicInput Str) × Option Str)) :=
  ((task_counts_complete_once (sampleDeps false) "111122223333".toList "us-east-1".toList
    {}).2.1 ([], some "throttled".toList)).2 (by decide)

/-- C14 fails as stated: `getSNSTopicsPerRegion` with a failing `listTopics`, started from
all-zero counters, ends with `Complete` = 1 and `Error` = 0. -/
theorem listing_failure_counts_as_complete :
    (getSNSTopicsPerRegion (sampleDeps false) "111122223333".toList {}
        (([], some "throttled".toList) : List (TopicInput Str) × Option Str)).counter =
      { Complete := 1, Executing := -1, Error := 0 } := by
  decide

theorem executeChecks_goroutines (d : Deps Stmt) (m : Module)
    (oracle : Str → Str → Bool × Option Str) (includeKms : Bool) (r : Str)
    (w : RegionInputs Stmt) (st : ScanState) (goroutines : Int) :
    executeChecks d { m with Goroutines := goroutines } oracle includeKms r w st =
      executeChecks d m oracle includeKms r w st := rfl

theorem scanRegions_goroutines (d : Deps Stmt) (m : Module)
    (oracle : Str → Str → Bool × Option Str) (includeKms : Bool)
    (world : Str → RegionInputs Stmt) (regions : List Str) (st : ScanState)
    (goroutines : Int) :
    scanRegions d { m with Goroutines := goroutines } oracle includeKms world regions st =
      scanRegions d m oracle includeKms world regions st := by
  induction regions generalizing st with
  | nil => rfl
  | cons r rest ih => rw [scanRegions, scanRegions, ih, executeChecks_goroutines]

theorem length_filter_kms (l : List Str) (hl : l.Nodup) :
    l.length = (l.filter fun service => service != "kms".toList).length +
      (if "kms".toList ∈ l then 1 else 0) := by
  induction l with
  | nil => simp
  | cons a t ih =>
    rw [List.nodup_cons] at hl
    by_cases ha : a = "kms".toList
    · subst ha
      have hf : (t.filter fun service => service != "kms".toList) = t := by
        rw [List.filter_eq_self]
        intro x hx
        have : x ≠ "kms".toList := fun e => hl.1 (e ▸ hx)
        simpa using this
      have hne : ("kms".toList != "kms".toList) = false := by decide
      rw [List.filter_cons, hne, hf, if_pos (List.mem_cons_self _ _)]
      simp
    · have h1 := ih hl.2
      have hne : (a != "kms".toList) = true := by simpa using ha
      have hmem' : ("kms".toList ∈ a :: t) ↔ "kms".toList ∈ t := by
        constructor
        · intro h
          rcases List.mem_cons.1 h with h | h
          · exact absurd h.symm ha
          · exact h
        · exact List.mem_cons_of_mem _
      rw [List.filter_cons, hne]
      simp only [if_true, List.length_cons, hmem']
      omega

/-- C12, as the code has it: with a budget `Goroutines` of at least 1, when the oracle
reports the same number `M` of checked services present in each of the `K` regions, one scan
pass returns and has run `K * M` per-service fetch tasks and the one global bucket task: the
tasks run are, region by region, those of the present services, followed by the bucket
task, which occurs once; no task occurs twice when the regions are distinct; and the pass
returns with the same state for every budget of at least 1.  With a budget of 0 no send on
the semaphore goes through: the pass does not return and no task is run.  With a negative
budget the pass panics. -/
theorem scan_runs_each_task_once (d : Deps Stmt) (m : Module)
    (oracle : Str → Str → Bool × Option Str) (includeKms : Bool) (AWSRegions : List Str)
    (world : Str → RegionInputs Stmt) (ListBuckets : List BucketInput × Option Str) (M : Nat)
    (hG : 1 ≤ m.Goroutines)
    (hM : ∀ r ∈ AWSRegions, (presentServices m oracle includeKms r).length = M) :
    (∃ st, scanPass d m oracle includeKms AWSRegions world ListBuckets {} =
          PassResult.returns st ∧
        st.tasks =
          (AWSRegions.map fun r =>
            (presentServices m oracle includeKms r).map (fun x => (x, r))).flatten ++
            [("s3".toList, [])] ∧
        st.tasks.length = AWSRegions.length * M + 1 ∧
        st.tasks.count ("s3".toList, []) = 1 ∧
        (AWSRegions.Nodup → st.tasks.Nodup) ∧
        (∀ goroutines : Int, 1 ≤ goroutines →
          scanPass d { m with Goroutines := goroutines } oracle includeKms AWSRegions world
            ListBuckets {} = PassResult.returns st)) ∧
      (∃ st, scanPass d { m with Goroutines := 0 } oracle includeKms AWSRegions world
          ListBuckets {} = PassResult.waits st ∧
        st.tasks = [] ∧ st.received = [] ∧ st.counter.Complete = 0) ∧
      (∀ goroutines : Int, goroutines < 0 →
        scanPass d { m with Goroutines := goroutines } oracle includeKms AWSRegions world
          ListBuckets {} = PassResult.panics) := by
  have e := scanPass_of_room d m oracle includeKms AWSRegions world ListBuckets {} hG
  have ht : (scanRegions d m oracle includeKms world AWSRegions {}).tasks ++
      [("s3".toList, [])] =
      (AWSRegions.map fun r =>
        (presentServices m oracle includeKms r).map (fun x => (x, r))).flatten ++
        [("s3".toList, [])] := by
    rw [(scanRegions_spec d m oracle includeKms world AWSRegions {}).1]
    simp
  refine ⟨⟨_, e, ht, ?_, ?_, ?_, ?_⟩, ?_, ?_⟩
  · show ((scanRegions d m oracle includeKms world AWSRegions {}).tasks ++
      [("s3".toList, [])]).length = _
    rw [ht, List.length_append, List.length_flatten, List.map_map, List.length_singleton]
    have := sum_map_const (fun r => (presentServices m oracle includeKms r).length) M
      AWSRegions hM
    simpa [Function.comp_def] using this
  · show ((scanRegions d m oracle includeKms world AWSRegions {}).tasks ++
      [("s3".toList, [])]).count _ = _
    rw [ht, List.count_append,
      List.count_eq_zero_of_not_mem (s3_not_region_task m oracle includeKms AWSRegions)]
    simp
  · intro hnd
    show ((scanRegions d m oracle includeKms world AWSRegions {}).tasks ++
      [("s3".toList, [])]).Nodup
    rw [ht]
    refine List.Nodup.append (regionTasks_nodup m oracle includeKms AWSRegions hnd)
      (List.nodup_singleton _) ?_
    intro x hx hx'
    rw [List.mem_singleton] at hx'
    subst hx'
    exact s3_not_region_task m oracle includeKms AWSRegions hx
  · intro goroutines hg
    rw [scanPass_of_room d { m with Goroutines := goroutines } oracle includeKms AWSRegions
      world ListBuckets {} hg]
    simp only [scanRegions_goroutines]
  · obtain ⟨st2, h1, h2⟩ := scanPass_without_room d { m with Goroutines := 0 } oracle
      includeKms AWSRegions world ListBuckets {} rfl
    simp only [ScanState.progress, Prod.mk.injEq] at h2
    exact ⟨st2, h1, h2.1, h2.2.1, h2.2.2.1⟩
  · intro goroutines hg
    unfold scanPass
    exact if_pos hg

/-- C12 as amended, on two regions with the oracle that reports `sns` and `kms` present and
a budget of five: with the KMS switch on, two tasks per region and the bucket task. -/
theorem scan_runs_each_task_once_witness :
    ∃ st, scanPass (sampleDeps false) sampleModule snsAndKmsOracle true
        ["us-east-1".toList, "eu-west-1".toList] (fun _ => emptyRegion) ([], none) {} =
          PassResult.returns st ∧
      st.tasks.length = 2 * 2 + 1 :=
  (scan_runs_each_task_once (sampleDeps false) sampleModule snsAndKmsOracle true
    ["us-east-1".toList, "eu-west-1".toList] (fun _ => emptyRegion) ([], none) 2
    (by decide) (by decide)).1.imp fun _ h => ⟨h.1, h.2.2.1⟩

/-- C12 fails as stated: with a budget of 0 the same scan, in which the oracle reports two
services present in each of two regions, runs no task: every goroutine waits in the send on
the semaphore of its first task, after `Total` was incremented for it, and the pass does
not return. -/
theorem zero_budget_runs_no_task :
    scanPass (sampleDeps false) { sampleModule with Goroutines := 0 } snsAndKmsOracle true
        ["us-east-1".toList, "eu-west-1".toList] (fun _ => emptyRegion) ([], none) {} =
      PassResult.waits
        { counter := { Pending := 2, Total := 2 }, received := [], tasks := [] } := by
  decide

/-- C15, as the code has it: `executeChecks` decides by the boolean that
`IsServiceInRegion` returns and only logs the error.  The tasks run in a region are those
of the checked services whose boolean is true, `Total` grows by their number, and two
oracles that agree on the booleans give the same run, whatever errors they return. -/
theorem executeChecks_decides_by_boolean (d : Deps Stmt) (m : Module)
    (oracle : Str → Str → Bool × Option Str) (includeKms : Bool) (r : Str)
    (w : RegionInputs Stmt) (st : ScanState) :
    (executeChecks d m oracle includeKms r w st).tasks =
        st.tasks ++ (presentServices m oracle includeKms r).map (fun x => (x, r)) ∧
      (executeChecks d m oracle includeKms r w st).counter.Total =
        st.counter.Total + (presentServices m oracle includeKms r).length ∧
      (∀ oracle2 : Str → Str → Bool × Option Str,
        (∀ service, (oracle2 service r).1 = (oracle service r).1) →
        executeChecks d m oracle2 includeKms r w st =
          executeChecks d m oracle includeKms r w st) := by
  refine ⟨(executeChecks_spec d m oracle includeKms r w st).1,
    (executeChecks_spec d m oracle includeKms r w st).2, ?_⟩
  intro oracle2 h
  simp only [executeChecks, runCheck, h]

/-- C15 as amended: the oracle that answers `true` with an error for `sns` gives the same
run as the oracle that answers `true` without error. -/
theorem executeChecks_decides_by_boolean_witness :
    executeChecks (sampleDeps false) sampleModule
        (fun service _ => (decide (service = "sns".toList), none)) false "us-east-1".toList
        emptyRegion {} =
      executeChecks (sampleDeps false) sampleModule erringOracle false "us-east-1".toList
        emptyRegion {} :=
  (executeChecks_decides_by_boolean (sampleDeps false) sampleModule erringOracle false
    "us-east-1".toList emptyRegion {}).2.2 _ (by intro service; simp [erringOracle]; split <;> simp_all)

/-- C15 fails as stated: when `IsServiceInRegion("sns", r)` returns `true` together with an
error, the SNS task is run and `Total` is incremented. -/
theorem erring_oracle_task_still_run :
    erringOracle "sns".toList "us-east-1".toList =
        (true, some "service map unavailable".toList) ∧
      (executeChecks (sampleDeps false) sampleModule erringOracle false "us-east-1".toList
        emptyRegion {}).tasks = [("sns".toList, "us-east-1".toList)] ∧
      (executeChecks (sampleDeps false) sampleModule erringOracle false "us-east-1".toList
        emptyRegion {}).counter.Total = 1 := by
  decide

/-- C16: the KMS task is run, and `Total` incremented for it, only if `includeKms` is true,
`KMSClient` is non-nil and the oracle reports `kms` present; with `includeKms` false no KMS
task is run and the other tasks run are the same. -/
theorem kms_is_opt_in (d : Deps Stmt) (m : Module) (oracle : Str → Str → Bool × Option Str)
    (includeKms : Bool) (r : Str) (w : RegionInputs Stmt) :
    ((("kms".toList, r) ∈ (executeChecks d m oracle includeKms r w {}).tasks) ↔
        (includeKms = true ∧ m.KMSClient = true ∧ (oracle "kms".toList r).1 = true)) ∧
      (executeChecks d m oracle false r w {}).tasks =
        (executeChecks d m oracle includeKms r w {}).tasks.filter
          (fun t => t.1 != "kms".toList) ∧
      (executeChecks d m oracle includeKms r w {}).counter.Total =
        (executeChecks d m oracle false r w {}).counter.Total +
          (if includeKms = true ∧ m.KMSClient = true ∧ (oracle "kms".toList r).1 = true
            then 1 else 0) := by
  have e1 := executeChecks_spec d m oracle includeKms r w {}
  have e2 := executeChecks_spec d m oracle false r w {}
  have hmem : "kms".toList ∈ presentServices m oracle includeKms r ↔
      (includeKms = true ∧ m.KMSClient = true ∧ (oracle "kms".toList r).1 = true) := by
    unfold presentServices
    rw [List.mem_filter, kms_checked_iff]
    tauto
  have hfil : presentServices m oracle false r =
      (presentServices m oracle includeKms r).filter fun service => service != "kms".toList := by
    unfold presentServices
    rw [checkedServices_without_kms m includeKms, List.filter_filter, List.filter_filter]
    congr 1
    funext x
    exact Bool.and_comm _ _
  have t1 : (executeChecks d m oracle includeKms r w {}).tasks =
      (presentServices m oracle includeKms r).map (fun x => (x, r)) := by
    simpa using e1.1
  have t2 : (executeChecks d m oracle false r w {}).tasks =
      (presentServices m oracle false r).map (fun x => (x, r)) := by
    simpa using e2.1
  have c1 : (executeChecks d m oracle includeKms r w {}).counter.Total =
      ((presentServices m oracle includeKms r).length : Int) := by
    simpa using e1.2
  have c2 : (executeChecks d m oracle false r w {}).counter.Total =
      ((presentServices m oracle false r).length : Int) := by
    simpa using e2.2
  refine ⟨?_, ?_, ?_⟩
  · rw [t1, List.mem_map, ← hmem]
    constructor
    · rintro ⟨x, hx, e⟩
      have hx' : x = "kms".toList := (Prod.mk.inj e).1
      subst hx'
      exact hx
    · intro hx
      exact ⟨_, hx, rfl⟩
  · rw [t1, t2, hfil, List.filter_map]
    rfl
  · rw [c1, c2, hfil]
    have hnd : (presentServices m oracle includeKms r).Nodup :=
      List.Nodup.sublist (List.filter_sublist _) (checkedServices_nodup m includeKms)
    have hlen := length_filter_kms _ hnd
    simp only [hmem] at hlen
    split_ifs at hlen ⊢ <;> omega

/-- C16 with the oracle that reports `sns` and `kms` present: with the switch off the KMS
task is not among the tasks run, with the switch on it is. -/
theorem kms_is_opt_in_witness :
    ((("kms".toList, "us-east-1".toList) ∈
        (executeChecks (sampleDeps false) sampleModule snsAndKmsOracle true
          "us-east-1".toList emptyRegion {}).tasks)) ∧
      ¬ ((("kms".toList, "us-east-1".toList) ∈
        (executeChecks (sampleDeps false) sampleModule snsAndKmsOracle false
          "us-east-1".toList emptyRegion {}).tasks)) :=
  ⟨(kms_is_opt_in (sampleDeps false) sampleModule snsAndKmsOracle true "us-east-1".toList
      emptyRegion).1.2 (by decide),
    fun h => absurd ((kms_is_opt_in (sampleDeps false) sampleModule snsAndKmsOracle false
      "us-east-1".toList emptyRegion).1.1 h).1 (by decide)⟩

/-! ## The cache layer -/

section CacheLayerProofs

variable {σ Stage Integration MethodResponse : Type}

theorem cache_get_set {V : Type} (c : Cache V) (key : Str) (value : V) :
    (c.Set key value).Get key = some value := by
  simp [Cache.Get, Cache.Set]

theorem pageLoop_serves {Out α : Type} (request : σ → Option Str → (Out × Option Str) × σ)
    (items : Out → List α) (next : Out → Option Str) (pages : List Out) :
    ∀ (fuel : Nat) (s : σ) (token : Option Str) (acc : List α) (calls : List (Option Str)),
      servesPages request next s token pages → pages.length ≤ fuel →
      ∃ s', pageLoop request items next fuel s token acc calls =
        some (acc ++ (pages.map items).flatten, none, s',
          calls ++ token :: pages.dropLast.map next) := by
  induction pages with
  | nil => intro fuel s token acc calls h; exact absurd h (by simp [servesPages])
  | cons p rest ih =>
    intro fuel s token acc calls h hfuel
    cases fuel with
    | zero => simp at hfuel
    | succ fuel =>
      cases rest with
      | nil =>
        obtain ⟨h1, h2⟩ := h
        have hr : request s token = ((p, none), (request s token).2) := by
          rw [← h1]
        refine ⟨(request s token).2, ?_⟩
        rw [pageLoop, hr]
        simp [h2]
      | cons q rest =>
        obtain ⟨h1, h2, h3⟩ := h
        have hr : request s token = ((p, none), (request s token).2) := by
          rw [← h1]
        obtain ⟨t, ht⟩ := Option.isSome_iff_exists.1 h2
        rw [ht] at h3
        have hlen : (q :: rest).length ≤ fuel := by
          simp only [List.length_cons] at hfuel ⊢; omega
        obtain ⟨s', hs'⟩ := ih fuel (request s token).2 (some t) (acc ++ items p)
          (calls ++ [token]) h3 hlen
        refine ⟨s', ?_⟩
        rw [pageLoop, hr]
        simp only [ht]
        rw [hs']
        simp [List.append_assoc, ht]

theorem restApis_entry_after_call (fuel : Nat)
    (client : APIGatewayClient σ Stage Integration MethodResponse) (s : σ)
    (cache : Cache (CacheValue Stage Integration MethodResponse)) (accountID region : Str)
    (out : Fetched σ (CacheValue Stage Integration MethodResponse) (List RestApi))
    (h : CachedApiGatewayGetRestAPIs fuel client s cache accountID region = some out)
    (herr : out.err = none) :
    out.cache.Get (restApisCacheKey accountID region) = some (CacheValue.restApis out.value) := by
  simp only [CachedApiGatewayGetRestAPIs] at h
  split at h
  · rename_i cached hget
    simp only [Option.some.injEq] at h
    subst h
    exact hget
  · exact absurd h (by simp)
  · split at h
    · exact absurd h (by simp)
    · simp only [Option.some.injEq] at h
      subst h
      simp at herr
    · simp only [Option.some.injEq] at h
      subst h
      exact cache_get_set _ _ _

theorem vpcEndpoints_entry_after_call (fuel : Nat) (client : EC2Client σ) (s : σ)
    (cache : Cache (CacheValue Stage Integration MethodResponse)) (accountID region : Str)
    (out : Fetched σ (CacheValue Stage Integration MethodResponse) (List VpcEndpoint))
    (h : CachedEC2DescribeVpcEndpoints fuel client s cache accountID region = some out)
    (herr : out.err = none) :
    out.cache.Get (vpcEndpointsCacheKey accountID region) =
      some (CacheValue.vpcEndpoints out.value) := by
  simp only [CachedEC2DescribeVpcEndpoints] at h
  split at h
  · rename_i cached hget
    simp only [Option.some.injEq] at h
    subst h
    exact hget
  · exact absurd h (by simp)
  · split at h
    · exact absurd h (by simp)
    · simp only [Option.some.injEq] at h
      subst h
      simp at herr
    · simp only [Option.some.injEq] at h
      subst h
      exact cache_get_set _ _ _

/-- C17: after a call of `CachedApiGatewayGetRestAPIs` (likewise
`CachedEC2DescribeVpcEndpoints`) that returned without error, every further call with the
same account and region, made while the entry is still in the cache, returns the same list
without error, makes no client request, and leaves cache and client as they are. -/
theorem second_call_served_from_cache (accountID region : Str) :
    (∀ (fuel : Nat) (client : APIGatewayClient σ Stage Integration MethodResponse) (s : σ)
        (cache : Cache (CacheValue Stage Integration MethodResponse))
        (out : Fetched σ (CacheValue Stage Integration MethodResponse) (List RestApi)),
        CachedApiGatewayGetRestAPIs fuel client s cache accountID region = some out →
        out.err = none →
        ∀ (fuel2 : Nat) (client2 : APIGatewayClient σ Stage Integration MethodResponse)
          (s2 : σ) (cache2 : Cache (CacheValue Stage Integration MethodResponse)),
          cache2.Get (restApisCacheKey accountID region) =
            out.cache.Get (restApisCacheKey accountID region) →
          CachedApiGatewayGetRestAPIs fuel2 client2 s2 cache2 accountID region =
            some { value := out.value, err := none, cache := cache2, client := s2,
                   calls := [] }) ∧
      (∀ (fuel : Nat) (client : EC2Client σ) (s : σ)
        (cache : Cache (CacheValue Stage Integration MethodResponse))
        (out : Fetched σ (CacheValue Stage Integration MethodResponse) (List VpcEndpoint)),
        CachedEC2DescribeVpcEndpoints fuel client s cache accountID region = some out →
        out.err = none →
        ∀ (fuel2 : Nat) (client2 : EC2Client σ) (s2 : σ)
          (cache2 : Cache (CacheValue Stage Integration MethodResponse)),
          cache2.Get (vpcEndpointsCacheKey accountID region) =
            out.cache.Get (vpcEndpointsCacheKey accountID region) →
          CachedEC2DescribeVpcEndpoints fuel2 client2 s2 cache2 accountID region =
            some { value := out.value, err := none, cache := cache2, client := s2,
                   calls := [] }) := by
  constructor
  · intro fuel client s cache out h herr fuel2 client2 s2 cache2 hsame
    rw [restApis_entry_after_call fuel client s cache accountID region out h herr] at hsame
    simp only [CachedApiGatewayGetRestAPIs, hsame]
  · intro fuel client s cache out h herr fuel2 client2 s2 cache2 hsame
    rw [vpcEndpoints_entry_after_call fuel client s cache accountID region out h herr] at hsame
    simp only [CachedEC2DescribeVpcEndpoints, hsame]

/-- C18: on a cache miss, with a client that answers the chain of requests by the pages
p_1..p_n (a token on all but the last), `CachedApiGatewayGetRestAPIs` requests page k+1 with
the token of page k, returns the items of all pages in page order, and stores exactly that
list under the cache key; likewise `CachedEC2DescribeVpcEndpoints` with `NextToken`. -/
theorem pagination_resolved_before_caching (accountID region : Str) (fuel : Nat) (s : σ)
    (cache : Cache (CacheValue Stage Integration MethodResponse)) :
    (∀ (client : APIGatewayClient σ Stage Integration MethodResponse)
        (pages : List GetRestApisOutput),
        cache.Get (restApisCacheKey accountID region) = none →
        servesPages (fun s token => client.GetRestApis s token region)
          (fun out => out.Position) s none pages →
        pages.length ≤ fuel →
        ∃ out, CachedApiGatewayGetRestAPIs fuel client s cache accountID region = some out ∧
          out.value = (pages.map fun page => page.Items).flatten ∧
          out.err = none ∧
          out.calls = none :: pages.dropLast.map (fun page => page.Position) ∧
          out.cache = cache.Set (restApisCacheKey accountID region)
            (CacheValue.restApis (pages.map fun page => page.Items).flatten)) ∧
      (∀ (client : EC2Client σ) (pages : List DescribeVpcEndpointsOutput),
        cache.Get (vpcEndpointsCacheKey accountID region) = none →
        servesPages (fun s token => client.DescribeVpcEndpoints s token region)
          (fun out => out.NextToken) s none pages →
        pages.length ≤ fuel →
        ∃ out, CachedEC2DescribeVpcEndpoints fuel client s cache accountID region = some out ∧
          out.value = (pages.map fun page => page.VpcEndpoints).flatten ∧
          out.err = none ∧
          out.calls = none :: pages.dropLast.map (fun page => page.NextToken) ∧
          out.cache = cache.Set (vpcEndpointsCacheKey accountID region)
            (CacheValue.vpcEndpoints (pages.map fun page => page.VpcEndpoints).flatten)) := by
  constructor
  · intro client pages hmiss hpages hfuel
    obtain ⟨s', hs'⟩ := pageLoop_serves (fun s token => client.GetRestApis s token region)
      (fun out => out.Items) (fun out => out.Position) pages fuel s none [] [] hpages hfuel
    simp only [List.nil_append] at hs'
    simp only [CachedApiGatewayGetRestAPIs, hmiss, hs']
    exact ⟨_, rfl, rfl, rfl, rfl, rfl⟩
  · intro client pages hmiss hpages hfuel
    obtain ⟨s', hs'⟩ := pageLoop_serves
      (fun s token => client.DescribeVpcEndpoints s token region)
      (fun out => out.VpcEndpoints) (fun out => out.NextToken) pages fuel s none [] []
      hpages hfuel
    simp only [List.nil_append] at hs'
    simp only [CachedEC2DescribeVpcEndpoints, hmiss, hs']
    exact ⟨_, rfl, rfl, rfl, rfl, rfl⟩

end CacheLayerProofs

/-- C17 on a scripted client with two pages: the first call, on the empty cache, makes two
requests; the second call returns the same two REST APIs and leaves the script of a fresh
client untouched. -/
theorem second_call_served_from_cache_witness :
    CachedApiGatewayGetRestAPIs 0 scriptedApiGateway [(pageOne, none), (pageTwo, none)]
        (emptyCache.Set (restApisCacheKey "111122223333".toList "us-east-1".toList)
          (CacheValue.restApis [apiOrders, apiBilling]))
        "111122223333".toList "us-east-1".toList =
      some { value := [apiOrders, apiBilling], err := none,
             cache := emptyCache.Set (restApisCacheKey "111122223333".toList "us-east-1".toList)
               (CacheValue.restApis [apiOrders, apiBilling]),
             client := [(pageOne, none), (pageTwo, none)], calls := [] } :=
  (second_call_served_from_cache "111122223333".toList "us-east-1".toList).1 5
    scriptedApiGateway [(pageOne, none), (pageTwo, none)] emptyCache
    { value := [apiOrders, apiBilling], err := none,
      cache := emptyCache.Set (restApisCacheKey "111122223333".toList "us-east-1".toList)
        (CacheValue.restApis [apiOrders, apiBilling]),
      client := [], calls := [none, some "t1".toList] }
    rfl rfl 0 scriptedApiGateway [(pageOne, none), (pageTwo, none)] _ rfl

/-- C18 on a scripted client with two pages, the first with the token `t1`. -/
theorem pagination_resolved_before_caching_witness :
    ∃ out, CachedApiGatewayGetRestAPIs 2 scriptedApiGateway [(pageOne, none), (pageTwo, none)]
        emptyCache "111122223333".toList "us-east-1".toList = some out ∧
      out.value = ([pageOne, pageTwo].map fun page => page.Items).flatten ∧
      out.err = none ∧
      out.calls = none :: [pageOne, pageTwo].dropLast.map (fun page => page.Position) ∧
      out.cache = emptyCache.Set (restApisCacheKey "111122223333".toList "us-east-1".toList)
        (CacheValue.restApis ([pageOne, pageTwo].map fun page => page.Items).flatten) :=
  (pagination_resolved_before_caching "111122223333".toList "us-east-1".toList 2
    [(pageOne, none), (pageTwo, none)] emptyCache).1 scriptedApiGateway [pageOne, pageTwo]
    rfl ⟨rfl, rfl, rfl, rfl⟩ (by decide)

/-! ## Cache keys -/

theorem split_at_first_dash (a a' x y : Str) (ha : '-' ∉ a) (ha' : '-' ∉ a')
    (h : a ++ '-' :: x = a' ++ '-' :: y) : a = a' ∧ x = y := by
  induction a generalizing a' with
  | nil =>
    cases a' with
    | nil => simpa using h
    | cons c t =>
      simp only [List.nil_append, List.cons_append, List.cons.injEq] at h
      exact absurd (List.mem_cons.2 (Or.inl h.1)) ha'
  | cons c t ih =>
    cases a' with
    | nil =>
      simp only [List.nil_append, List.cons_append, List.cons.injEq] at h
      exact absurd (List.mem_cons.2 (Or.inl h.1.symm)) ha
    | cons c' t' =>
      simp only [List.cons_append, List.cons.injEq] at h
      obtain ⟨e1, e2⟩ := ih t' (fun hm => ha (List.mem_cons_of_mem _ hm))
        (fun hm => ha' (List.mem_cons_of_mem _ hm)) h.2
      exact ⟨by rw [h.1, e1], e2⟩

theorem split_at_last_dash (x y i i' : Str) (hi : '-' ∉ i) (hi' : '-' ∉ i')
    (h : x ++ '-' :: i = y ++ '-' :: i') : x = y ∧ i = i' := by
  have hr := congrArg List.reverse h
  simp only [List.reverse_append, List.reverse_cons, List.append_assoc, List.singleton_append]
    at hr
  obtain ⟨e1, e2⟩ := split_at_first_dash i.reverse i'.reverse x.reverse y.reverse
    (by simpa using hi) (by simpa using hi') hr
  exact ⟨List.reverse_injective e2, List.reverse_injective e1⟩

theorem restApisCacheKey_eq (a r : Str) :
    restApisCacheKey a r = a ++ '-' :: ("apigateway-GetRestApis-".toList ++ r) := by
  simp [restApisCacheKey]

theorem stagesCacheKey_eq (a r i : Str) :
    stagesCacheKey a r i = a ++ '-' :: ("apigateway-GetStages-".toList ++ (r ++ '-' :: i)) := by
  simp [stagesCacheKey]

theorem methodCacheKey_eq (a r i res method : Str) :
    methodCacheKey a r i res method =
      a ++ '-' :: ("apigateway-GetMethod-".toList ++
        (r ++ '-' :: (i ++ '-' :: (res ++ '-' :: method)))) := by
  simp [methodCacheKey]

theorem vpcEndpointsCacheKey_eq (a r : Str) :
    vpcEndpointsCacheKey a r = a ++ '-' :: ("ec2-DescribeVpcEndpoints-".toList ++ r) := by
  simp [vpcEndpointsCacheKey]

theorem builds_shape (op : CachedOperation) (a key : Str) (h : op.builds a key) :
    ∃ rest, key = a ++ '-' :: (op.service ++ '-' :: (op.operation ++ '-' :: rest)) := by
  cases op with
  | ApiGatewayGetRestAPIs =>
    obtain ⟨region, rfl⟩ := h
    exact ⟨region, by simp [restApisCacheKey, CachedOperation.service, CachedOperation.operation]⟩
  | ApiGatewayGetStages =>
    obtain ⟨region, restAPIID, rfl⟩ := h
    exact ⟨region ++ '-' :: restAPIID, by simp [stagesCacheKey, CachedOperation.service, CachedOperation.operation]⟩
  | ApiGatewayGetResources =>
    obtain ⟨region, restAPIID, rfl⟩ := h
    exact ⟨region ++ '-' :: restAPIID, by simp [resourcesCacheKey, CachedOperation.service, CachedOperation.operation]⟩
  | ApiGatewayGetDomainNames =>
    obtain ⟨region, rfl⟩ := h
    exact ⟨region, by simp [domainNamesCacheKey, CachedOperation.service, CachedOperation.operation]⟩
  | ApiGatewayGetBasePathMappings =>
    obtain ⟨region, domain, rfl⟩ := h
    exact ⟨region ++ '-' :: awsToString domain, by simp [basePathMappingsCacheKey, CachedOperation.service, CachedOperation.operation]⟩
  | ApiGatewayGetMethod =>
    obtain ⟨region, restAPIID, resourceID, method, rfl⟩ := h
    exact ⟨region ++ '-' :: (restAPIID ++ '-' :: (resourceID ++ '-' :: (method))), by simp [methodCacheKey, CachedOperation.service, CachedOperation.operation]⟩
  | ApiGatewayGetUsagePlans =>
    obtain ⟨region, rfl⟩ := h
    exact ⟨region, by simp [usagePlansCacheKey, CachedOperation.service, CachedOperation.operation]⟩
  | ApiGatewayGetUsagePlanKeys =>
    obtain ⟨region, usagePlanID, rfl⟩ := h
    exact ⟨region ++ '-' :: usagePlanID, by simp [usagePlanKeysCacheKey, CachedOperation.service, CachedOperation.operation]⟩
  | EC2DescribeInstances =>
    obtain ⟨region, rfl⟩ := h
    exact ⟨region, by simp [instancesCacheKey, CachedOperation.service, CachedOperation.operation]⟩
  | EC2DescribeInstanceAttributeUserData =>
    obtain ⟨region, instanceID, rfl⟩ := h
    exact ⟨region ++ '-' :: instanceID, by simp [instanceAttributeUserDataCacheKey, CachedOperation.service, CachedOperation.operation]⟩
  | EC2DescribeNetworkInterfaces =>
    obtain ⟨region, rfl⟩ := h
    exact ⟨region, by simp [networkInterfacesCacheKey, CachedOperation.service, CachedOperation.operation]⟩
  | EC2DescribeSnapshots =>
    obtain ⟨region, rfl⟩ := h
    exact ⟨region, by simp [snapshotsCacheKey, CachedOperation.service, CachedOperation.operation]⟩
  | EC2DescribeVolumes =>
    obtain ⟨region, rfl⟩ := h
    exact ⟨region, by simp [volumesCacheKey, CachedOperation.service, CachedOperation.operation]⟩
  | EC2DescribeImages =>
    obtain ⟨region, rfl⟩ := h
    exact ⟨region, by simp [imagesCacheKey, CachedOperation.service, CachedOperation.operation]⟩
  | EC2DescribeVpcEndpoints =>
    obtain ⟨region, rfl⟩ := h
    exact ⟨region, by simp [vpcEndpointsCacheKey, CachedOperation.service, CachedOperation.operation]⟩

theorem service_without_dash (op : CachedOperation) : '-' ∉ op.service := by
  cases op <;> decide

theorem operation_without_dash (op : CachedOperation) : '-' ∉ op.operation := by
  cases op <;> decide

theorem operation_of_words (op op' : CachedOperation) (hs : op.service = op'.service)
    (ho : op.operation = op'.operation) : op = op' := by
  cases op <;> cases op' <;> first | rfl | exact absurd ho (by decide)

theorem key_determines_operation (a a' : Str) (ha : '-' ∉ a) (ha' : '-' ∉ a')
    (op op' : CachedOperation) (key : Str) (h : op.builds a key) (h' : op'.builds a' key) :
    op = op' ∧ a = a' := by
  obtain ⟨rest, e⟩ := builds_shape op a key h
  obtain ⟨rest', e'⟩ := builds_shape op' a' key h'
  rw [e] at e'
  obtain ⟨e1, e2⟩ := split_at_first_dash _ _ _ _ ha ha' e'
  obtain ⟨e3, e4⟩ := split_at_first_dash _ _ _ _ (service_without_dash op)
    (service_without_dash op') e2
  obtain ⟨e5, _⟩ := split_at_first_dash _ _ _ _ (operation_without_dash op)
    (operation_without_dash op') e4
  exact ⟨operation_of_words op op' e3 e5, e1⟩

/-- C19, as the code has it: for account ids without `-` the key of
`CachedApiGatewayGetRestAPIs` determines account and region, for account and REST API ids
without `-` the key of `CachedApiGatewayGetStages` determines account, region and REST API
id, and for account ids without `-` a key built by one of the fifteen cached operations of
`aws/sdk/apigateway.go` and `aws/sdk/ec2.go` is never a key built by another of them: the
key determines the operation and the account. -/
theorem cache_keys_apart_without_dash (a a' : Str) (ha : '-' ∉ a) (ha' : '-' ∉ a') :
    (∀ r r' i i' : Str, '-' ∉ i → '-' ∉ i' →
        stagesCacheKey a r i = stagesCacheKey a' r' i' → a = a' ∧ r = r' ∧ i = i') ∧
      (∀ r r' : Str, restApisCacheKey a r = restApisCacheKey a' r' → a = a' ∧ r = r') ∧
      (∀ (op op' : CachedOperation) (key : Str),
        op.builds a key → op'.builds a' key → op = op' ∧ a = a') := by
  refine ⟨?_, ?_, ?_⟩
  · intro r r' i i' hi hi' h
    rw [stagesCacheKey_eq, stagesCacheKey_eq] at h
    obtain ⟨e1, e2⟩ := split_at_first_dash _ _ _ _ ha ha' h
    have e3 := List.append_cancel_left e2
    obtain ⟨e4, e5⟩ := split_at_last_dash _ _ _ _ hi hi' e3
    exact ⟨e1, e4, e5⟩
  · intro r r' h
    rw [restApisCacheKey_eq, restApisCacheKey_eq] at h
    obtain ⟨e1, e2⟩ := split_at_first_dash _ _ _ _ ha ha' h
    exact ⟨e1, List.append_cancel_left e2⟩
  · intro op op' key h h'
    exact key_determines_operation a a' ha ha' op op' key h h'

/-- C19 as amended, for the account ids 111122223333 and 444455556666: the `GetRestApis`
keys of the two accounts for the same region differ, and the `GetRestApis` key of the one
differs from the `GetStages` key of the other. -/
theorem cache_keys_apart_without_dash_witness :
    restApisCacheKey "111122223333".toList "us-east-1".toList ≠
        restApisCacheKey "444455556666".toList "us-east-1".toList ∧
      restApisCacheKey "111122223333".toList "us-east-1".toList ≠
        stagesCacheKey "444455556666".toList "us-east-1".toList "abc123".toList :=
  ⟨fun h =>
      absurd ((cache_keys_apart_without_dash "111122223333".toList "444455556666".toList
        (by decide) (by decide)).2.1 "us-east-1".toList "us-east-1".toList h).1 (by decide),
    fun h =>
      absurd ((cache_keys_apart_without_dash "111122223333".toList "444455556666".toList
        (by decide) (by decide)).2.2 CachedOperation.ApiGatewayGetRestAPIs
        CachedOperation.ApiGatewayGetStages
        (restApisCacheKey "111122223333".toList "us-east-1".toList)
        ⟨"us-east-1".toList, rfl⟩ ⟨"us-east-1".toList, "abc123".toList, h⟩).1 (by decide)⟩

/-- C19 fails as stated: two different (account, region, REST API id) triples with the same
`GetStages` key, two different (account, region) pairs with the same `GetRestApis` key, and
a `GetRestApis` key that equals a `GetStages` key. -/
theorem cache_keys_collide :
    (("111122223333".toList, "us-east-1".toList, "a-b".toList) ≠
        ("111122223333".toList, "us-east-1-a".toList, "b".toList) ∧
      stagesCacheKey "111122223333".toList "us-east-1".toList "a-b".toList =
        stagesCacheKey "111122223333".toList "us-east-1-a".toList "b".toList) ∧
      (("a-apigateway-GetRestApis-b".toList, "c".toList) ≠
          ("a".toList, "b-apigateway-GetRestApis-c".toList) ∧
        restApisCacheKey "a-apigateway-GetRestApis-b".toList "c".toList =
          restApisCacheKey "a".toList "b-apigateway-GetRestApis-c".toList) ∧
      restApisCacheKey "a-apigateway-GetStages-b".toList "c".toList =
        stagesCacheKey "a".toList "b".toList "apigateway-GetRestApis-c".toList := by
  decide

/-! ## The cached copies of `GetStages` and `GetMethod` outputs -/

section CachedCopies

variable {σ Stage Integration MethodResponse : Type}

theorem stages_roundtrip (gso : GetStagesOutput Stage) :
    fromCachedGetStagesOutput (toCachedGetStagesOutput gso) =
      { gso with ResultMetadata := [] } := rfl

theorem method_roundtrip (gmo : GetMethodOutput Integration MethodResponse) :
    fromCachedGetMethodOutput (toCachedGetMethodOutput gmo) =
      { gmo with ResultMetadata := [] } := rfl

/-- C20, as the code has it: converting an output to its cached form and back gives the
output with `ResultMetadata` reset to its zero value and every other field unchanged, for
`GetMethodOutput` and for `GetStagesOutput`; hence the value returned on a cache hit is the
value returned by the call that populated the cache, except for `ResultMetadata`, which is
the zero value on a hit. -/
theorem cached_copy_keeps_all_but_metadata (accountID region restAPIID : Str) :
    (∀ gmo : GetMethodOutput Integration MethodResponse,
        fromCachedGetMethodOutput (toCachedGetMethodOutput gmo) =
          { gmo with ResultMetadata := [] }) ∧
      (∀ gso : GetStagesOutput Stage,
        fromCachedGetStagesOutput (toCachedGetStagesOutput gso) =
          { gso with ResultMetadata := [] }) ∧
      (∀ (client : APIGatewayClient σ Stage Integration MethodResponse) (s : σ)
        (cache : Cache (CacheValue Stage Integration MethodResponse))
        (out : Fetched σ (CacheValue Stage Integration MethodResponse)
          (GetStagesOutput Stage)),
        cache.Get (stagesCacheKey accountID region restAPIID) = none →
        CachedApiGatewayGetStages client s cache accountID region restAPIID = some out →
        out.err = none →
        ∀ (client2 : APIGatewayClient σ Stage Integration MethodResponse) (s2 : σ),
          CachedApiGatewayGetStages client2 s2 out.cache accountID region restAPIID =
            some { value := { out.value with ResultMetadata := [] }, err := none,
                   cache := out.cache, client := s2, calls := [] }) ∧
      (∀ (resourceID method : Str)
        (client : APIGatewayClient σ Stage Integration MethodResponse) (s : σ)
        (cache : Cache (CacheValue Stage Integration MethodResponse))
        (out : Fetched σ (CacheValue Stage Integration MethodResponse)
          (GetMethodOutput Integration MethodResponse)),
        cache.Get (methodCacheKey accountID region restAPIID resourceID method) = none →
        CachedApiGatewayGetMethod client s cache accountID region restAPIID resourceID
          method = some out →
        out.err = none →
        ∀ (client2 : APIGatewayClient σ Stage Integration MethodResponse) (s2 : σ),
          CachedApiGatewayGetMethod client2 s2 out.cache accountID region restAPIID
            resourceID method =
            some { value := { out.value with ResultMetadata := [] }, err := none,
                   cache := out.cache, client := s2, calls := [] }) := by
  refine ⟨fun _ => rfl, fun _ => rfl, ?_, ?_⟩
  · intro client s cache out hmiss h herr client2 s2
    simp only [CachedApiGatewayGetStages, hmiss] at h
    split at h
    · simp only [Option.some.injEq] at h
      subst h
      simp at herr
    · simp only [Option.some.injEq] at h
      subst h
      simp only [CachedApiGatewayGetStages, cache_get_set]
      rfl
  · intro resourceID method client s cache out hmiss h herr client2 s2
    simp only [CachedApiGatewayGetMethod, hmiss] at h
    split at h
    · simp only [Option.some.injEq] at h
      subst h
      simp at herr
    · simp only [Option.some.injEq] at h
      subst h
      simp only [CachedApiGatewayGetMethod, cache_get_set]
      rfl

/-- C20 as amended, on the scripted client: the first `GetStages` call returns the output
with its request id, the second call returns it with empty `ResultMetadata`. -/
theorem cached_copy_keeps_all_but_metadata_witness :
    CachedApiGatewayGetStages scriptedApiGateway []
        (emptyCache.Set (stagesCacheKey "111122223333".toList "us-east-1".toList
            "abc123".toList)
          (CacheValue.stages (toCachedGetStagesOutput
            { Item := ["prod".toList],
              ResultMetadata := [("RequestID".toList, "r-1".toList)] })))
        "111122223333".toList "us-east-1".toList "abc123".toList =
      some { value := { Item := ["prod".toList], ResultMetadata := [] }, err := none,
             cache := emptyCache.Set (stagesCacheKey "111122223333".toList "us-east-1".toList
                 "abc123".toList)
               (CacheValue.stages (toCachedGetStagesOutput
                 { Item := ["prod".toList],
                   ResultMetadata := [("RequestID".toList, "r-1".toList)] })),
             client := [], calls := [] } :=
  (cached_copy_keeps_all_but_metadata "111122223333".toList "us-east-1".toList
    "abc123".toList).2.2.1 scriptedApiGateway [] emptyCache
    { value := { Item := ["prod".toList],
                 ResultMetadata := [("RequestID".toList, "r-1".toList)] },
      err := none,
      cache := emptyCache.Set (stagesCacheKey "111122223333".toList "us-east-1".toList
          "abc123".toList)
        (CacheValue.stages (toCachedGetStagesOutput
          { Item := ["prod".toList],
            ResultMetadata := [("RequestID".toList, "r-1".toList)] })),
      client := [], calls := [none] }
    rfl rfl rfl scriptedApiGateway []

/-- C20 fails as stated: an output that carries a request id in `ResultMetadata` does not
come back from its cached form as it was. -/
theorem cached_copy_loses_metadata :
    fromCachedGetStagesOutput (toCachedGetStagesOutput
        ({ Item := ["prod".toList],
           ResultMetadata := [("RequestID".toList, "r-1".toList)] } : GetStagesOutput Str)) ≠
      { Item := ["prod".toList], ResultMetadata := [("RequestID".toList, "r-1".toList)] } ∧
    fromCachedGetMethodOutput (toCachedGetMethodOutput
        ({ ApiKeyRequired := some true, AuthorizationScopes := [],
           AuthorizationType := some "NONE".toList, AuthorizerId := none,
           HttpMethod := some "GET".toList, MethodIntegration := none, MethodResponses := [],
           OperationName := none, RequestModels := [], RequestParameters := [],
           RequestValidatorId := none,
           ResultMetadata := [("RequestID".toList, "r-2".toList)] } :
          GetMethodOutput Unit Unit)) ≠
      { ApiKeyRequired := some true, AuthorizationScopes := [],
        AuthorizationType := some "NONE".toList, AuthorizerId := none,
        HttpMethod := some "GET".toList, MethodIntegration := none, MethodResponses := [],
        OperationName := none, RequestModels := [], RequestParameters := [],
        RequestValidatorId := none,
        ResultMetadata := [("RequestID".toList, "r-2".toList)] } := by
  decide

end CachedCopies

/-! ## Endpoint types, the heuristic without keywords -/

theorem anyPublicEndpointType_iff (types : List Str) :
    anyPublicEndpointType types = true ↔
      EndpointTypeRegional ∈ types ∨ EndpointTypeEdge ∈ types := by
  induction types with
  | nil => simp [anyPublicEndpointType]
  | cons t rest ih =>
    unfold anyPublicEndpointType
    by_cases h : (t == EndpointTypeRegional || t == EndpointTypeEdge) = true
    · rw [if_pos h]
      simp only [Bool.or_eq_true, beq_iff_eq] at h
      simp only [List.mem_cons, true_iff]
      rcases h with h | h
      · exact Or.inl (Or.inl h.symm)
      · exact Or.inr (Or.inl h.symm)
    · rw [if_neg h, ih]
      simp only [Bool.or_eq_true, beq_iff_eq, not_or] at h
      simp only [List.mem_cons]
      constructor
      · rintro (h1 | h1)
        · exact Or.inl (Or.inr h1)
        · exact Or.inr (Or.inr h1)
      · rintro ((h1 | h1) | (h1 | h1))
        · exact absurd h1.symm h.1
        · exact Or.inl h1
        · exact absurd h1.symm h.2
        · exact Or.inr h1

/-- C21: `IsPublicApiGateway(ra)` is true if and only if the endpoint types of `ra` contain
REGIONAL or EDGE; it is false for an empty type list and for the list with only PRIVATE. -/
theorem isPublicApiGateway_iff (ra : RestApi) :
    (IsPublicApiGateway ra = true ↔
        (EndpointTypeRegional ∈ ra.Types ∨ EndpointTypeEdge ∈ ra.Types)) ∧
      IsPublicApiGateway { ra with Types := [] } = false ∧
      IsPublicApiGateway { ra with Types := [EndpointTypePrivate] } = false := by
  refine ⟨anyPublicEndpointType_iff ra.Types, ?_, ?_⟩
  · rfl
  · simp only [IsPublicApiGateway]
    decide

/-- C25: `isResourcePolicyInteresting` is false for every summary whose lower-cased form
contains none of `everyone`, `aws:principalorgid`, `aws:principalaccount`,
`aws:principalorgpaths`, `role`, `root`, `aws:arn`; so for the empty summary. -/
theorem isResourcePolicyInteresting_without_keyword (s : Str)
    (h0 : Contains (ToLower s) "everyone".toList = false)
    (h1 : Contains (ToLower s) "aws:principalorgid".toList = false)
    (h2 : Contains (ToLower s) "aws:principalaccount".toList = false)
    (h3 : Contains (ToLower s) "aws:principalorgpaths".toList = false)
    (h4 : Contains (ToLower s) "role".toList = false)
    (h5 : Contains (ToLower s) "root".toList = false)
    (h6 : Contains (ToLower s) "aws:arn".toList = false) :
    isResourcePolicyInteresting s = false := by
  rw [isResourcePolicyInteresting_eq, h0, h1, h2, h3, h4, h5, h6]
  rfl

/-- C25 at the empty summary and at "Denied to the SourceArn of bob". -/
theorem isResourcePolicyInteresting_without_keyword_witness :
    isResourcePolicyInteresting [] = false ∧
      isResourcePolicyInteresting "Denied to the SourceArn of bob".toList = false :=
  ⟨isResourcePolicyInteresting_without_keyword [] (by decide) (by decide) (by decide)
      (by decide) (by decide) (by decide) (by decide),
    isResourcePolicyInteresting_without_keyword "Denied to the SourceArn of bob".toList
      (by decide) (by decide) (by decide) (by decide) (by decide) (by decide) (by decide)⟩

/-! ## Path sanitisation -/

theorem underscore_not_banned : '_' ∉ bannedPathChars := by decide

theorem dash_not_banned : '-' ∉ bannedPathChars := by decide

theorem removeBadPathChars_clean (p : Option Str) :
    ∀ c ∈ removeBadPathChars p, c ∉ bannedPathChars := by
  intro c hc
  unfold removeBadPathChars at hc
  rw [List.mem_map] at hc
  obtain ⟨x, _, rfl⟩ := hc
  by_cases hx : x ∈ bannedPathChars
  · rw [if_pos hx]; exact underscore_not_banned
  · rw [if_neg hx]; exact hx

/-- C30: `removeBadPathChars(p)` has as many characters as `p`, contains no banned
character, has `_` where `p` has a banned character and the character of `p` elsewhere, and
is idempotent; `BuildAWSPath` joins the sanitised `Account` and `UserId` by `-`, contains no
banned character, and a nil `Account` or `UserId` counts as the empty string. -/
theorem path_sanitisation (p : Str) (Caller : CallerIdentity) :
    (removeBadPathChars (some p)).length = p.length ∧
      (∀ c ∈ removeBadPathChars (some p), c ∉ bannedPathChars) ∧
      (∀ (i : Nat) (c : Char), p[i]? = some c →
        (removeBadPathChars (some p))[i]? = some (if c ∈ bannedPathChars then '_' else c)) ∧
      removeBadPathChars (some (removeBadPathChars (some p))) = removeBadPathChars (some p) ∧
      BuildAWSPath Caller =
        removeBadPathChars Caller.Account ++ "-".toList ++ removeBadPathChars Caller.UserId ∧
      (∀ c ∈ BuildAWSPath Caller, c ∉ bannedPathChars) ∧
      removeBadPathChars none = [] := by
  refine ⟨?_, removeBadPathChars_clean (some p), ?_, ?_, rfl, ?_, rfl⟩
  · simp [removeBadPathChars, awsToString]
  · intro i c h
    simp [removeBadPathChars, awsToString, List.getElem?_map, h]
  · have hclean := removeBadPathChars_clean (some p)
    show (removeBadPathChars (some p)).map
      (fun c => if c ∈ bannedPathChars then '_' else c) = removeBadPathChars (some p)
    conv_rhs => rw [← List.map_id (removeBadPathChars (some p))]
    apply List.map_congr_left
    intro c hc
    rw [if_neg (hclean c hc)]
    rfl
  · intro c hc
    simp only [BuildAWSPath, List.mem_append] at hc
    rcases hc with (hc | hc) | hc
    · exact removeBadPathChars_clean _ c hc
    · have : c = '-' := by simpa using hc
      rw [this]; exact dash_not_banned
    · exact removeBadPathChars_clean _ c hc

/-- C30 at the path "arn:aws*", whose characters 3 and 7 are banned, and at the caller
with account 111122223333 and user id "AIDA:alice". -/
theorem path_sanitisation_witness :
    (removeBadPathChars (some "arn:aws*".toList))[3]? =
        some (if ':' ∈ bannedPathChars then '_' else ':') ∧
      removeBadPathChars (some "arn:aws*".toList) = "arn_aws_".toList ∧
      BuildAWSPath { Account := some "111122223333".toList, UserId := some "AIDA:alice".toList } =
        "111122223333-AIDA_alice".toList :=
  ⟨(path_sanitisation "arn:aws*".toList
      { Account := some "111122223333".toList, UserId := some "AIDA:alice".toList }).2.2.1
      3 ':' (by decide),
    by decide, by decide⟩

/-! ## Profiles -/

theorem reorganize_foldl (allProfiles acc : List Str) (mgmtProfile : Str) :
    allProfiles.foldl
        (fun newProfiles profile =>
          if profile != mgmtProfile then newProfiles ++ [profile] else newProfiles) acc =
      acc ++ allProfiles.filter fun profile => profile != mgmtProfile := by
  induction allProfiles generalizing acc with
  | nil => simp
  | cons a t ih =>
    rw [List.foldl_cons, ih, List.filter_cons]
    by_cases h : (a != mgmtProfile) = true
    · simp [h]
    · simp [h]

theorem reorganize_eq (allProfiles : List Str) (mgmtProfile : Str) :
    ReorganizeAWSProfiles allProfiles mgmtProfile =
      mgmtProfile :: allProfiles.filter fun profile => profile != mgmtProfile := by
  unfold ReorganizeAWSProfiles
  rw [reorganize_foldl]
  rfl

theorem perm_of_count_one (l : List Str) (m : Str) (h : l.count m = 1) :
    (m :: l.filter fun x => x != m).Perm l := by
  induction l with
  | nil => simp at h
  | cons a t ih =>
    by_cases ha : a = m
    · subst ha
      have ht : t.count a = 0 := by
        rw [List.count_cons_self] at h
        omega
      have hf : (t.filter fun x => x != a) = t := by
        rw [List.filter_eq_self]
        intro x hx
        have : x ≠ a := fun e => (List.count_eq_zero.1 ht) (e ▸ hx)
        simpa using this
      have hne : (a != a) = false := by simp
      rw [List.filter_cons, hne, hf]
      exact List.Perm.refl _
    · have hne : (a != m) = true := by simpa using ha
      have ht : t.count m = 1 := by
        rw [List.count_cons_of_ne (fun e => ha e.symm)] at h
        exact h
      rw [List.filter_cons, hne]
      simp only [if_true]
      exact (List.Perm.swap a m _).trans (List.Perm.cons a (ih ht))

/-- C22, as the code has it: the result of `ReorganizeAWSProfiles` is `mgmtProfile` followed
by the profiles of `allProfiles` other than `mgmtProfile`, in their order; when `mgmtProfile`
occurs exactly once in `allProfiles` the result is a permutation of `allProfiles`, hence of
the same length. -/
theorem reorganize_moves_mgmt_to_front (allProfiles : List Str) (mgmtProfile : Str) :
    ReorganizeAWSProfiles allProfiles mgmtProfile =
        mgmtProfile :: allProfiles.filter (fun profile => profile != mgmtProfile) ∧
      (allProfiles.count mgmtProfile = 1 →
        (ReorganizeAWSProfiles allProfiles mgmtProfile).Perm allProfiles ∧
          (ReorganizeAWSProfiles allProfiles mgmtProfile).length = allProfiles.length) := by
  refine ⟨reorganize_eq allProfiles mgmtProfile, ?_⟩
  intro h
  rw [reorganize_eq]
  exact ⟨perm_of_count_one allProfiles mgmtProfile h,
    (perm_of_count_one allProfiles mgmtProfile h).length_eq⟩

/-- C22 as amended, on the profiles dev, mgmt, prod. -/
theorem reorganize_moves_mgmt_to_front_witness :
    (ReorganizeAWSProfiles ["dev".toList, "mgmt".toList, "prod".toList] "mgmt".toList).Perm
        ["dev".toList, "mgmt".toList, "prod".toList] ∧
      (ReorganizeAWSProfiles ["dev".toList, "mgmt".toList, "prod".toList]
        "mgmt".toList).length = 3 :=
  (reorganize_moves_mgmt_to_front ["dev".toList, "mgmt".toList, "prod".toList]
    "mgmt".toList).2 (by decide)

/-- C22 fails as stated: the list dev, mgmt, mgmt contains the management profile, and the
result mgmt, dev is shorter than the list, so no permutation of it. -/
theorem reorganize_drops_repeated_mgmt :
    "mgmt".toList ∈ ["dev".toList, "mgmt".toList, "mgmt".toList] ∧
      ReorganizeAWSProfiles ["dev".toList, "mgmt".toList, "mgmt".toList] "mgmt".toList =
        ["mgmt".toList, "dev".toList] ∧
      ¬ (ReorganizeAWSProfiles ["dev".toList, "mgmt".toList, "mgmt".toList]
        "mgmt".toList).Perm ["dev".toList, "mgmt".toList, "mgmt".toList] := by
  refine ⟨by decide, by decide, ?_⟩
  intro h
  have := h.length_eq
  revert this
  decide

/-! ## Ranking and rendering -/

theorem receiver_eq (resources2 received : List Resource2) :
    Receiver resources2 received = resources2 ++ received := by
  unfold Receiver
  induction received generalizing resources2 with
  | nil => simp
  | cons a t ih => rw [List.foldl_cons, ih]; simp

theorem tableRows_eq (account : Str) (body : List (List Str)) (resources2 : List Resource2) :
    tableRows account body resources2 =
      body ++ resources2.map fun r =>
        [account, r.ARN, r.Public, r.Interesting, r.ResourcePolicySummary] := by
  unfold tableRows
  induction resources2 generalizing body with
  | nil => simp
  | cons a t ih => rw [List.foldl_cons, ih]; simp

/-- C29: the receiver keeps every finding in the order of arrival; the sorted list is a
permutation of the collected list; the body has one row per finding, in the sorted order,
each row being account, ARN, Public, Interesting and summary of that finding; so the number
of rows is the number of findings received. -/
theorem ranking_and_rendering_lose_nothing (account : Str) (received : List Resource2) :
    Receiver [] received = received ∧
      (rankAndRender account (Receiver [] received)).1.Perm received ∧
      (rankAndRender account (Receiver [] received)).2 =
        (rankAndRender account (Receiver [] received)).1.map (fun r =>
          [account, r.ARN, r.Public, r.Interesting, r.ResourcePolicySummary]) ∧
      (rankAndRender account (Receiver [] received)).2.length = received.length := by
  have hr : Receiver [] received = received := by rw [receiver_eq]; rfl
  rw [hr]
  refine ⟨rfl, sortSlice_perm _ _, ?_, ?_⟩
  · simp only [rankAndRender, tableRows_eq, List.nil_append]
  · simp only [rankAndRender, tableRows_eq, List.nil_append, List.length_map]
    exact (sortSlice_perm lessInteresting received).length_eq

/-! ## Table columns -/

/-- C24 on the code: for the column list "ARN,  Public" (a comma followed by two spaces)
`tableCols` is ARN, " Public": the first replacement turns ",  " into ", " and the second
no longer finds two spaces.  With no space, one space or three spaces after the comma the
columns come out without leading space. -/
theorem two_spaces_after_comma_kept :
    tableCols "ARN,  Public".toList [] = ["ARN".toList, " Public".toList] ∧
      ReplaceAll "ARN,  Public".toList ", ".toList ",".toList = "ARN, Public".toList ∧
      tableCols "ARN,Public".toList [] = ["ARN".toList, "Public".toList] ∧
      tableCols "ARN, Public".toList [] = ["ARN".toList, "Public".toList] ∧
      tableCols "ARN,   Public".toList [] = ["ARN".toList, "Public".toList] := by
  decide

/-! ## A failed fetch and the cache -/

section CacheFailureProofs

variable {σ Stage Integration MethodResponse : Type}

theorem pageLoop_fails {Out α : Type} (request : σ → Option Str → (Out × Option Str) × σ)
    (items : Out → List α) (next : Out → Option Str) (pages : List Out) (err : Str) :
    ∀ (fuel : Nat) (s : σ) (token : Option Str) (acc : List α) (calls : List (Option Str)),
      failsAfterPages request next s token pages err → pages.length + 1 ≤ fuel →
      ∃ s', pageLoop request items next fuel s token acc calls =
        some (acc ++ (pages.map items).flatten, some err, s',
          calls ++ token :: pages.map next) := by
  induction pages with
  | nil =>
    intro fuel s token acc calls h hfuel
    cases fuel with
    | zero => simp at hfuel
    | succ fuel =>
      refine ⟨(request s token).2, ?_⟩
      have h' : (request s token).1.2 = some err := h
      rw [pageLoop]
      rcases hr : request s token with ⟨⟨out, e⟩, s'⟩
      rw [hr] at h'
      simp only at h'
      subst h'
      simp
  | cons p rest ih =>
    intro fuel s token acc calls h hfuel
    cases fuel with
    | zero => simp at hfuel
    | succ fuel =>
      obtain ⟨h1, h2, h3⟩ := h
      have hr : request s token = ((p, none), (request s token).2) := by
        rw [← h1]
      obtain ⟨t, ht⟩ := Option.isSome_iff_exists.1 h2
      rw [ht] at h3
      have hlen : rest.length + 1 ≤ fuel := by
        simp only [List.length_cons] at hfuel; omega
      obtain ⟨s', hs'⟩ := ih fuel (request s token).2 (some t) (acc ++ items p)
        (calls ++ [token]) h3 hlen
      refine ⟨s', ?_⟩
      rw [pageLoop, hr]
      simp only [ht]
      rw [hs']
      simp [List.append_assoc, ht]

/-- C28: on a cache miss, when the client answers the first k-1 requests by pages and fails
the request for page k, `CachedApiGatewayGetRestAPIs` (likewise
`CachedEC2DescribeVpcEndpoints`) returns that error with the items of pages 1..k-1, the empty
list for k = 1, and the cache is as it was before the call. -/
theorem failed_fetch_leaves_cache (accountID region : Str) (fuel : Nat) (s : σ)
    (cache : Cache (CacheValue Stage Integration MethodResponse)) (err : Str) :
    (∀ (client : APIGatewayClient σ Stage Integration MethodResponse)
        (pages : List GetRestApisOutput),
        cache.Get (restApisCacheKey accountID region) = none →
        failsAfterPages (fun s token => client.GetRestApis s token region)
          (fun out => out.Position) s none pages err →
        pages.length + 1 ≤ fuel →
        ∃ out, CachedApiGatewayGetRestAPIs fuel client s cache accountID region = some out ∧
          out.value = (pages.map fun page => page.Items).flatten ∧
          out.err = some err ∧
          out.calls = none :: pages.map (fun page => page.Position) ∧
          out.cache = cache) ∧
      (∀ (client : EC2Client σ) (pages : List DescribeVpcEndpointsOutput),
        cache.Get (vpcEndpointsCacheKey accountID region) = none →
        failsAfterPages (fun s token => client.DescribeVpcEndpoints s token region)
          (fun out => out.NextToken) s none pages err →
        pages.length + 1 ≤ fuel →
        ∃ out, CachedEC2DescribeVpcEndpoints fuel client s cache accountID region = some out ∧
          out.value = (pages.map fun page => page.VpcEndpoints).flatten ∧
          out.err = some err ∧
          out.calls = none :: pages.map (fun page => page.NextToken) ∧
          out.cache = cache) := by
  constructor
  · intro client pages hmiss hpages hfuel
    obtain ⟨s', hs'⟩ := pageLoop_fails (fun s token => client.GetRestApis s token region)
      (fun out => out.Items) (fun out => out.Position) pages err fuel s none [] [] hpages
      hfuel
    simp only [List.nil_append] at hs'
    simp only [CachedApiGatewayGetRestAPIs, hmiss, hs']
    exact ⟨_, rfl, rfl, rfl, rfl, rfl⟩
  · intro client pages hmiss hpages hfuel
    obtain ⟨s', hs'⟩ := pageLoop_fails
      (fun s token => client.DescribeVpcEndpoints s token region)
      (fun out => out.VpcEndpoints) (fun out => out.NextToken) pages err fuel s none [] []
      hpages hfuel
    simp only [List.nil_append] at hs'
    simp only [CachedEC2DescribeVpcEndpoints, hmiss, hs']
    exact ⟨_, rfl, rfl, rfl, rfl, rfl⟩

/-- C28 on the scripted client that answers with the page of token `t1` and then has no
response left: the REST API of the first page comes back with the error. -/
theorem failed_fetch_leaves_cache_witness :
    ∃ out, CachedApiGatewayGetRestAPIs 2 scriptedApiGateway [(pageOne, none)] emptyCache
        "111122223333".toList "us-east-1".toList = some out ∧
      out.value = ([pageOne].map fun page => page.Items).flatten ∧
      out.err = some "no response left".toList ∧
      out.calls = none :: [pageOne].map (fun page => page.Position) ∧
      out.cache = emptyCache :=
  (failed_fetch_leaves_cache "111122223333".toList "us-east-1".toList 2 [(pageOne, none)]
    emptyCache "no response left".toList).1 scriptedApiGateway [pageOne] rfl
    ⟨rfl, rfl, rfl⟩ (by decide)

end CacheFailureProofs

/-! ## Counters of a scan pass -/

theorem runCheck_counts (oracle : Str → Str → Bool × Option Str) (st0 st : ScanState)
    (L : List Str) (service r : Str) (task : CommandCounter → TaskOut)
    (htask : ∀ c, finishedOnce c (task c))
    (h : st.counter.Complete = st0.counter.Complete + L.length ∧
      st.counter.Executing = st0.counter.Executing - L.length ∧
      st.counter.Pending = st0.counter.Pending) :
    (runCheck st service r (oracle service r) task).counter.Complete =
        st0.counter.Complete + (L ++ [service].filter fun x => (oracle x r).1).length ∧
      (runCheck st service r (oracle service r) task).counter.Executing =
        st0.counter.Executing - (L ++ [service].filter fun x => (oracle x r).1).length ∧
      (runCheck st service r (oracle service r) task).counter.Pending =
        st0.counter.Pending := by
  unfold runCheck
  cases ho : (oracle service r).1
  · simp [ho, h.1, h.2.1, h.2.2]
  · obtain ⟨f1, f2, _, f4⟩ := htask { st.counter with Total := st.counter.Total + 1 }
    have hf : ([service].filter fun x => (oracle x r).1) = [service] := by simp [ho]
    rw [if_pos rfl, hf]
    refine ⟨f1.trans ?_, f2.trans ?_, f4.trans ?_⟩
    · show st.counter.Complete + 1 = _
      rw [h.1, List.length_append, List.length_singleton]
      push_cast
      ring
    · show st.counter.Executing - 1 = _
      rw [h.2.1, List.length_append, List.length_singleton]
      push_cast
      ring
    · exact h.2.2

theorem gatedCheck_counts (oracle : Str → Str → Bool × Option Str) (st0 st : ScanState)
    (L : List Str) (gate : Bool) (service r : Str) (task : CommandCounter → TaskOut)
    (htask : ∀ c, finishedOnce c (task c))
    (h : st.counter.Complete = st0.counter.Complete + L.length ∧
      st.counter.Executing = st0.counter.Executing - L.length ∧
      st.counter.Pending = st0.counter.Pending) :
    (if gate = true then runCheck st service r (oracle service r) task
        else st).counter.Complete =
        st0.counter.Complete + (L ++ (if gate = true then [service] else []).filter
          fun x => (oracle x r).1).length ∧
      (if gate = true then runCheck st service r (oracle service r) task
        else st).counter.Executing =
        st0.counter.Executing - (L ++ (if gate = true then [service] else []).filter
          fun x => (oracle x r).1).length ∧
      (if gate = true then runCheck st service r (oracle service r) task
        else st).counter.Pending = st0.counter.Pending := by
  cases gate
  · simpa using h
  · simpa using runCheck_counts oracle st0 st L service r task htask h

theorem executeChecks_counts (d : Deps Stmt) (m : Module)
    (oracle : Str → Str → Bool × Option Str) (includeKms : Bool) (r : Str)
    (w : RegionInputs Stmt) (st : ScanState) :
    (executeChecks d m oracle includeKms r w st).counter.Complete =
        st.counter.Complete + (presentServices m oracle includeKms r).length ∧
      (executeChecks d m oracle includeKms r w st).counter.Executing =
        st.counter.Executing - (presentServices m oracle includeKms r).length ∧
      (executeChecks d m oracle includeKms r w st).counter.Pending = st.counter.Pending := by
  have base : st.counter.Complete = st.counter.Complete + (([] : List Str).length : Int) ∧
      st.counter.Executing = st.counter.Executing - (([] : List Str).length : Int) ∧
      st.counter.Pending = st.counter.Pending := by simp
  have h1 := runCheck_counts oracle st _ _ "sns".toList r
    (fun c => getSNSTopicsPerRegion d m.account c w.ListTopics)
    (fun c => runTask_finishedOnce _ _ _) base
  have h2 := runCheck_counts oracle st _ _ "sqs".toList r
    (fun c => getSQSQueuesPerRegion d m.account r c w.ListQueues)
    (fun c => runTask_finishedOnce _ _ _) h1
  have h3 := runCheck_counts oracle st _ _ "ecr".toList r
    (fun c => getECRRecordsPerRegion d m.account r c w.DescribeRepositories)
    (fun c => runTask_finishedOnce _ _ _) h2
  have h4 := runCheck_counts oracle st _ _ "codebuild".toList r
    (fun c => getCodeBuildResourcePoliciesPerRegion d m.account r c w.ListProjects)
    (fun c => runTask_finishedOnce _ _ _) h3
  have h5 := runCheck_counts oracle st _ _ "lambda".toList r
    (fun c => getLambdaPolicyPerRegion d m.account r c w.ListFunctions)
    (fun c => runTask_finishedOnce _ _ _) h4
  have h6 := runCheck_counts oracle st _ _ "efs".toList r
    (fun c => getEFSfilesystemPoliciesPerRegion d m.account r c w.ListFileSystems)
    (fun c => runTask_finishedOnce _ _ _) h5
  have h7 := runCheck_counts oracle st _ _ "secretsmanager".toList r
    (fun c => getSecretsManagerSecretsPoliciesPerRegion d m.account r c w.ListSecrets)
    (fun c => runTask_finishedOnce _ _ _) h6
  have h8 := runCheck_counts oracle st _ _ "glue".toList r
    (fun c => getGlueResourcePoliciesPerRegion d m.account r c w.ResourcePolicies)
    (fun c => runTask_finishedOnce _ _ _) h7
  have h9 := gatedCheck_counts oracle st _ _ (includeKms && m.KMSClient) "kms".toList r
    (fun c => getKMSPoliciesPerRegion d m.account r c w.listKeys)
    (fun c => runTask_finishedOnce _ _ _) h8
  have h10 := gatedCheck_counts oracle st _ _ m.APIGatewayClient "apigateway".toList r
    (fun c => getAPIGatewayPoliciesPerRegion d m.account r c w.restAPIs)
    (fun c => runTask_finishedOnce _ _ _) h9
  have h11 := gatedCheck_counts oracle st _ _ m.EC2Client "ec2".toList r
    (fun c => getVPCEndpointPoliciesPerRegion d m.account r c w.vpcEndpoints)
    (fun c => runTask_finishedOnce _ _ _) h10
  have h12 := gatedCheck_counts oracle st _ _ m.OpenSearchClient "es".toList r
    (fun c => getOpenSearchPoliciesPerRegion d m.account r c w.openSearchDomains)
    (fun c => runTask_finishedOnce _ _ _) h11
  unfold presentServices
  rw [checkedServices_eq]
  simp only [List.filter_append, List.filter_nil]
  exact h12

theorem scanRegions_counts (d : Deps Stmt) (m : Module)
    (oracle : Str → Str → Bool × Option Str) (includeKms : Bool)
    (world : Str → RegionInputs Stmt) (regions : List Str) (st : ScanState) :
    (scanRegions d m oracle includeKms world regions st).counter.Complete =
        st.counter.Complete +
          ((regions.map fun r => (presentServices m oracle includeKms r).length).sum : Nat) ∧
      (scanRegions d m oracle includeKms world regions st).counter.Executing =
        st.counter.Executing -
          ((regions.map fun r => (presentServices m oracle includeKms r).length).sum : Nat) ∧
      (scanRegions d m oracle includeKms world regions st).counter.Pending =
        st.counter.Pending + regions.length := by
  induction regions generalizing st with
  | nil => simp [scanRegions]
  | cons r rest ih =>
    rw [scanRegions]
    obtain ⟨i1, i2, i3⟩ := ih (executeChecks d m oracle includeKms r (world r)
      { st with counter := { st.counter with Pending := st.counter.Pending + 1 } })
    obtain ⟨e1, e2, e3⟩ := executeChecks_counts d m oracle includeKms r (world r)
      { st with counter := { st.counter with Pending := st.counter.Pending + 1 } }
    rw [i1, i2, i3, e1, e2, e3]
    simp only [List.map_cons, List.sum_cons, List.length_cons, Nat.cast_add, Nat.cast_one]
    refine ⟨by ring, by ring, by ring⟩

/-- C27: one scan pass run sequentially from all-zero counters with a budget of at least 1,
with K regions and T per-service tasks run in total (the tasks run are those T and the
bucket task), returns with `Pending` = K, `Total` = T, `Complete` = T + 1 and
`Executing` = -(T + 1). -/
theorem scan_counters (d : Deps Stmt) (m : Module) (oracle : Str → Str → Bool × Option Str)
    (includeKms : Bool) (AWSRegions : List Str) (world : Str → RegionInputs Stmt)
    (ListBuckets : List BucketInput × Option Str) (T : Nat) (hG : 1 ≤ m.Goroutines)
    (hT : (AWSRegions.map fun r => (presentServices m oracle includeKms r).length).sum = T) :
    ∃ st, scanPass d m oracle includeKms AWSRegions world ListBuckets {} =
        PassResult.returns st ∧
      st.tasks.length = T + 1 ∧
      st.counter.Pending = AWSRegions.length ∧
      st.counter.Total = T ∧
      st.counter.Complete = T + 1 ∧
      st.counter.Executing = -(T + 1) := by
  obtain ⟨c1, c2, c3⟩ := scanRegions_counts d m oracle includeKms world AWSRegions {}
  obtain ⟨t1, t2⟩ := scanRegions_spec d m oracle includeKms world AWSRegions {}
  obtain ⟨f1, f2, f3, f4⟩ := runTask_finishedOnce
    (scanRegions d m oracle includeKms world AWSRegions {}).counter ListBuckets
    (getS3BucketsBody d m.account)
  rw [hT] at c1 c2 t2
  refine ⟨_, scanPass_of_room d m oracle includeKms AWSRegions world ListBuckets {} hG,
    ?_, ?_, ?_, ?_, ?_⟩
  · show ((scanRegions d m oracle includeKms world AWSRegions {}).tasks ++
      [("s3".toList, [])]).length = _
    rw [t1, List.length_append, List.length_append, List.length_flatten, List.map_map,
      List.length_singleton]
    have : (List.length ∘ fun r => List.map (fun x => (x, r))
        (presentServices m oracle includeKms r)) =
        fun r => (presentServices m oracle includeKms r).length := by
      funext r; simp
    rw [this, hT]
    simp
  · show (getS3Buckets d m.account _ ListBuckets).counter.Pending = _
    unfold getS3Buckets
    rw [f4, c3]; simp
  · show (getS3Buckets d m.account _ ListBuckets).counter.Total = _
    unfold getS3Buckets
    rw [f3, t2]; simp
  · show (getS3Buckets d m.account _ ListBuckets).counter.Complete = _
    unfold getS3Buckets
    rw [f1, c1]; simp
  · show (getS3Buckets d m.account _ ListBuckets).counter.Executing = _
    unfold getS3Buckets
    rw [f2, c2]; simp; ring

/-- C27 on two regions with the oracle that reports `sns` and `kms` present, the KMS switch
on and a budget of five: four per-service tasks. -/
theorem scan_counters_witness :
    scanPass (sampleDeps false) sampleModule snsAndKmsOracle true
        ["us-east-1".toList, "eu-west-1".toList] (fun _ => emptyRegion) ([], none) {} =
      PassResult.returns
        { counter := { Pending := 2, Total := 4, Complete := 5, Executing := -5, Error := 0 },
          received := [],
          tasks := [("sns".toList, "us-east-1".toList), ("kms".toList, "us-east-1".toList),
            ("sns".toList, "eu-west-1".toList), ("kms".toList, "eu-west-1".toList),
            ("s3".toList, [])] } ∧
      ∃ st, scanPass (sampleDeps false) sampleModule snsAndKmsOracle true
          ["us-east-1".toList, "eu-west-1".toList] (fun _ => emptyRegion) ([], none) {} =
            PassResult.returns st ∧
        st.counter.Complete = ((4 : Nat) : Int) + 1 :=
  ⟨by decide,
    (scan_counters (sampleDeps false) sampleModule snsAndKmsOracle true
      ["us-east-1".toList, "eu-west-1".toList] (fun _ => emptyRegion) ([], none) 4
      (by decide) (by decide)).imp fun _ h => ⟨h.1, h.2.2.2.2.1⟩⟩

/-! ## The sticky flag of the per-statement tasks -/

theorem interestingWithin_iff (d : Deps Stmt) (account : Str) (n : Nat) (stmts : List Stmt) :
    ∀ (i k : Nat), interestingWithin d account n i k stmts = true ↔
      ∃ j, j ≤ k ∧ ∃ statement, stmts[j]? = some statement ∧
        isResourcePolicyInteresting (statementSummary d account n (i + j) statement) = true := by
  induction stmts with
  | nil => intro i k; simp [interestingWithin]
  | cons st rest ih =>
    intro i k
    cases k with
    | zero =>
      simp only [interestingWithin]
      constructor
      · intro h; exact ⟨0, le_refl _, st, List.getElem?_cons_zero, by simpa using h⟩
      · rintro ⟨j, hj, statement, hs, hi⟩
        have hj0 : j = 0 := by omega
        subst hj0
        simp only [List.getElem?_cons_zero, Option.some.injEq] at hs
        subst hs
        simpa using hi
    | succ k =>
      simp only [interestingWithin, Bool.or_eq_true, ih]
      constructor
      · rintro (h | ⟨j, hj, statement, hs, hi⟩)
        · exact ⟨0, Nat.zero_le _, st, List.getElem?_cons_zero, by simpa using h⟩
        · refine ⟨j + 1, by omega, statement, by simpa using hs, ?_⟩
          have e : i + (j + 1) = i + 1 + j := by omega
          rw [e]; exact hi
      · rintro ⟨j, hj, statement, hs, hi⟩
        cases j with
        | zero =>
          simp only [List.getElem?_cons_zero, Option.some.injEq] at hs
          subst hs
          exact Or.inl (by simpa using hi)
        | succ j =>
          refine Or.inr ⟨j, by omega, statement, by simpa using hs, ?_⟩
          have e : i + (j + 1) = i + 1 + j := by omega
          rw [e] at hi; exact hi

theorem statementLoop_sticky (d : Deps Stmt) (account arn name r isPublic : Str) (n : Nat)
    (stmts : List Stmt) :
    ∀ (i : Nat) (b : Bool) (k : Nat) (f : Resource2),
      (statementLoop d account (mkFinding account arn name r isPublic) n i
        (if b = true then yes d else no) stmts)[k]? = some f →
      f.Interesting = if (b || interestingWithin d account n i k stmts) = true then yes d
        else no := by
  induction stmts with
  | nil => intro i b k f h; simp [statementLoop] at h
  | cons st rest ih =>
    intro i b k f h
    have hflag : (if isResourcePolicyInteresting (statementSummary d account n i st) = true
        then yes d else if b = true then yes d else no) =
        if (b || isResourcePolicyInteresting (statementSummary d account n i st)) = true
        then yes d else no := by
      cases b <;> cases isResourcePolicyInteresting (statementSummary d account n i st) <;> rfl
    rw [statementLoop] at h
    simp only [hflag] at h
    cases k with
    | zero =>
      simp only [List.getElem?_cons_zero, Option.some.injEq] at h
      subst h
      rfl
    | succ k =>
      simp only [List.getElem?_cons_succ] at h
      have := ih (i + 1) (b || isResourcePolicyInteresting (statementSummary d account n i st))
        k f h
      rw [this]
      simp only [interestingWithin, Bool.or_assoc]

theorem statementLoop_stickyInteresting (d : Deps Stmt) (account arn name r isPublic : Str)
    (start : Bool) (p : Policy Stmt) :
    stickyInteresting d account start p
      (statementLoop d account (mkFinding account arn name r isPublic) p.Statement.length 0
        (if start = true then yes d else no) p.Statement) := by
  intro k f h
  have hI := statementLoop_sticky d account arn name r isPublic p.Statement.length p.Statement
    0 start k f h
  have hiff := interestingWithin_iff d account p.Statement.length p.Statement 0 k
  simp only [Nat.zero_add] at hiff
  by_cases hflag : (start || interestingWithin d account p.Statement.length 0 k
      p.Statement) = true
  · rw [if_pos hflag] at hI
    left
    refine ⟨hI, ?_⟩
    rw [Bool.or_eq_true] at hflag
    rcases hflag with h1 | h1
    · exact Or.inl h1
    · exact Or.inr (hiff.1 h1)
  · rw [if_neg hflag] at hI
    right
    refine ⟨hI, ?_⟩
    rintro (h1 | h1)
    · exact hflag (by rw [h1]; rfl)
    · exact hflag (by rw [hiff.2 h1]; simp)

theorem sticky_stays (d : Deps Stmt) (account : Str) (start : Bool) (p : Policy Stmt)
    (sent : List Resource2) (h : stickyInteresting d account start p sent) :
    staysInteresting d sent := by
  intro k k2 f f2 hk hf hf2 hyes
  rcases h k f hf with ⟨_, hP⟩ | ⟨hno, _⟩
  · rcases h k2 f2 hf2 with ⟨hy2, _⟩ | ⟨_, hnP2⟩
    · exact hy2
    · exfalso
      apply hnP2
      rcases hP with hP | ⟨j, hj, rest⟩
      · exact Or.inl hP
      · exact Or.inr ⟨j, le_trans hj hk, rest⟩
  · rcases h k2 f2 hf2 with ⟨hy2, _⟩ | ⟨hno2, _⟩
    · exact hy2
    · rw [hno2, ← hno, hyes]

theorem stickyInteresting_nil (d : Deps Stmt) (account : Str) (start : Bool)
    (p : Policy Stmt) : stickyInteresting d account start p [] := by
  intro k f h
  simp at h

theorem statementLoop_sticky_guarded (d : Deps Stmt) (account r arn name isPublic : Str)
    (start : Bool) (p : Policy Stmt) :
    stickyInteresting d account start p
      (if (!p.IsEmpty) = true then
        statementLoop d account (mkFinding account arn name r isPublic)
          p.Statement.length 0 (if start = true then yes d else no) p.Statement
      else []) := by
  by_cases hE : (!p.IsEmpty) = true
  · rw [if_pos hE]
    exact statementLoop_stickyInteresting d account arn name r _ start p
  · rw [if_neg hE]
    exact stickyInteresting_nil d account start p

/-- C26, as the code has it: in the ten tasks that send one finding per statement the flag
`isInteresting` is sticky within one resource: for a resource whose policy `p` was fetched
and parsed, the finding sent for statement `k` has `Interesting` = Yes if and only if the
flag was Yes before the statement loop or `isResourcePolicyInteresting` holds for the
summary of some statement `j ≤ k`, and `"No"` otherwise; hence once a finding of the
resource is Yes, all later ones are.  Before the loop the flag is Yes exactly when `p` is
public in the SQS, ECR, Lambda, EFS, SecretsManager, KMS and CodeBuild tasks, it is `"No"`
in the APIGateway and VpcEndpoint tasks, and in the OpenSearch task it is Yes exactly when
the advanced security options are not enabled. -/
theorem interesting_is_sticky (d : Deps Stmt) (account r : Str) :
    (∀ (x : PolicyResource Stmt) (p : Policy Stmt), x.fetch = (p, none) →
        stickyInteresting d account (d.IsPublic p) p (getSQSQueuesPerRegionBody d account r x).sent ∧
        staysInteresting d (getSQSQueuesPerRegionBody d account r x).sent ∧
        stickyInteresting d account (d.IsPublic p) p (getECRRecordsPerRegionBody d account r x).sent ∧
        staysInteresting d (getECRRecordsPerRegionBody d account r x).sent ∧
        stickyInteresting d account (d.IsPublic p) p (getLambdaPolicyPerRegionBody d account r x).sent ∧
        staysInteresting d (getLambdaPolicyPerRegionBody d account r x).sent ∧
        stickyInteresting d account (d.IsPublic p) p (getEFSfilesystemPoliciesPerRegionBody d account r x).sent ∧
        staysInteresting d (getEFSfilesystemPoliciesPerRegionBody d account r x).sent ∧
        stickyInteresting d account (d.IsPublic p) p (getSecretsManagerSecretsPoliciesPerRegionBody d account r x).sent ∧
        staysInteresting d (getSecretsManagerSecretsPoliciesPerRegionBody d account r x).sent ∧
        stickyInteresting d account (d.IsPublic p) p (getKMSPoliciesPerRegionBody d account r x).sent ∧
        staysInteresting d (getKMSPoliciesPerRegionBody d account r x).sent) ∧
      (∀ (pr : ProjectInput) (project : Str × Str) (policyJSON : Str),
        pr.CachedCodeBuildBatchGetProjects = (project, none) →
        pr.CachedCodeBuildGetResourcePolicy = (policyJSON, none) →
        stickyInteresting d account (d.IsPublic (d.ParseJSONPolicy policyJSON).1)
          (d.ParseJSONPolicy policyJSON).1
          (getCodeBuildResourcePoliciesPerRegionBody d account r pr).sent ∧
        staysInteresting d (getCodeBuildResourcePoliciesPerRegionBody d account r pr).sent) ∧
      (∀ (restAPI : RestApi) (p : Policy Stmt), nonEmptyPtr restAPI.Policy = true →
        d.ParseJSONPolicy
          (ReplaceAll (awsToString restAPI.Policy) "\\\"".toList "\"".toList) = (p, none) →
        stickyInteresting d account false p
          (getAPIGatewayPoliciesPerRegionBody d account r restAPI).sent ∧
        staysInteresting d (getAPIGatewayPoliciesPerRegionBody d account r restAPI).sent) ∧
      (∀ (vpcEndpoint : VpcEndpoint) (p : Policy Stmt),
        nonEmptyPtr vpcEndpoint.PolicyDocument = true →
        d.ParseJSONPolicy (awsToString vpcEndpoint.PolicyDocument) = (p, none) →
        stickyInteresting d account false p
          (getVPCEndpointPoliciesPerRegionBody d account r vpcEndpoint).sent ∧
        staysInteresting d (getVPCEndpointPoliciesPerRegionBody d account r vpcEndpoint).sent) ∧
      (∀ (openSearchDomain : DomainInput) (enabled : Option Bool)
        (openSearchDomainStatus : Option Str × Option Str) (p : Policy Stmt),
        openSearchDomain.CachedOpenSearchDescribeDomainConfig = (enabled, none) →
        openSearchDomain.CachedOpenSearchDescribeDomain = (openSearchDomainStatus, none) →
        nonEmptyPtr openSearchDomainStatus.2 = true →
        d.ParseJSONPolicy
          (ReplaceAll (awsToString openSearchDomainStatus.2) "\\\"".toList "\"".toList) =
            (p, none) →
        stickyInteresting d account (!awsToBool enabled) p
          (getOpenSearchPoliciesPerRegionBody d account r openSearchDomain).sent ∧
        staysInteresting d
          (getOpenSearchPoliciesPerRegionBody d account r openSearchDomain).sent) := by
  have key := statementLoop_sticky_guarded d account r
  refine ⟨?_, ?_, ?_, ?_, ?_⟩
  · intro x p h
    have h1 : stickyInteresting d account (d.IsPublic p) p
        (getSQSQueuesPerRegionBody d account r x).sent := by
      simp only [getSQSQueuesPerRegionBody, h]
      simpa [apply_ite ResourceOut.sent] using key x.Arn x.Name _ (d.IsPublic p) p
    have h2 : stickyInteresting d account (d.IsPublic p) p
        (getECRRecordsPerRegionBody d account r x).sent := by
      simp only [getECRRecordsPerRegionBody, h]
      simpa [apply_ite ResourceOut.sent] using key x.Arn x.Name _ (d.IsPublic p) p
    have h3 : stickyInteresting d account (d.IsPublic p) p
        (getLambdaPolicyPerRegionBody d account r x).sent := by
      simp only [getLambdaPolicyPerRegionBody, h]
      simpa [apply_ite ResourceOut.sent] using key x.Arn x.Name _ (d.IsPublic p) p
    have h4 : stickyInteresting d account (d.IsPublic p) p
        (getEFSfilesystemPoliciesPerRegionBody d account r x).sent := by
      simp only [getEFSfilesystemPoliciesPerRegionBody, h]
      simpa [apply_ite ResourceOut.sent] using key x.Arn x.Name _ (d.IsPublic p) p
    have h5 : stickyInteresting d account (d.IsPublic p) p
        (getSecretsManagerSecretsPoliciesPerRegionBody d account r x).sent := by
      simp only [getSecretsManagerSecretsPoliciesPerRegionBody, h]
      simpa [apply_ite ResourceOut.sent] using key x.Arn x.Name _ (d.IsPublic p) p
    have h6 : stickyInteresting d account (d.IsPublic p) p
        (getKMSPoliciesPerRegionBody d account r x).sent := by
      simp only [getKMSPoliciesPerRegionBody, h]
      simpa [apply_ite ResourceOut.sent] using key x.Arn x.Name _ (d.IsPublic p) p
    exact ⟨h1, sticky_stays d account _ p _ h1, h2, sticky_stays d account _ p _ h2,
      h3, sticky_stays d account _ p _ h3, h4, sticky_stays d account _ p _ h4,
      h5, sticky_stays d account _ p _ h5, h6, sticky_stays d account _ p _ h6⟩
  · intro pr project policyJSON h1 h2
    have h : stickyInteresting d account (d.IsPublic (d.ParseJSONPolicy policyJSON).1)
        (d.ParseJSONPolicy policyJSON).1
        (getCodeBuildResourcePoliciesPerRegionBody d account r pr).sent := by
      simp only [getCodeBuildResourcePoliciesPerRegionBody, h1, h2]
      simpa [apply_ite ResourceOut.sent] using
        key project.1 project.2 _ (d.IsPublic (d.ParseJSONPolicy policyJSON).1)
          (d.ParseJSONPolicy policyJSON).1
    exact ⟨h, sticky_stays d account _ _ _ h⟩
  · intro restAPI p hptr hparse
    have h : stickyInteresting d account false p
        (getAPIGatewayPoliciesPerRegionBody d account r restAPI).sent := by
      unfold getAPIGatewayPoliciesPerRegionBody
      by_cases hpub : IsPublicApiGateway restAPI = true
      · rw [if_pos hpub]
        exact stickyInteresting_nil d account false p
      · rw [if_neg hpub]
        simp only [hptr, if_true, hparse]
        simpa [apply_ite ResourceOut.sent] using
          key ("arn:aws:execute-api:".toList ++ r ++ ":".toList ++ account ++ ":".toList ++
            restAPI.Id ++ "/*".toList) (awsToString restAPI.Name) no false p
    exact ⟨h, sticky_stays d account _ _ _ h⟩
  · intro vpcEndpoint p hptr hparse
    have h : stickyInteresting d account false p
        (getVPCEndpointPoliciesPerRegionBody d account r vpcEndpoint).sent := by
      unfold getVPCEndpointPoliciesPerRegionBody
      simp only [hptr, if_true, hparse]
      simpa [apply_ite ResourceOut.sent] using
        key ("arn:aws:ec2:".toList ++ r ++ ":".toList ++ account ++ ":vpc-endpoint/".toList ++
          awsToString vpcEndpoint.VpcEndpointId) (awsToString vpcEndpoint.VpcEndpointId)
          no false p
    exact ⟨h, sticky_stays d account _ _ _ h⟩
  · intro openSearchDomain enabled openSearchDomainStatus p hcfg hdom hptr hparse
    have h : stickyInteresting d account (!awsToBool enabled) p
        (getOpenSearchPoliciesPerRegionBody d account r openSearchDomain).sent := by
      unfold getOpenSearchPoliciesPerRegionBody
      simp only [hcfg, hdom, hptr, if_true, hparse]
      have hstart : (if awsToBool enabled = true then no else yes d) =
          (if (!awsToBool enabled) = true then yes d else no) := by
        cases awsToBool enabled <;> rfl
      rw [hstart]
      simpa [apply_ite ResourceOut.sent] using
        key (awsToString openSearchDomainStatus.1) (awsToString openSearchDomain.DomainName)
          (if (!awsToBool enabled) = true then yes d else no) (!awsToBool enabled) p
    exact ⟨h, sticky_stays d account _ _ _ h⟩

/-- C26 as amended, on the queue `stickyQueue`: it is not public, its second statement is
the first interesting one, and its three findings carry `No`, `Yes`, `Yes`. -/
theorem interesting_is_sticky_witness :
    stickyQueue.fetch = (stickyQueue.fetch.1, none) ∧
      stickyInteresting (sampleDeps false) "111111111111".toList
        ((sampleDeps false).IsPublic stickyQueue.fetch.1) stickyQueue.fetch.1
        (getSQSQueuesPerRegionBody (sampleDeps false) "111111111111".toList
          "us-east-1".toList stickyQueue).sent ∧
      (getSQSQueuesPerRegionBody (sampleDeps false) "111111111111".toList
          "us-east-1".toList stickyQueue).sent.map (fun f => f.Interesting) =
        ["No".toList, "Yes".toList, "Yes".toList] :=
  ⟨rfl,
    ((interesting_is_sticky (sampleDeps false) "111111111111".toList "us-east-1".toList).1
      stickyQueue stickyQueue.fetch.1 rfl).1,
    by decide⟩

/-- C26 fails as stated: a PRIVATE REST API and a VPC endpoint whose parsed policy
"* can invoke" is public and has one statement, which is not flagged by
`isResourcePolicyInteresting`, get a finding with `Interesting = "No"`; and an OpenSearch
domain without advanced security options whose parsed policy "alice can read" is not
public and not flagged gets a finding with `Interesting = magenta("Yes")`. -/
theorem public_policy_not_interesting :
    (sampleDeps true).IsPublic ((sampleDeps true).ParseJSONPolicy "* can invoke".toList).1 =
        true ∧
      isResourcePolicyInteresting "* can invoke".toList = false ∧
      (getAPIGatewayPoliciesPerRegionBody (sampleDeps true) "111122223333".toList
          "us-east-1".toList
          { Id := "abc123".toList, Name := some "orders".toList,
            Policy := some "* can invoke".toList,
            Types := [EndpointTypePrivate] }).sent.map (fun f => f.Interesting) =
        ["No".toList] ∧
      (getVPCEndpointPoliciesPerRegionBody (sampleDeps true) "111122223333".toList
          "us-east-1".toList
          { VpcEndpointId := some "vpce-1".toList,
            PolicyDocument := some "* can invoke".toList }).sent.map
          (fun f => f.Interesting) = ["No".toList] ∧
      (sampleDeps true).IsPublic ((sampleDeps true).ParseJSONPolicy "alice can read".toList).1 =
        false ∧
      isResourcePolicyInteresting "alice can read".toList = false ∧
      (getOpenSearchPoliciesPerRegionBody (sampleDeps true) "111122223333".toList
          "us-east-1".toList
          { DomainName := some "search".toList
            CachedOpenSearchDescribeDomainConfig := (some false, none)
            CachedOpenSearchDescribeDomain :=
              ((some "arn:aws:es:us-east-1:111122223333:domain/search".toList,
                some "alice can read".toList), none) }).sent.map
          (fun f => f.Interesting) = [yes (sampleDeps true)] ∧
      yes (sampleDeps true) ≠ "No".toList := by
  decide

end Tasks

end CloudFox
